import Mathlib

/-!
# The gvfs mount tracker (`daemon/mount.c`) and prompt relay

A shallow embedding of the mount registry kept by the gvfs daemon (the list of
registered mounts, the `fuse_available` latch, the `RegisterMount` handler, the
peer-vanished handler, the fuse-path lookup and the wire encoder), of the
coordinator that mounts a location through a helper (`mountable_mount`,
`spawn_mount` and their callbacks, `lookup_mount`, `MountLocation`), of the
relay of prompts in `common/gmountoperationdbus.c`, of the loader of the
catalog (`read_mountable_config`, `re_read_mountable_config`) and of the
unmount job of `daemon/gvfsjobunmount.c`, followed by the properties
established about them.

Conventions of the embedding.

* A C string is the list of its bytes before the terminating NUL (`CStr`);
  `strcmp (a, b) == 0` is equality of the two lists.
* A pointer that may be `NULL` is an `Option`.
* The `GList` globals `mounts` and `mountables` and the flag `fuse_available`
  are the fields of `Tracker`; a handler takes the tracker and returns the new
  tracker together with what it sent (its reply and the broadcasts it asked
  for).
* `GMountSpec` lives outside `mount.c`; its operations are the fields of
  `GMountSpecOps` and every result holds for all of them.
* The GLib helpers `g_uri_escape_string`, `g_build_filename` and
  `g_str_has_prefix` are modelled after GLib's implementation on Unix.
* An asynchronous call is an `Effect` that carries the data of its callback;
  the callback is a function of that data and of what the call came back with.
  What a system call returns is an argument (`SpawnEnv`).
* A C `int` is an `Int`, with the wrap-around written out where it is
  incremented or converted (`int_wrap`, `to_guint32`).
* `automount_done` calls `lookup_mount` again: the callbacks take that
  `lookup_mount` as an argument, and `lookup_mount` itself counts these
  re-entries down from a fuel; two units of fuel are never used up.
* The configuration directory is an argument of the loader: the entries that
  `g_dir_read_name` gives and, for each, what the getters of its `GKeyFile`
  return (`MountableDir`, `GKeyFile`).
* The pointer `mountable` of `MountData` is the descriptor it pointed to when
  the record was filled in; that a callback does not read it is stated as the
  callback doing the same for every value of that member.
-/

namespace Gvfs

/-- Bytes of a C string, without the terminating NUL. -/
abbrev CStr := List Nat

/-- Bytes of an ASCII string literal. -/
def cstr (s : String) : CStr := s.toList.map Char.toNat

/-! ## GLib helpers -/

/-- Test `g_ascii_isalnum` on a byte. -/
def g_ascii_isalnum (c : Nat) : Bool :=
  (48 ≤ c && c ≤ 57) || (65 ≤ c && c ≤ 90) || (97 ≤ c && c ≤ 122)

/-- Test `is_valid` of gurifuncs.c: alphanumerics, `-`, `.`, `_`, `~`, and the
bytes of `reserved_chars_allowed` (the `strchr` test) are left unescaped. -/
def is_valid (c : Nat) (reserved_chars_allowed : CStr) : Bool :=
  g_ascii_isalnum c || c == 45 || c == 46 || c == 95 || c == 126 ||
    decide (c ∈ reserved_chars_allowed)

/-- Table `g_utf8_skip`: the length of a UTF-8 sequence from its first byte. -/
def g_utf8_skip (c : Nat) : Nat :=
  if c < 0xc0 then 1
  else if c < 0xe0 then 2
  else if c < 0xf0 then 3
  else if c < 0xf8 then 4
  else if c < 0xfc then 5
  else if c < 0xfe then 6
  else 1

/-- Continuation loop of `g_utf8_get_char_extended`: each of the next `n` bytes
must have the form `10xxxxxx` (`(ch & 0xc0) == 0x80`, that is `ch / 64 = 2` for
a byte) and contributes six bits (`wc <<= 6; wc |= ch & 0x3f`). A missing or
malformed byte gives `none`. -/
def utf8_continuation : Nat → Nat → CStr → Option Nat
  | 0, wc, _ => some wc
  | _ + 1, _, [] => none
  | n + 1, wc, ch :: rest =>
    if ch / 64 = 2 then utf8_continuation n (wc * 64 + ch % 64) rest else none

/-- Function `g_utf8_get_char_extended` at a string whose bytes are `p`, with
`max_len` the whole remaining length: `none` stands for the two error values
`(gunichar)-1` and `(gunichar)-2`. The masks `wc & 0x1f`, `0x0f`, ... are
`wc % 32`, `wc % 16`, ... -/
def g_utf8_get_char_extended : CStr → Option Nat
  | [] => none
  | wc :: rest =>
    if wc < 0x80 then some wc
    else if wc < 0xc0 then none
    else if wc < 0xe0 then
      (utf8_continuation 1 (wc % 32) rest).bind fun r => if r < 2 ^ 7 then none else some r
    else if wc < 0xf0 then
      (utf8_continuation 2 (wc % 16) rest).bind fun r => if r < 2 ^ 11 then none else some r
    else if wc < 0xf8 then
      (utf8_continuation 3 (wc % 8) rest).bind fun r => if r < 2 ^ 16 then none else some r
    else if wc < 0xfc then
      (utf8_continuation 4 (wc % 4) rest).bind fun r => if r < 2 ^ 21 then none else some r
    else if wc < 0xfe then
      (utf8_continuation 5 (wc % 2) rest).bind fun r => if r < 2 ^ 26 then none else some r
    else none

/-- Test `UNICODE_VALID`: below 0x110000 and not a surrogate
(`(c & 0xFFFFF800) != 0xD800`). -/
def UNICODE_VALID (c : Nat) : Bool :=
  decide (c < 0x110000) && !(decide (c / 0x800 = 0xD800 / 0x800))

/-- Function `g_utf8_get_char_validated`; `none` stands for the error values
that `gunichar_ok` rejects. -/
def g_utf8_get_char_validated (p : CStr) : Option Nat :=
  (g_utf8_get_char_extended p).bind fun r => if UNICODE_VALID r then some r else none

/-- Digit `hex[i]` of `"0123456789ABCDEF"`. -/
def hex (i : Nat) : Nat := if i < 10 then 48 + i else 55 + i

/-- Loop of `g_string_append_uri_escaped`. The first argument counts the bytes
of a multi-byte UTF-8 sequence that `g_string_append_len` still has to copy. -/
def uri_escape_loop (reserved_chars_allowed : CStr) (allow_utf8 : Bool) : Nat → CStr → CStr
  | _, [] => []
  | pending + 1, c :: rest => c :: uri_escape_loop reserved_chars_allowed allow_utf8 pending rest
  | 0, c :: rest =>
    if decide (c ≥ 0x80) && allow_utf8 && (g_utf8_get_char_validated (c :: rest)).isSome then
      c :: uri_escape_loop reserved_chars_allowed allow_utf8 (g_utf8_skip c - 1) rest
    else if is_valid c reserved_chars_allowed then
      c :: uri_escape_loop reserved_chars_allowed allow_utf8 0 rest
    else
      37 :: hex (c / 16) :: hex (c % 16) :: uri_escape_loop reserved_chars_allowed allow_utf8 0 rest

/-- Function `g_uri_escape_string (unescaped, reserved_chars_allowed, allow_utf8)`. -/
def g_uri_escape_string (unescaped reserved_chars_allowed : CStr) (allow_utf8 : Bool) : CStr :=
  uri_escape_loop reserved_chars_allowed allow_utf8 0 unescaped

/-- Working variables of `g_build_path_va`. -/
structure BuildPath where
  result : CStr
  is_first : Bool
  have_leading : Bool
  single_element : Option CStr
  last_trailing : Option CStr

/-- One turn of the loop of `g_build_path_va` with separator `/` (byte 47).
`lead` is `element .. start`, `body` is `start .. end`, and the string at
`last_trailing` is the run of separators that ends the element (the whole
element when it holds nothing but separators, the case `last_trailing <= start`). -/
def g_build_path_step (st : BuildPath) (element : CStr) : BuildPath :=
  if element = [] then st
  else
    let lead := element.takeWhile (· == 47)
    let start := element.dropWhile (· == 47)
    let body := (start.reverse.dropWhile (· == 47)).reverse
    let trailing := if body = [] then element else start.drop body.length
    let st1 : BuildPath :=
      if st.have_leading then
        { st with single_element := none, last_trailing := some trailing }
      else
        { st with
          single_element := if body = [] then some element else st.single_element
          result := st.result ++ lead
          have_leading := true
          last_trailing := some trailing }
    if body = [] then st1
    else
      { st1 with
        result := st1.result ++ (if st1.is_first then [] else [47]) ++ body
        is_first := false }

/-- Function `g_build_filename` on Unix, on the list of its arguments. -/
def g_build_filename (elements : List CStr) : CStr :=
  let st := elements.foldl g_build_path_step ⟨[], true, false, none, none⟩
  match st.single_element with
  | some e => e
  | none => st.result ++ st.last_trailing.getD []

/-- Function `g_str_has_prefix (str, prefix)`. -/
def g_str_has_prefix (str pre : CStr) : Bool :=
  str.take pre.length == pre

/-! ## Data of the tracker -/

/-- Error codes of `GIOErrorEnum` that the daemon replies with. -/
inductive GIOError
  | FAILED
  | NOT_MOUNTED
  | ALREADY_MOUNTED
  | INVALID_ARGUMENT
  | NOT_SUPPORTED
  | BUSY
  deriving DecidableEq, Repr

/-- Operations of `GMountSpec` that `mount.c` calls. `Spec` is the parsed spec,
`Wire` its `GVariant` form; `g_mount_spec_from_dbus` gives `none` for `NULL`. -/
structure GMountSpecOps (Spec Wire : Type) where
  g_mount_spec_from_dbus : Wire → Option Spec
  g_mount_spec_to_dbus : Spec → Wire
  g_mount_spec_match : Spec → Spec → Bool
  g_mount_spec_get_type : Spec → Option CStr

/-- Record `VfsMount`. Only `fuse_mountpoint` can be `NULL`. -/
structure VfsMount (Spec : Type) where
  display_name : CStr
  stable_name : CStr
  x_content_types : CStr
  icon : CStr
  prefered_filename_encoding : CStr
  user_visible : Bool
  default_location : CStr
  fuse_mountpoint : Option CStr
  dbus_id : CStr
  object_path : CStr
  name_watcher_id : Nat
  mount_spec : Spec
  deriving DecidableEq

/-- Record `VfsMountable`. -/
structure VfsMountable where
  type : CStr
  exec : Option CStr
  dbus_name : Option CStr
  automount : Bool
  scheme : Option CStr
  scheme_aliases : Option (List CStr)
  default_port : Int
  hostname_is_inet : Bool
  deriving DecidableEq

/-- The file-scope variables `mountables`, `mounts` and `fuse_available`. -/
structure Tracker (Spec : Type) where
  mountables : List VfsMountable
  mounts : List (VfsMount Spec)
  fuse_available : Bool
  deriving DecidableEq

/-- A static string handed out by GLib: its address and its bytes. The address
is what the comparison `g_get_user_runtime_dir() == g_get_user_cache_dir ()`
looks at. -/
structure GStatic where
  addr : Nat
  str : CStr

/-- Results of `g_get_home_dir`, `g_get_user_runtime_dir` and
`g_get_user_cache_dir`. -/
structure Env where
  home_dir : CStr
  user_runtime_dir : GStatic
  user_cache_dir : GStatic

/-- One member of a `GVariant` tuple, tagged with its D-Bus type: `s`, `o`,
`b`, `ay` (`^ay`) and the mount-spec struct `(aya{sv})`. -/
inductive GVariant (Wire : Type)
  | s (v : CStr)
  | o (v : CStr)
  | b (v : Bool)
  | ay (v : CStr)
  | spec (v : Wire)
  deriving DecidableEq

/-- Record `SignalMountedData`: the encoded mount and whether `Mounted` or
`Unmounted` is to be emitted once the tracker proxy is there. -/
structure SignalMountedData (Wire : Type) where
  mount : List (GVariant Wire)
  mounted : Bool
  deriving DecidableEq

/-- What a method invocation is answered with. -/
inductive Reply (Wire : Type)
  | complete
  | value (v : List (GVariant Wire))
  | error (code : GIOError) (message : String)
  deriving DecidableEq

/-- Effect of one handler: the tracker afterwards, the reply, and the
broadcasts asked for through `signal_mounted_unmounted`, in order. -/
structure Outcome (Spec Wire : Type) where
  tracker : Tracker Spec
  reply : Reply Wire
  signals : List (SignalMountedData Wire)
  deriving DecidableEq

/-- Arguments of the `RegisterMount` method. -/
structure RegisterMountArgs (Wire : Type) where
  arg_obj_path : CStr
  arg_display_name : CStr
  arg_stable_name : CStr
  arg_x_content_types : CStr
  arg_icon : CStr
  arg_prefered_filename_encoding : CStr
  arg_user_visible : Bool
  arg_mount_spec : Wire
  arg_default_location : Option CStr
  deriving DecidableEq

/-! ## Lookups in the registry -/

section Registry

variable {Spec Wire : Type}

/-- Function `find_vfs_mount`: the first mount with this `dbus_id` and
`object_path`. -/
def find_vfs_mount (mounts : List (VfsMount Spec)) (dbus_id obj_path : CStr) :
    Option (VfsMount Spec) :=
  mounts.find? fun mount => decide (mount.dbus_id = dbus_id) && decide (mount.object_path = obj_path)

/-- Test of the loop body of `find_vfs_mount_by_fuse_path`: the mountpoint is
set and is a prefix of `fuse_path`, and `fuse_path[len]` is the terminating NUL
(nothing is left after `len` bytes) or `/`. -/
def fuse_path_matches (fuse_path : CStr) (mount : VfsMount Spec) : Bool :=
  match mount.fuse_mountpoint with
  | none => false
  | some fuse_mountpoint =>
    ( g_str_has_prefix fuse_path fuse_mountpoint) &&
      (match fuse_path.drop fuse_mountpoint.length with
       | [] => true
       | c :: _ => c == 47)

/-- Function `find_vfs_mount_by_fuse_path`. -/
def find_vfs_mount_by_fuse_path (t : Tracker Spec) (fuse_path : CStr) : Option (VfsMount Spec) :=
  if !t.fuse_available then none
  else t.mounts.find? (fuse_path_matches fuse_path)

/-- Function `match_vfs_mount`: the first mount whose spec matches `spec`. -/
def match_vfs_mount (ops : GMountSpecOps Spec Wire) (mounts : List (VfsMount Spec)) (spec : Spec) :
    Option (VfsMount Spec) :=
  mounts.find? fun mount => ops.g_mount_spec_match mount.mount_spec spec

/-- Function `find_mountable`. -/
def find_mountable (mountables : List VfsMountable) (type : CStr) : Option VfsMountable :=
  mountables.find? fun mountable => decide (mountable.type = type)

/-- Function `lookup_mountable`. -/
def lookup_mountable (ops : GMountSpecOps Spec Wire) (mountables : List VfsMountable)
    (spec : Spec) : Option VfsMountable :=
  match ops.g_mount_spec_get_type spec with
  | none => none
  | some type => find_mountable mountables type

/-- Function `vfs_mount_to_dbus`, format `(sosssssb^ay@(aya{sv})^ay)`. -/
def vfs_mount_to_dbus (ops : GMountSpecOps Spec Wire) (fuse_available : Bool)
    (mount : VfsMount Spec) : List (GVariant Wire) :=
  [ .s mount.dbus_id,
    .o mount.object_path,
    .s mount.display_name,
    .s mount.stable_name,
    .s mount.x_content_types,
    .s mount.icon,
    .s mount.prefered_filename_encoding,
    .b mount.user_visible,
    .ay (match fuse_available, mount.fuse_mountpoint with
         | true, some fuse_mountpoint => fuse_mountpoint
         | _, _ => []),
    .spec (ops.g_mount_spec_to_dbus mount.mount_spec),
    .ay mount.default_location ]

/-- Function `signal_mounted_unmounted`: encodes the mount now and asks for the
tracker proxy; `mount_tracker_proxy_cb` emits the signal with this data. -/
def signal_mounted_unmounted (ops : GMountSpecOps Spec Wire) (fuse_available : Bool)
    (mount : VfsMount Spec) (mounted : Bool) : SignalMountedData Wire :=
  { mount := vfs_mount_to_dbus ops fuse_available mount, mounted := mounted }

/-- Function `dbus_client_disconnected`: walks `mounts`; each mount of
`dbus_id` is signalled as unmounted and its link deleted. Returns the list that
is left and the signals in the order of the walk. -/
def dbus_client_disconnected (ops : GMountSpecOps Spec Wire) (fuse_available : Bool) :
    List (VfsMount Spec) → CStr → List (VfsMount Spec) × List (SignalMountedData Wire)
  | [], _ => ([], [])
  | mount :: next, dbus_id =>
    let r := dbus_client_disconnected ops fuse_available next dbus_id
    if mount.dbus_id = dbus_id then
      (r.1, signal_mounted_unmounted ops fuse_available mount false :: r.2)
    else
      (mount :: r.1, r.2)

/-- Callback `name_vanished_cb`. -/
def name_vanished_cb (ops : GMountSpecOps Spec Wire) (t : Tracker Spec) (name : CStr) :
    Tracker Spec × List (SignalMountedData Wire) :=
  let r := dbus_client_disconnected ops t.fuse_available t.mounts name
  ({ t with mounts := r.1 }, r.2)

/-- The `VfsMount` that the last branch of `handle_register_mount` allocates
and fills in, from the sender `id`, the arguments, the parsed spec and the
watcher id. -/
def register_mount_new (env : Env) (id : CStr) (a : RegisterMountArgs Wire) (mount_spec : Spec)
    (watcher_id : Nat) : VfsMount Spec where
  display_name := a.arg_display_name
  stable_name := a.arg_stable_name
  x_content_types := a.arg_x_content_types
  icon := a.arg_icon
  prefered_filename_encoding := a.arg_prefered_filename_encoding
  user_visible := a.arg_user_visible
  dbus_id := id
  object_path := a.arg_obj_path
  mount_spec := mount_spec
  default_location :=
    match a.arg_default_location with
    | some l => l
    | none => []
  fuse_mountpoint :=
    if a.arg_user_visible then
      let fs_name := g_uri_escape_string a.arg_stable_name (cstr "+@#$., ") true
      if env.user_runtime_dir.addr = env.user_cache_dir.addr then
        some (g_build_filename [env.home_dir, cstr ".gvfs", fs_name])
      else
        some (g_build_filename [env.user_runtime_dir.str, cstr "gvfs", fs_name])
    else none
  name_watcher_id := watcher_id

/-- Handler `handle_register_mount`. `id` is the sender of the invocation and
`watcher_id` what `g_bus_watch_name` returns for it. -/
def handle_register_mount (ops : GMountSpecOps Spec Wire) (env : Env) (t : Tracker Spec)
    (id : CStr) (a : RegisterMountArgs Wire) (watcher_id : Nat) : Outcome Spec Wire :=
  if (find_vfs_mount t.mounts id a.arg_obj_path).isSome then
    ⟨t, .error .ALREADY_MOUNTED "Mountpoint Already registered", []⟩
  else
    match ops.g_mount_spec_from_dbus a.arg_mount_spec with
    | none => ⟨t, .error .INVALID_ARGUMENT "Error in mount spec", []⟩
    | some mount_spec =>
      if (match_vfs_mount ops t.mounts mount_spec).isSome then
        ⟨t, .error .ALREADY_MOUNTED "Mountpoint Already registered", []⟩
      else
        let mount := register_mount_new env id a mount_spec watcher_id
        ⟨{ t with mounts := mount :: t.mounts }, .complete,
          [signal_mounted_unmounted ops t.fuse_available mount true]⟩

/-- Handler `handle_register_fuse`. -/
def handle_register_fuse (t : Tracker Spec) : Outcome Spec Wire :=
  ⟨{ t with fuse_available := true }, .complete, []⟩

/-- Handler `handle_lookup_mount_by_fuse_path`. -/
def handle_lookup_mount_by_fuse_path (ops : GMountSpecOps Spec Wire) (t : Tracker Spec)
    (arg_fuse_path : CStr) : Outcome Spec Wire :=
  match find_vfs_mount_by_fuse_path t arg_fuse_path with
  | none => ⟨t, .error .NOT_MOUNTED "The specified location is not mounted", []⟩
  | some mount => ⟨t, .value (vfs_mount_to_dbus ops t.fuse_available mount), []⟩

/-- Handler `handle_list_mounts`. -/
def handle_list_mounts (ops : GMountSpecOps Spec Wire) (t : Tracker Spec) :
    List (List (GVariant Wire)) :=
  t.mounts.map (vfs_mount_to_dbus ops t.fuse_available)

/-! ## Runs of the tracker -/

/-- What the main loop delivers to the registry: a `RegisterMount` call, a
`RegisterFuse` call, or the vanishing of a watched bus name. -/
inductive Event (Wire : Type)
  | register_mount (id : CStr) (a : RegisterMountArgs Wire) (watcher_id : Nat)
  | register_fuse
  | name_vanished (name : CStr)

/-- The tracker after one event. -/
def step (ops : GMountSpecOps Spec Wire) (env : Env) (t : Tracker Spec) :
    Event Wire → Tracker Spec
  | .register_mount id a watcher_id => (handle_register_mount ops env t id a watcher_id).tracker
  | .register_fuse => (handle_register_fuse t : Outcome Spec Wire).tracker
  | .name_vanished name => (name_vanished_cb ops t name).1

/-- The tracker after a sequence of events. -/
def run (ops : GMountSpecOps Spec Wire) (env : Env) (t : Tracker Spec) (evs : List (Event Wire)) :
    Tracker Spec :=
  evs.foldl (step ops env) t

/-- The tracker when `mount_init` has read the configuration: no mount, fuse
not registered. -/
def mount_init (mountables : List VfsMountable) : Tracker Spec :=
  { mountables := mountables, mounts := [], fuse_available := false }

/-! ## Properties stated on the registry -/

/-- The key of a mount: the owning peer and the object path. -/
def VfsMount.key (m : VfsMount Spec) : CStr × CStr := (m.dbus_id, m.object_path)

/-- No two mounts of the list have specs that match, in either argument order. -/
def SpecsDisjoint (ops : GMountSpecOps Spec Wire) (mounts : List (VfsMount Spec)) : Prop :=
  mounts.Pairwise fun a b =>
    ops.g_mount_spec_match a.mount_spec b.mount_spec = false ∧
      ops.g_mount_spec_match b.mount_spec a.mount_spec = false

/-- No mount of the list is matched by a mount registered before it. The list
is newest first, so the earlier mount is the one further back. -/
def SpecsUnmatchedByEarlier (ops : GMountSpecOps Spec Wire) (mounts : List (VfsMount Spec)) :
    Prop :=
  mounts.Pairwise fun later earlier =>
    ops.g_mount_spec_match earlier.mount_spec later.mount_spec = false

/-- What the description of the fuse-path lookup asks of a mount: its
mountpoint is set, and `path` is the mountpoint or begins with the mountpoint
followed by `/` (byte 47). -/
def FusePathSpec (path : CStr) (m : VfsMount Spec) : Prop :=
  ∃ mp, m.fuse_mountpoint = some mp ∧ (path = mp ∨ ∃ rest, path = mp ++ 47 :: rest)

end Registry

/-! ## The description of the fuse mountpoint -/

/-- The three bytes `%XX` that stand for the byte `c`. -/
def percent_encode (c : Nat) : CStr := [37, hex (c / 16), hex (c % 16)]

/-- The unreserved characters of a URI: letters, digits, `-`, `.`, `_`, `~`. -/
def unreserved (c : Nat) : Bool :=
  (48 ≤ c && c ≤ 57) || (65 ≤ c && c ≤ 90) || (97 ≤ c && c ≤ 122) ||
    c == 45 || c == 46 || c == 95 || c == 126

/-- The described escaping of one byte: unreserved characters and the
characters `+`, `@`, `#`, `$`, `.`, `,` and space stay, every other byte is
percent-encoded. -/
def spec_escape_byte (c : Nat) : CStr :=
  if unreserved c || c == 43 || c == 64 || c == 35 || c == 36 || c == 46 || c == 44 || c == 32
  then [c]
  else percent_encode c

/-- The described escaping of a string, byte by byte. -/
def spec_escape (s : CStr) : CStr := s.flatMap spec_escape_byte

/-- The described fuse mountpoint: the base directory, `<runtime-dir>/gvfs`
when the runtime dir is another string than the cache dir and `<home>/.gvfs`
otherwise, then `/` and the escaped stable name as the last segment. -/
def spec_fuse_mountpoint (env : Env) (stable_name : CStr) : CStr :=
  (if env.user_runtime_dir.addr = env.user_cache_dir.addr then env.home_dir ++ cstr "/.gvfs"
   else env.user_runtime_dir.str ++ cstr "/gvfs") ++ 47 :: spec_escape stable_name

/-- The UTF-8 bytes of the code point `c`. -/
def utf8_encode (c : Nat) : CStr :=
  if c < 0x80 then [c]
  else if c < 0x800 then [0xc0 + c / 64, 0x80 + c % 64]
  else if c < 0x10000 then [0xe0 + c / 4096, 0x80 + c / 64 % 64, 0x80 + c % 64]
  else [0xf0 + c / 262144, 0x80 + c / 4096 % 64, 0x80 + c / 64 % 64, 0x80 + c % 64]

/-- The UTF-8 bytes of a string given by its characters (U+0000 does not occur
in a C string). -/
def utf8_string (cs : List Char) : CStr := cs.flatMap fun c => utf8_encode c.toNat

/-- The escaping of one character of a UTF-8 string: an ASCII character as
described byte by byte, any other character kept as its UTF-8 bytes. -/
def escape_char (c : Char) : CStr :=
  if c.toNat < 0x80 then spec_escape_byte c.toNat else utf8_encode c.toNat

/-- The directory and the fixed segment under which the fuse mountpoints live:
the home dir and `.gvfs` when `g_get_user_runtime_dir ()` is the same pointer
as `g_get_user_cache_dir ()`, else the runtime dir and `gvfs`. -/
def fuse_base (env : Env) : CStr × CStr :=
  if env.user_runtime_dir.addr = env.user_cache_dir.addr then (env.home_dir, cstr ".gvfs")
  else (env.user_runtime_dir.str, cstr "gvfs")

/-! ## A sample mount spec -/

/-- A sample mount spec for concrete runs: a type and a mount prefix. -/
structure SampleSpec where
  type : CStr
  mount_prefix : CStr
  deriving DecidableEq

/-- Sample operations on `SampleSpec`. The wire form is the spec itself, or
`none` for a variant that does not parse. A mount matches a spec of its type
whose prefix extends the prefix of the mount. -/
def sampleOps : GMountSpecOps SampleSpec (Option SampleSpec) where
  g_mount_spec_from_dbus := fun w => w
  g_mount_spec_to_dbus := fun spec => some spec
  g_mount_spec_match := fun mount spec =>
    decide (mount.type = spec.type) && mount.mount_prefix.isPrefixOf spec.mount_prefix
  g_mount_spec_get_type := fun spec => some spec.type

/-- Sample directories: home `/home/u`, runtime dir `/run/user/1000`, cache dir
`/home/u/.cache`, two different static strings. -/
def sampleEnv : Env where
  home_dir := cstr "/home/u"
  user_runtime_dir := ⟨1, cstr "/run/user/1000"⟩
  user_cache_dir := ⟨2, cstr "/home/u/.cache"⟩

/-- Sample `RegisterMount` arguments for a spec of type `smb`. -/
def sampleArgs (obj_path stable_name mount_prefix : String) (user_visible : Bool) :
    RegisterMountArgs (Option SampleSpec) where
  arg_obj_path := cstr obj_path
  arg_display_name := cstr "Disk"
  arg_stable_name := cstr stable_name
  arg_x_content_types := []
  arg_icon := []
  arg_prefered_filename_encoding := cstr "UTF-8"
  arg_user_visible := user_visible
  arg_mount_spec := some ⟨cstr "smb", cstr mount_prefix⟩
  arg_default_location := some (cstr "/srv/share")

/-! ## The spawn coordinator -/

/-- Domain and code of a `GError`: a code of `G_IO_ERROR`, or any other pair of
a domain and a code. -/
inductive GErrorCode
  | io (code : GIOError)
  | other (domain : String) (code : Int)
  deriving DecidableEq

/-- Record `GError`. -/
structure GError where
  code : GErrorCode
  message : String
  deriving DecidableEq

/-- Operations of `GMountSource` that `mount.c` calls. `Source` is the mount
source, `SourceWire` its `GVariant` form. -/
structure GMountSourceOps (Source SourceWire : Type) where
  g_mount_source_new_dummy : Source
  g_mount_source_from_dbus : SourceWire → Source
  g_mount_source_to_dbus : Source → SourceWire

/-- Record `AutoMountData`; the invocation is named by a number. The `object`
member is the one tracker skeleton. -/
structure AutoMountData (Spec : Type) where
  invocation : Nat
  spec : Spec
  deriving DecidableEq

/-- The members `callback` and `user_data` of `MountData`: `automount_done`
with its `AutoMountData`, or `mount_location_done` with its invocation. -/
inductive MountCallback (Spec : Type)
  | automount_done (data : AutoMountData Spec)
  | mount_location_done (invocation : Nat)
  deriving DecidableEq

/-- Record `MountData`. `mountable` is what the pointer into the catalog
pointed to when the record was filled in; `spawner` says whether the skeleton
was created. -/
structure MountData (Spec Source : Type) where
  mountable : VfsMountable
  automount : Bool
  source : Source
  mount_spec : Spec
  callback : MountCallback Spec
  obj_path : Option CStr
  spawned : Bool
  spawner : Bool
  deriving DecidableEq

/-- The calls that the coordinator and its callbacks make on the bus and on the
system, besides the reads and writes of the file-scope variables. An
asynchronous call carries the `MountData` that its callback gets back. Whether
a call succeeds is told by `SpawnEnv` or by the arguments of the callback. -/
inductive Effect (Spec Wire Source SourceWire : Type)
  | reply (invocation : Nat) (r : Reply Wire)
  | return_gerror (invocation : Nat) (error : GError)
  | proxy_new_for_bus (dbus_name : CStr) (data : MountData Spec Source)
  | call_mount (dbus_name : CStr) (mount_spec : Wire) (automount : Bool) (source : SourceWire)
      (data : MountData Spec Source)
  | skeleton_export (obj_path : CStr) (data : MountData Spec Source)
  | skeleton_unexport (obj_path : Option CStr)
  | spawn_command_line_async (command_line : CStr)
  | complete_spawned (invocation : Nat)
  deriving DecidableEq

/-- The file-scope variables of `mount.c` together with the static counter
`mount_id` of `spawn_mount`, a C `int`. -/
structure Broker (Spec : Type) where
  tracker : Tracker Spec
  mount_id : Int
  deriving DecidableEq

/-- A session bus connection: its unique name. -/
structure GDBusConnection where
  unique_name : Option CStr

/-- What the calls of `spawn_mount` that can fail return: the connection or the
error of `g_bus_get_sync`, and the error, if any, of
`g_dbus_interface_skeleton_export` and of `g_spawn_command_line_async`. -/
structure SpawnEnv where
  g_bus_get_sync : Except GError GDBusConnection
  g_dbus_interface_skeleton_export : Option GError
  g_spawn_command_line_async : Option GError

/-- What one dispatch leaves behind: the variables afterwards, the `MountData`
records it allocated (one for each call of `mountable_mount`), and the calls it
made, in order. -/
structure Step (Spec Wire Source SourceWire : Type) where
  broker : Broker Spec
  started : List (MountData Spec Source)
  effects : List (Effect Spec Wire Source SourceWire)
  deriving DecidableEq

/-- The type of `lookup_mount` seen from `automount_done`, which calls it with
`do_automount` set to `FALSE`. `none` is a lookup that ran out of fuel. -/
abbrev Relookup (Spec Wire Source SourceWire : Type) :=
  Broker Spec → SpawnEnv → Nat → Spec → Option (Step Spec Wire Source SourceWire)

/-- Conversion of a C `int` that overflowed, as two's complement does it. -/
def int_wrap (i : Int) : Int := (i + 2 ^ 31) % 2 ^ 32 - 2 ^ 31

/-- Decimal digits of `n`, most significant first, in front of `acc`. -/
def decimal_loop : Nat → Nat → CStr → CStr
  | 0, _, acc => acc
  | fuel + 1, n, acc =>
    if n / 10 = 0 then (48 + n % 10) :: acc
    else decimal_loop fuel (n / 10) ((48 + n % 10) :: acc)

/-- Decimal digits of a natural number. -/
def decimal (n : Nat) : CStr := decimal_loop (n + 1) n []

/-- Conversion `%d` of `printf`. -/
def printf_d (i : Int) : CStr :=
  if i < 0 then 45 :: decimal (-i).toNat else decimal i.toNat

/-- Function `g_strconcat`: the arguments up to the first `NULL`, joined. -/
def g_strconcat : List (Option CStr) → CStr
  | [] => []
  | none :: _ => []
  | some s :: rest => s ++ g_strconcat rest

/-- Function `g_set_error_literal (&err, ...)` on the value that `err` holds:
a new error when it holds `NULL`; otherwise a warning, and `err` is left as it
is. -/
def g_set_error_literal (err : Option GError) (code : GErrorCode) (message : String) :
    Option GError :=
  match err with
  | none => some ⟨code, message⟩
  | some e => some e

section Coordinator

variable {Spec Wire Source SourceWire : Type}

/-- Callback `automount_done`. -/
def automount_done (relookup : Relookup Spec Wire Source SourceWire) (b : Broker Spec)
    (env : SpawnEnv) (data : AutoMountData Spec) (error : Option GError) :
    Option (Step Spec Wire Source SourceWire) :=
  match error with
  | some e =>
    some ⟨b, [], [.reply data.invocation
      (.error .NOT_MOUNTED ("Automount failed: " ++ e.message))]⟩
  | none => relookup b env data.invocation data.spec

/-- Callback `mount_location_done`. -/
def mount_location_done (invocation : Nat) (error : Option GError) :
    List (Effect Spec Wire Source SourceWire) :=
  match error with
  | some e => [.return_gerror invocation e]
  | none => [.reply invocation (.value [])]

/-- Function `mount_finish`: calls the callback of the record. -/
def mount_finish (relookup : Relookup Spec Wire Source SourceWire) (b : Broker Spec)
    (env : SpawnEnv) (data : MountData Spec Source) (error : Option GError) :
    Option (Step Spec Wire Source SourceWire) :=
  match data.callback with
  | .automount_done d => automount_done relookup b env d error
  | .mount_location_done invocation => some ⟨b, [], mount_location_done invocation error⟩

/-- Callback `dbus_mount_reply`; `res` is the error of
`gvfs_dbus_mountable_call_mount_finish`, if any. -/
def dbus_mount_reply (relookup : Relookup Spec Wire Source SourceWire) (b : Broker Spec)
    (env : SpawnEnv) (data : MountData Spec Source) (res : Option GError) :
    Option (Step Spec Wire Source SourceWire) :=
  match res with
  | some error => mount_finish relookup b env data (some error)
  | none => mount_finish relookup b env data none

/-- Callback `mountable_mount_proxy_cb`; `proxy` is the error of
`gvfs_dbus_mountable_proxy_new_for_bus_finish` or the bus name that the proxy
talks to. -/
def mountable_mount_proxy_cb (ops : GMountSpecOps Spec Wire)
    (srcops : GMountSourceOps Source SourceWire)
    (relookup : Relookup Spec Wire Source SourceWire) (b : Broker Spec) (env : SpawnEnv)
    (data : MountData Spec Source) (proxy : Except GError CStr) :
    Option (Step Spec Wire Source SourceWire) :=
  match proxy with
  | .error error => mount_finish relookup b env data (some error)
  | .ok dbus_name =>
    some ⟨b, [], [.call_mount dbus_name (ops.g_mount_spec_to_dbus data.mount_spec) data.automount
      (srcops.g_mount_source_to_dbus data.source) data]⟩

/-- Function `mountable_mount_with_name`. -/
def mountable_mount_with_name (data : MountData Spec Source) (dbus_name : CStr) :
    List (Effect Spec Wire Source SourceWire) :=
  [.proxy_new_for_bus dbus_name data]

/-- Handler `spawn_mount_handle_spawned`. `sender` is the sender of the
invocation. The local variable `error` is declared without a value: `error` is
the value that it holds when `g_set_error_literal` is called. -/
def spawn_mount_handle_spawned (relookup : Relookup Spec Wire Source SourceWire)
    (b : Broker Spec) (env : SpawnEnv) (data : MountData Spec Source) (invocation : Nat)
    (sender : CStr) (arg_succeeded : Bool) (arg_error_message : String)
    (error : Option GError) : Option (Step Spec Wire Source SourceWire) :=
  if !arg_succeeded then
    (mount_finish relookup b env data
      (g_set_error_literal error (.io .FAILED) arg_error_message)).map fun r =>
      { r with
        effects := .skeleton_unexport data.obj_path :: r.effects ++ [.complete_spawned invocation] }
  else
    some ⟨b, [], .skeleton_unexport data.obj_path ::
      mountable_mount_with_name data sender ++ [.complete_spawned invocation]⟩

/-- Function `spawn_mount`: the record as it is afterwards, and the step. -/
def spawn_mount (relookup : Relookup Spec Wire Source SourceWire) (b : Broker Spec)
    (env : SpawnEnv) (data : MountData Spec Source) :
    Option (MountData Spec Source × Step Spec Wire Source SourceWire) :=
  let data := { data with spawned := true }
  match data.mountable.exec with
  | none =>
    (mount_finish relookup b env data
      (g_set_error_literal none (.io .FAILED) "No exec key defined for mountpoint")).map
      fun r => (data, r)
  | some exec =>
    let obj_path := cstr "/org/gtk/gvfs/exec_spaw/" ++ printf_d b.mount_id
    let data := { data with obj_path := some obj_path }
    let b := { b with mount_id := int_wrap (b.mount_id + 1) }
    match env.g_bus_get_sync with
    | .error error => (mount_finish relookup b env data (some error)).map fun r => (data, r)
    | .ok connection =>
      let data := { data with spawner := true }
      match env.g_dbus_interface_skeleton_export with
      | some error =>
        (mount_finish relookup b env data (some error)).map fun r =>
          (data, { r with effects := .skeleton_export obj_path data :: r.effects })
      | none =>
        let exec_line := g_strconcat
          [some exec, some (cstr " --spawner "), connection.unique_name, some (cstr " "),
           data.obj_path]
        match env.g_spawn_command_line_async with
        | some error =>
          (mount_finish relookup b env data (some error)).map fun r =>
            (data, { r with
              effects := .skeleton_export obj_path data :: .spawn_command_line_async exec_line ::
                .skeleton_unexport data.obj_path :: r.effects })
        | none =>
          some (data, ⟨b, [],
            [.skeleton_export obj_path data, .spawn_command_line_async exec_line]⟩)

/-- Function `mountable_mount`. The record it allocates is the first of
`started`, as `spawn_mount` leaves it. -/
def mountable_mount (relookup : Relookup Spec Wire Source SourceWire) (b : Broker Spec)
    (env : SpawnEnv) (mountable : VfsMountable) (mount_spec : Spec) (source : Source)
    (automount : Bool) (callback : MountCallback Spec) :
    Option (Step Spec Wire Source SourceWire) :=
  let data : MountData Spec Source :=
    { mountable := mountable
      automount := automount
      source := source
      mount_spec := mount_spec
      callback := callback
      obj_path := none
      spawned := false
      spawner := false }
  match mountable.dbus_name with
  | none =>
    (spawn_mount relookup b env data).map fun r =>
      { r.2 with started := r.1 :: r.2.started }
  | some dbus_name => some ⟨b, [data], mountable_mount_with_name data dbus_name⟩

/-- Function `maybe_automount`. -/
def maybe_automount (ops : GMountSpecOps Spec Wire) (srcops : GMountSourceOps Source SourceWire)
    (relookup : Relookup Spec Wire Source SourceWire) (b : Broker Spec) (env : SpawnEnv)
    (spec : Spec) (invocation : Nat) (do_automount : Bool) :
    Option (Step Spec Wire Source SourceWire) :=
  match lookup_mountable ops b.tracker.mountables spec with
  | some mountable =>
    if do_automount && mountable.automount then
      mountable_mount relookup b env mountable spec srcops.g_mount_source_new_dummy true
        (.automount_done ⟨invocation, spec⟩)
    else
      some ⟨b, [], [.reply invocation
        (.error .NOT_MOUNTED "The specified location is not mounted")]⟩
  | none =>
    some ⟨b, [], [.reply invocation
      (.error .NOT_SUPPORTED "The specified location is not supported")]⟩

/-- Body of `lookup_mount`, with the `lookup_mount` that `automount_done` calls
as a parameter. -/
def lookup_mount_body (ops : GMountSpecOps Spec Wire)
    (srcops : GMountSourceOps Source SourceWire)
    (relookup : Relookup Spec Wire Source SourceWire) (b : Broker Spec) (env : SpawnEnv)
    (invocation : Nat) (spec : Spec) (do_automount : Bool) :
    Option (Step Spec Wire Source SourceWire) :=
  match match_vfs_mount ops b.tracker.mounts spec with
  | none => maybe_automount ops srcops relookup b env spec invocation do_automount
  | some mount =>
    some ⟨b, [], [.reply invocation
      (.value (vfs_mount_to_dbus ops b.tracker.fuse_available mount))]⟩

/-- Function `lookup_mount`. The fuel bounds how often `automount_done` may
come back to it. -/
def lookup_mount (ops : GMountSpecOps Spec Wire) (srcops : GMountSourceOps Source SourceWire) :
    Nat → Broker Spec → SpawnEnv → Nat → Spec → Bool →
      Option (Step Spec Wire Source SourceWire)
  | 0, _, _, _, _, _ => none
  | fuel + 1, b, env, invocation, spec, do_automount =>
    lookup_mount_body ops srcops
      (fun b' env' invocation' spec' => lookup_mount ops srcops fuel b' env' invocation' spec' false)
      b env invocation spec do_automount

/-- The `lookup_mount` that `automount_done` calls, with `fuel` left. -/
def relookup (ops : GMountSpecOps Spec Wire) (srcops : GMountSourceOps Source SourceWire)
    (fuel : Nat) : Relookup Spec Wire Source SourceWire :=
  fun b env invocation spec => lookup_mount ops srcops fuel b env invocation spec false

/-- Handler `handle_lookup_mount`. -/
def handle_lookup_mount (ops : GMountSpecOps Spec Wire)
    (srcops : GMountSourceOps Source SourceWire) (fuel : Nat) (b : Broker Spec) (env : SpawnEnv)
    (invocation : Nat) (arg_mount_spec : Wire) : Option (Step Spec Wire Source SourceWire) :=
  match ops.g_mount_spec_from_dbus arg_mount_spec with
  | some spec => lookup_mount ops srcops fuel b env invocation spec true
  | none => some ⟨b, [], [.reply invocation (.error .INVALID_ARGUMENT "Invalid arguments")]⟩

/-- Handler `handle_mount_location`. -/
def handle_mount_location (ops : GMountSpecOps Spec Wire)
    (srcops : GMountSourceOps Source SourceWire)
    (relookup : Relookup Spec Wire Source SourceWire) (b : Broker Spec) (env : SpawnEnv)
    (invocation : Nat) (arg_mount_spec : Wire) (arg_mount_source : SourceWire) :
    Option (Step Spec Wire Source SourceWire) :=
  match ops.g_mount_spec_from_dbus arg_mount_spec with
  | none => some ⟨b, [], [.reply invocation (.error .INVALID_ARGUMENT "Invalid arguments")]⟩
  | some spec =>
    match match_vfs_mount ops b.tracker.mounts spec with
    | some _ =>
      some ⟨b, [], [.reply invocation (.error .ALREADY_MOUNTED "Location is already mounted")]⟩
    | none =>
      match lookup_mountable ops b.tracker.mountables spec with
      | none =>
        some ⟨b, [], [.reply invocation (.error .NOT_MOUNTED "Location is not mountable")]⟩
      | some mountable =>
        mountable_mount relookup b env mountable spec
          (srcops.g_mount_source_from_dbus arg_mount_source) false
          (.mount_location_done invocation)

end Coordinator

/-! ## Properties stated on the coordinator -/

section CoordinatorProperties

variable {Spec Wire Source SourceWire : Type}

/-- What the callback of a record sends when the operation failed with `e`:
`automount_done` replies `NOT_MOUNTED` with the message of `e` after
`Automount failed: `, `mount_location_done` returns `e` itself. -/
def callback_error_effects (callback : MountCallback Spec) (e : GError) :
    List (Effect Spec Wire Source SourceWire) :=
  match callback with
  | .automount_done d =>
    [.reply d.invocation (.error .NOT_MOUNTED ("Automount failed: " ++ e.message))]
  | .mount_location_done invocation => [.return_gerror invocation e]

/-- The record that `mountable_mount` allocates, before `spawn_mount` or
`mountable_mount_with_name` gets it. -/
def mount_data_new (mountable : VfsMountable) (mount_spec : Spec) (source : Source)
    (automount : Bool) (callback : MountCallback Spec) : MountData Spec Source :=
  { mountable := mountable
    automount := automount
    source := source
    mount_spec := mount_spec
    callback := callback
    obj_path := none
    spawned := false
    spawner := false }

/-- The described object path of the Spawner of the operation number `k`. -/
def spec_spawner_path (k : Nat) : CStr := cstr "/org/gtk/gvfs/exec_spaw/" ++ decimal k

/-- One operation of the coordinator in a sequence: the tracker and the results
of the system calls at that time, and the arguments of `mountable_mount`. -/
structure SpawnOp (Spec Source : Type) where
  tracker : Tracker Spec
  env : SpawnEnv
  mountable : VfsMountable
  mount_spec : Spec
  source : Source
  automount : Bool
  callback : MountCallback Spec

/-- The Spawner object paths that a sequence of `mountable_mount` calls
allocates, in order, from the value `mount_id` of the counter. -/
def spawner_paths (relookup : Relookup Spec Wire Source SourceWire) :
    Int → List (SpawnOp Spec Source) → List CStr
  | _, [] => []
  | mount_id, op :: rest =>
    match mountable_mount relookup ⟨op.tracker, mount_id⟩ op.env op.mountable op.mount_spec
        op.source op.automount op.callback with
    | none => []
    | some step =>
      step.started.filterMap (fun data => data.obj_path) ++
        spawner_paths relookup step.broker.mount_id rest

end CoordinatorProperties

/-! ## Samples for the coordinator -/

/-- Sample operations on mount sources: a source is its wire form, a pair of a
bus name and an object path; the dummy source is the pair of two empty
strings. -/
def sampleSrcOps : GMountSourceOps (CStr × CStr) (CStr × CStr) where
  g_mount_source_new_dummy := ([], [])
  g_mount_source_from_dbus := fun w => w
  g_mount_source_to_dbus := fun s => s

/-- A sample descriptor of type `smb` with the given `Exec` and `DBusName`. -/
def sampleMountable (exec dbus_name : Option String) (automount : Bool) : VfsMountable where
  type := cstr "smb"
  exec := exec.map cstr
  dbus_name := dbus_name.map cstr
  automount := automount
  scheme := some (cstr "smb")
  scheme_aliases := none
  default_port := 0
  hostname_is_inet := false

/-- Sample results of the system calls: the session bus gives a connection
named `:1.7`, the export and the launch succeed. -/
def sampleSpawnEnv : SpawnEnv where
  g_bus_get_sync := .ok ⟨some (cstr ":1.7")⟩
  g_dbus_interface_skeleton_export := none
  g_spawn_command_line_async := none

/-- A sample `lookup_mount` for `automount_done`: the one of the model with
fuel 1. -/
def sampleRelookup : Relookup SampleSpec (Option SampleSpec) (CStr × CStr) (CStr × CStr) :=
  relookup sampleOps sampleSrcOps 1

/-- Whether `mountable_mount` for this descriptor reaches the allocation of a
Spawner object path in `spawn_mount`: no `DBusName`, and an `Exec`. -/
def allocates_path (mountable : VfsMountable) : Bool :=
  mountable.dbus_name.isNone && mountable.exec.isSome

/-- A sample operation of the coordinator: a descriptor with `Exec`
`/usr/lib/gvfs-smb` and no `DBusName`, mounted for `MountLocation`. -/
def sampleSpawnOp : SpawnOp SampleSpec (CStr × CStr) where
  tracker := mount_init []
  env := sampleSpawnEnv
  mountable := sampleMountable (some "/usr/lib/gvfs-smb") none false
  mount_spec := ⟨cstr "smb", cstr "/"⟩
  source := ([], [])
  automount := false
  callback := .mount_location_done 1

/-! ## The prompt relay (`common/gmountoperationdbus.c`) -/

/-- Enumeration `GMountOperationResult`. -/
inductive GMountOperationResult
  | HANDLED
  | ABORTED
  | UNHANDLED
  deriving DecidableEq

/-- Enumeration `GPasswordSave`. -/
inductive GPasswordSave
  | NEVER
  | FOR_SESSION
  | PERMANENTLY
  deriving DecidableEq

/-- The value of a `GPasswordSave` as `guint32`. -/
def GPasswordSave.toNat : GPasswordSave → Nat
  | .NEVER => 0
  | .FOR_SESSION => 1
  | .PERMANENTLY => 2

/-- Conversion of an `int` to `guint32`. -/
def to_guint32 (i : Int) : Nat := (i % 2 ^ 32).toNat

/-- What the getters of a `GMountOperation` return: the strings can be `NULL`,
`choice` is an `int`. -/
structure MountOpValues where
  password : Option CStr
  username : Option CStr
  domain : Option CStr
  anonymous : Bool
  password_save : GPasswordSave
  choice : Int
  deriving DecidableEq

/-- The three callbacks that the relay connects to the `reply` signal. -/
inductive ReplyCallback
  | ask_password_reply
  | ask_question_reply
  | show_processes_reply
  deriving DecidableEq

/-- A handler connected to the `reply` signal: the callback and its data, the
invocation to answer, named by a number. -/
structure ReplyHandler where
  callback : ReplyCallback
  data : Nat
  deriving DecidableEq

/-- A `GMountOperation` as the relay sees it: the values of its getters and
the handlers connected to its `reply` signal, in the order of connection. -/
structure GMountOperation where
  values : MountOpValues
  reply_handlers : List ReplyHandler
  deriving DecidableEq

/-- The answers that the relay sends: the out-arguments of `AskPassword`, of
`AskQuestion`, of `ShowProcesses`, and the empty answer of `Aborted`. -/
inductive MountOpReply
  | ask_password (handled aborted : Bool) (password username domain : CStr) (anonymous : Bool)
      (password_save : Nat)
  | ask_question (handled aborted : Bool) (choice : Nat)
  | show_processes (handled aborted : Bool) (choice : Nat)
  | aborted
  deriving DecidableEq

/-- The calls that the relay makes: the answer to an invocation, and the
signals it emits on the operation for the user interface. -/
inductive RelayEffect
  | complete (invocation : Nat) (reply : MountOpReply)
  | emit_ask_password (message default_user default_domain : CStr) (flags : Nat)
  | emit_ask_question (message : CStr) (choices : List CStr)
  | emit_show_processes (message : CStr) (processes : List Int) (choices : List CStr)
  | emit_aborted
  deriving DecidableEq

/-- Function `mount_op_send_reply`: disconnects the handlers of `reply` whose
data is the invocation. -/
def mount_op_send_reply (op : GMountOperation) (invocation : Nat) : GMountOperation :=
  { op with reply_handlers := op.reply_handlers.filter fun h => !decide (h.data = invocation) }

/-- The answer that `ask_password_reply` builds. -/
def ask_password_answer (v : MountOpValues) (result : GMountOperationResult) : MountOpReply :=
  let handled := !decide (result = .UNHANDLED)
  let abort_dbus := decide (result = .ABORTED)
  let password := match v.password with
    | none => []
    | some s => s
  let username := match v.username with
    | none => []
    | some s => s
  let domain := match v.domain with
    | none => []
    | some s => s
  .ask_password handled abort_dbus password username domain v.anonymous v.password_save.toNat

/-- The answer that `ask_question_reply` builds. -/
def ask_question_answer (v : MountOpValues) (result : GMountOperationResult) : MountOpReply :=
  let handled := !decide (result = .UNHANDLED)
  let abort_dbus := decide (result = .ABORTED)
  .ask_question handled abort_dbus (to_guint32 v.choice)

/-- The answer that `show_processes_reply` builds. -/
def show_processes_answer (v : MountOpValues) (result : GMountOperationResult) :
    MountOpReply :=
  let handled := !decide (result = .UNHANDLED)
  let abort_dbus := decide (result = .ABORTED)
  .show_processes handled abort_dbus (to_guint32 v.choice)

/-- Callback `ask_password_reply`: completes the invocation, then
`mount_op_send_reply`. -/
def ask_password_reply (op : GMountOperation) (result : GMountOperationResult)
    (invocation : Nat) : GMountOperation × List RelayEffect :=
  (mount_op_send_reply op invocation,
    [.complete invocation (ask_password_answer op.values result)])

/-- Callback `ask_question_reply`. -/
def ask_question_reply (op : GMountOperation) (result : GMountOperationResult)
    (invocation : Nat) : GMountOperation × List RelayEffect :=
  (mount_op_send_reply op invocation,
    [.complete invocation (ask_question_answer op.values result)])

/-- Callback `show_processes_reply`. -/
def show_processes_reply (op : GMountOperation) (result : GMountOperationResult)
    (invocation : Nat) : GMountOperation × List RelayEffect :=
  (mount_op_send_reply op invocation,
    [.complete invocation (show_processes_answer op.values result)])

/-- One handler of `reply` run on the operation. -/
def run_reply_handler (op : GMountOperation) (result : GMountOperationResult)
    (h : ReplyHandler) : GMountOperation × List RelayEffect :=
  match h.callback with
  | .ask_password_reply => ask_password_reply op result h.data
  | .ask_question_reply => ask_question_reply op result h.data
  | .show_processes_reply => show_processes_reply op result h.data

/-- Function `g_mount_operation_reply`: emits `reply`. The handlers connected
when the emission starts are run in the order of connection, each one unless
it was disconnected in the meantime. -/
def g_mount_operation_reply (op : GMountOperation) (result : GMountOperationResult) :
    GMountOperation × List RelayEffect :=
  op.reply_handlers.foldl
    (fun acc h =>
      if h ∈ acc.1.reply_handlers then
        ((run_reply_handler acc.1 result h).1, acc.2 ++ (run_reply_handler acc.1 result h).2)
      else acc)
    (op, [])

/-- Handler `handle_ask_password`. -/
def handle_ask_password (op : GMountOperation) (invocation : Nat)
    (arg_message_string arg_default_user arg_default_domain : CStr) (arg_flags_as_int : Nat) :
    GMountOperation × List RelayEffect :=
  ({ op with reply_handlers := op.reply_handlers ++ [⟨.ask_password_reply, invocation⟩] },
    [.emit_ask_password arg_message_string arg_default_user arg_default_domain
      arg_flags_as_int])

/-- Handler `handle_ask_question`. -/
def handle_ask_question (op : GMountOperation) (invocation : Nat) (arg_message_string : CStr)
    (arg_choices : List CStr) : GMountOperation × List RelayEffect :=
  ({ op with reply_handlers := op.reply_handlers ++ [⟨.ask_question_reply, invocation⟩] },
    [.emit_ask_question arg_message_string arg_choices])

/-- Handler `handle_show_processes`. -/
def handle_show_processes (op : GMountOperation) (invocation : Nat) (arg_message_string : CStr)
    (arg_choices : List CStr) (arg_processes : List Int) : GMountOperation × List RelayEffect :=
  ({ op with reply_handlers := op.reply_handlers ++ [⟨.show_processes_reply, invocation⟩] },
    [.emit_show_processes arg_message_string arg_processes arg_choices])

/-- Handler `handle_aborted`. -/
def handle_aborted (op : GMountOperation) (invocation : Nat) :
    GMountOperation × List RelayEffect :=
  let r := g_mount_operation_reply op .UNHANDLED
  (r.1, r.2 ++ [.emit_aborted, .complete invocation .aborted])

/-- An inbound prompt of the helper: `AskPassword`, `AskQuestion` or
`ShowProcesses`, with its invocation. -/
inductive Prompt
  | ask_password (invocation : Nat) (message default_user default_domain : CStr) (flags : Nat)
  | ask_question (invocation : Nat) (message : CStr) (choices : List CStr)
  | show_processes (invocation : Nat) (message : CStr) (choices : List CStr)
      (processes : List Int)
  deriving DecidableEq

/-- What happens to the relay: a prompt comes in, `Aborted` comes in, or the
owner of the operation sets its values and calls `g_mount_operation_reply`. -/
inductive RelayEvent
  | prompt (p : Prompt)
  | aborted (invocation : Nat)
  | reply (values : MountOpValues) (result : GMountOperationResult)
  deriving DecidableEq

/-- The handler of a prompt. -/
def handle_prompt (op : GMountOperation) : Prompt → GMountOperation × List RelayEffect
  | .ask_password invocation message default_user default_domain flags =>
    handle_ask_password op invocation message default_user default_domain flags
  | .ask_question invocation message choices => handle_ask_question op invocation message choices
  | .show_processes invocation message choices processes =>
    handle_show_processes op invocation message choices processes

/-- The relay after one event, and the calls it made. -/
def relay_step (op : GMountOperation) : RelayEvent → GMountOperation × List RelayEffect
  | .prompt p => handle_prompt op p
  | .aborted invocation => handle_aborted op invocation
  | .reply values result => g_mount_operation_reply { op with values := values } result

/-- The relay after a sequence of events, and the calls it made at each. -/
def relay_run : GMountOperation → List RelayEvent → GMountOperation × List (List RelayEffect)
  | op, [] => (op, [])
  | op, ev :: rest =>
    ((relay_run (relay_step op ev).1 rest).1,
      (relay_step op ev).2 :: (relay_run (relay_step op ev).1 rest).2)

/-! ## Properties stated on the relay -/

/-- The invocation of a prompt. -/
def Prompt.invocation : Prompt → Nat
  | .ask_password invocation _ _ _ _ => invocation
  | .ask_question invocation _ _ => invocation
  | .show_processes invocation _ _ _ => invocation

/-- The described answer to a prompt, from the values of the operation and the
result code of a reply event. -/
def Prompt.answer (v : MountOpValues) (result : GMountOperationResult) : Prompt → MountOpReply
  | .ask_password _ _ _ _ _ => ask_password_answer v result
  | .ask_question _ _ _ => ask_question_answer v result
  | .show_processes _ _ _ _ => show_processes_answer v result

/-- The events of prompts that do not overlap: each prompt is followed by its
reply event before the next prompt comes in. -/
def one_at_a_time (l : List (Prompt × MountOpValues × GMountOperationResult)) :
    List RelayEvent :=
  l.flatMap fun x => [.prompt x.1, .reply x.2.1 x.2.2]

/-- Sample values of an operation: the answers of scenario S6. -/
def sampleValues : MountOpValues where
  password := some (cstr "s3cret")
  username := some (cstr "alice")
  domain := some (cstr "WORKGROUP")
  anonymous := false
  password_save := .NEVER
  choice := 0

/-- The answer that a callback of `reply` builds. -/
def ReplyCallback.answer (v : MountOpValues) (result : GMountOperationResult) :
    ReplyCallback → MountOpReply
  | .ask_password_reply => ask_password_answer v result
  | .ask_question_reply => ask_question_answer v result
  | .show_processes_reply => show_processes_answer v result

/-- The emission that a prompt causes on the operation. -/
def Prompt.emission : Prompt → RelayEffect
  | .ask_password _ message default_user default_domain flags =>
    .emit_ask_password message default_user default_domain flags
  | .ask_question _ message choices => .emit_ask_question message choices
  | .show_processes _ message choices processes => .emit_show_processes message processes choices

/-- The out-arguments `handled` and `aborted` of an answer to a prompt; the
answer of `Aborted` has none. -/
def MountOpReply.handled_aborted : MountOpReply → Option (Bool × Bool)
  | .ask_password handled abort_dbus _ _ _ _ _ => some (handled, abort_dbus)
  | .ask_question handled abort_dbus _ => some (handled, abort_dbus)
  | .show_processes handled abort_dbus _ => some (handled, abort_dbus)
  | .aborted => none

/-- A sample operation with three prompts outstanding: `AskPassword` for
invocation 1, `AskQuestion` for invocation 2, `ShowProcesses` for invocation
3. -/
def samplePendingOp : GMountOperation where
  values := sampleValues
  reply_handlers :=
    [⟨.ask_password_reply, 1⟩, ⟨.ask_question_reply, 2⟩, ⟨.show_processes_reply, 3⟩]

/-! ## The catalog loader of `mount.c` -/

/-- What the getters of a loaded `GKeyFile` return for the keys of group
`Mount`: `g_key_file_get_string` and `g_key_file_get_string_list` return `NULL`
for a key that is not there, `g_key_file_get_boolean` returns `FALSE` and
`g_key_file_get_integer` returns 0. The member `types` is key `Type`. -/
structure GKeyFile where
  types : Option (List CStr)
  exec : Option CStr
  dbus_name : Option CStr
  automount : Bool
  scheme : Option CStr
  scheme_aliases : Option (List CStr)
  default_port : Int
  hostname_is_inet : Bool
  deriving DecidableEq

/-- What `g_dir_open` and `g_dir_read_name` give for `MOUNTABLE_DIR`: `none`
when the directory cannot be opened, otherwise its entries in the order read;
an entry is `none` when `g_key_file_load_from_file` fails on it. -/
abbrev MountableDir := Option (List (Option GKeyFile))

/-- The body of the loop over `types` in `read_mountable_config`, for one
entry. -/
def read_mountable_type (keyfile : GKeyFile) (mountables : List VfsMountable) (type : CStr) :
    List VfsMountable :=
  if type ≠ [] then
    let mountable : VfsMountable :=
      { type := type
        exec := keyfile.exec
        dbus_name := keyfile.dbus_name
        automount := keyfile.automount
        scheme := keyfile.scheme
        scheme_aliases := keyfile.scheme_aliases
        default_port := keyfile.default_port
        hostname_is_inet := keyfile.hostname_is_inet }
    let mountable :=
      match mountable.scheme with
      | none => { mountable with scheme := some mountable.type }
      | some _ => mountable
    mountable :: mountables
  else mountables

/-- The body of the loop over the directory in `read_mountable_config`, for one
entry. -/
def read_mountable_file (mountables : List VfsMountable) (file : Option GKeyFile) :
    List VfsMountable :=
  match file with
  | none => mountables
  | some keyfile =>
    match keyfile.types with
    | none => mountables
    | some types => types.foldl (read_mountable_type keyfile) mountables

/-- Function `read_mountable_config`, on the variable `mountables`. -/
def read_mountable_config (dir : MountableDir) (mountables : List VfsMountable) :
    List VfsMountable :=
  match dir with
  | none => mountables
  | some files => files.foldl read_mountable_file mountables

/-- Function `re_read_mountable_config`, on the variable `mountables`: the
list is freed and set to `NULL` before the directory is read. -/
def re_read_mountable_config (dir : MountableDir) (mountables : List VfsMountable) :
    List VfsMountable :=
  let _freed := mountables
  let mountables : List VfsMountable := []
  read_mountable_config dir mountables

/-- Callback `reload_pipes_cb`, on the file-scope variables. -/
def reload_pipes_cb {Spec : Type} (dir : MountableDir) (b : Broker Spec) : Broker Spec :=
  { b with tracker :=
      { b.tracker with mountables := re_read_mountable_config dir b.tracker.mountables } }

/-! ## Properties stated on the catalog -/

/-- The described descriptor for entry `type` of the `Type` list of a file:
the values of the file, and for the scheme the `Scheme` of the file or, when
there is none, the type. -/
def spec_descriptor (keyfile : GKeyFile) (type : CStr) : VfsMountable where
  type := type
  exec := keyfile.exec
  dbus_name := keyfile.dbus_name
  automount := keyfile.automount
  scheme := some (keyfile.scheme.getD type)
  scheme_aliases := keyfile.scheme_aliases
  default_port := keyfile.default_port
  hostname_is_inet := keyfile.hostname_is_inet

/-- The described descriptors of one directory entry: none for an entry that
is not readable or has no `Type` key, otherwise one for each non-empty entry
of the `Type` list, in the order of the list. -/
def spec_file_descriptors : Option GKeyFile → List VfsMountable
  | none => []
  | some keyfile =>
    match keyfile.types with
    | none => []
    | some types => (types.filter fun type => decide (type ≠ [])).map (spec_descriptor keyfile)

/-- The described descriptors of a list of directory entries, in the order
read. -/
def spec_descriptors (files : List (Option GKeyFile)) : List VfsMountable :=
  files.flatMap spec_file_descriptors

/-- The non-empty entries of the `Type` list of one directory entry. -/
def file_type_entries : Option GKeyFile → List CStr
  | none => []
  | some keyfile =>
    match keyfile.types with
    | none => []
    | some types => types.filter fun type => decide (type ≠ [])

/-- The non-empty entries of the `Type` lists of the readable files of a
directory, in the order read. -/
def type_entries : MountableDir → List CStr
  | none => []
  | some files => files.flatMap file_type_entries

/-- A sample key file: the given `Type` list and `Exec`, nothing else. -/
def sampleKeyFile (types : List String) (exec : String) : GKeyFile where
  types := some (types.map cstr)
  exec := some (cstr exec)
  dbus_name := none
  automount := false
  scheme := none
  scheme_aliases := none
  default_port := 0
  hostname_is_inet := false

/-- A sample directory of two files that both list type `smb`, with different
`Exec` values. -/
def sampleDupDir : MountableDir :=
  some [some (sampleKeyFile ["smb"] "/usr/lib/gvfs-smb"),
    some (sampleKeyFile ["smb"] "/usr/lib/gvfs-smb2")]

/-! ## Operations in flight -/

section InFlight

variable {Spec Wire Source SourceWire : Type}

/-- What comes back to an operation after `mountable_mount` returned: the call
`Spawned` of the helper with the arguments of `spawn_mount_handle_spawned`,
the result of creating the proxy, or the result of the call of `Mount`. -/
inductive Completion
  | spawned (invocation : Nat) (sender : CStr) (arg_succeeded : Bool)
      (arg_error_message : String) (error : Option GError)
  | proxy (proxy : Except GError CStr)
  | mount_reply (res : Option GError)

/-- The callback of `mount.c` that a completion runs, with the record of the
operation as its user data. -/
def run_completion (ops : GMountSpecOps Spec Wire) (srcops : GMountSourceOps Source SourceWire)
    (relookup : Relookup Spec Wire Source SourceWire) (b : Broker Spec) (env : SpawnEnv)
    (data : MountData Spec Source) : Completion → Option (Step Spec Wire Source SourceWire)
  | .spawned invocation sender arg_succeeded arg_error_message error =>
    spawn_mount_handle_spawned relookup b env data invocation sender arg_succeeded
      arg_error_message error
  | .proxy proxy => mountable_mount_proxy_cb ops srcops relookup b env data proxy
  | .mount_reply res => dbus_mount_reply relookup b env data res

/-- The record with another value behind its pointer `mountable`. -/
def MountData.with_mountable (mountable : VfsMountable) (data : MountData Spec Source) :
    MountData Spec Source :=
  { data with mountable := mountable }

/-- The call with another value behind the pointer `mountable` of the record
that it carries, if it carries one. -/
def Effect.with_mountable (mountable : VfsMountable) :
    Effect Spec Wire Source SourceWire → Effect Spec Wire Source SourceWire
  | .proxy_new_for_bus dbus_name data => .proxy_new_for_bus dbus_name (data.with_mountable mountable)
  | .call_mount dbus_name mount_spec automount source data =>
    .call_mount dbus_name mount_spec automount source (data.with_mountable mountable)
  | .skeleton_export obj_path data => .skeleton_export obj_path (data.with_mountable mountable)
  | .reply invocation r => .reply invocation r
  | .return_gerror invocation error => .return_gerror invocation error
  | .skeleton_unexport obj_path => .skeleton_unexport obj_path
  | .spawn_command_line_async command_line => .spawn_command_line_async command_line
  | .complete_spawned invocation => .complete_spawned invocation

/-- Whether a completion makes `automount_done` call `lookup_mount` with no
registered mount matching the spec: `Mount` succeeded for an operation of
`maybe_automount`, and `match_vfs_mount` finds nothing. -/
def looks_up_again (ops : GMountSpecOps Spec Wire) (b : Broker Spec)
    (data : MountData Spec Source) : Completion → Bool
  | .mount_reply none =>
    match data.callback with
    | .automount_done d => (match_vfs_mount ops b.tracker.mounts d.spec).isNone
    | .mount_location_done _ => false
  | _ => false

end InFlight

/-- A sample broker: a catalog of one descriptor of type `smb` with `Exec`
`/usr/lib/gvfs-smb` and `AutoMount`, no mount, counter 0. -/
def sampleBroker : Broker SampleSpec :=
  ⟨mount_init [sampleMountable (some "/usr/lib/gvfs-smb") none true], 0⟩

/-- The record of the operation that `LookupMount` for `smb` at `/` starts on
the sample broker. -/
def sampleAutoData : MountData SampleSpec (CStr × CStr) where
  mountable := sampleMountable (some "/usr/lib/gvfs-smb") none true
  automount := true
  source := ([], [])
  mount_spec := ⟨cstr "smb", cstr "/"⟩
  callback := .automount_done ⟨1, ⟨cstr "smb", cstr "/"⟩⟩
  obj_path := some (cstr "/org/gtk/gvfs/exec_spaw/0")
  spawned := true
  spawner := true

/-! ## The unmount job of `gvfsjobunmount.c` -/

/-- Flag `G_MOUNT_UNMOUNT_FORCE` of the GIO enumeration `GMountUnmountFlags`,
bit 0. -/
def G_MOUNT_UNMOUNT_FORCE : Nat := 1

/-- The methods of `GVfsBackendClass` that the unmount job looks at.
`try_unmount` is `none` for `NULL`, otherwise what the method returns when the
job calls it; `unmount` says whether the method is there. -/
structure GVfsBackendClass where
  try_unmount : Option Bool
  unmount : Bool
  deriving DecidableEq

/-- A backend as the unmount job sees it: its class, and what
`g_vfs_backend_has_blocking_processes` returns. -/
structure GVfsBackend where
  klass : GVfsBackendClass
  has_blocking_processes : Bool
  deriving DecidableEq

/-- Record `GVfsJobUnmount`; `flags` is a `guint`. -/
structure GVfsJobUnmount (Source : Type) where
  backend : GVfsBackend
  flags : Nat
  mount_source : Source
  deriving DecidableEq

/-- The calls that the unmount job makes. -/
inductive JobEffect (Source : Type)
  | g_vfs_job_failed_literal (code : GErrorCode) (message : String)
  | g_vfs_job_succeeded
  | g_vfs_backend_unmount_with_operation (mount_source : Source)
  | try_unmount (flags : Nat) (mount_source : Source)
  | g_vfs_daemon_run_job_in_thread
  deriving DecidableEq

section UnmountJob

variable {Source : Type}

/-- Function `job_finish_immediately_if_possible`: the value returned and the
calls made. -/
def job_finish_immediately_if_possible (op_job : GVfsJobUnmount Source) :
    Bool × List (JobEffect Source) :=
  if op_job.backend.klass.try_unmount.isSome || op_job.backend.klass.unmount then (false, [])
  else
    let is_busy := op_job.backend.has_blocking_processes
    let force_unmount := decide (op_job.flags % 2 ^ 32 &&& G_MOUNT_UNMOUNT_FORCE ≠ 0)
    if is_busy && !force_unmount then
      (true, [.g_vfs_job_failed_literal (.io .BUSY) "Filesystem is busy"])
    else (true, [.g_vfs_job_succeeded])

/-- Method `try` of the job: the value returned and the calls made.
`g_mount_source_is_dummy` is the function of that name. -/
def job_try (g_mount_source_is_dummy : Source → Bool) (op_job : GVfsJobUnmount Source) :
    Bool × List (JobEffect Source) :=
  let is_busy := op_job.backend.has_blocking_processes
  let force_unmount := decide (op_job.flags % 2 ^ 32 &&& G_MOUNT_UNMOUNT_FORCE ≠ 0)
  if is_busy && !force_unmount && !g_mount_source_is_dummy op_job.mount_source then
    (true, [.g_vfs_backend_unmount_with_operation op_job.mount_source])
  else
    let finished := job_finish_immediately_if_possible op_job
    if finished.1 then (true, finished.2)
    else
      match op_job.backend.klass.try_unmount with
      | some r => (r, finished.2 ++ [.try_unmount op_job.flags op_job.mount_source])
      | none => (false, finished.2)

/-- Callback `unmount_cb`: the job afterwards and the calls made.
`should_unmount` is what `g_vfs_backend_unmount_with_operation_finish`
returns. -/
def unmount_cb (op_job : GVfsJobUnmount Source) (should_unmount : Bool) :
    GVfsJobUnmount Source × List (JobEffect Source) :=
  let op_job :=
    if should_unmount then { op_job with flags := op_job.flags ||| G_MOUNT_UNMOUNT_FORCE }
    else op_job
  let finished := job_finish_immediately_if_possible op_job
  if !finished.1 then
    let run_in_thread := true
    match op_job.backend.klass.try_unmount with
    | some r =>
      let run_in_thread := !r
      (op_job, finished.2 ++ .try_unmount op_job.flags op_job.mount_source ::
        (if run_in_thread then [.g_vfs_daemon_run_job_in_thread] else []))
    | none =>
      (op_job, finished.2 ++ (if run_in_thread then [.g_vfs_daemon_run_job_in_thread] else []))
  else (op_job, finished.2)

end UnmountJob

/-- A sample function `g_mount_source_is_dummy` on sources that are a pair of
a bus name and an object path: the source is a dummy when the name is
empty. -/
def sampleIsDummy (source : CStr × CStr) : Bool := decide (source.1 = [])

/-- A sample unmount job on a backend without `try_unmount` and `unmount`. -/
def sampleUnmountJob (is_busy : Bool) (flags : Nat) (mount_source : CStr × CStr) :
    GVfsJobUnmount (CStr × CStr) where
  backend := ⟨⟨none, false⟩, is_busy⟩
  flags := flags
  mount_source := mount_source

end Gvfs

/-! # Theorems -/

namespace Gvfs

/-! ## Facts about the GLib helpers -/

/-- Decoding after encoding: `g_utf8_get_char_validated` accepts the UTF-8
bytes of every scalar value from 0x80 on, whatever follows them. -/
theorem utf8_validated_encode (n : Nat) (h80 : 0x80 ≤ n)
    (hvalid : n < 0xd800 ∨ (0xdfff < n ∧ n < 0x110000)) (rest : CStr) :
    g_utf8_get_char_validated (utf8_encode n ++ rest) = some n := by
  unfold utf8_encode
  have h1 : ¬ n < 0x80 := by omega
  rw [if_neg h1]
  by_cases h2 : n < 0x800
  · rw [if_pos h2]
    have e1 : (0xc0 + n / 64) % 32 * 64 + (0x80 + n % 64) % 64 = n := by omega
    simp only [List.cons_append, List.nil_append, g_utf8_get_char_validated,
      g_utf8_get_char_extended, utf8_continuation]
    rw [if_neg (by omega), if_neg (by omega), if_pos (by omega), if_pos (by omega), e1]
    simp only [Option.some_bind]
    rw [if_neg (by omega)]
    simp only [Option.some_bind, UNICODE_VALID]
    rw [if_pos]
    simp; omega
  · rw [if_neg h2]
    by_cases h3 : n < 0x10000
    · rw [if_pos h3]
      have e1 : ((0xe0 + n / 4096) % 16 * 64 + (0x80 + n / 64 % 64) % 64) * 64 +
          (0x80 + n % 64) % 64 = n := by omega
      simp only [List.cons_append, List.nil_append, g_utf8_get_char_validated,
        g_utf8_get_char_extended, utf8_continuation]
      rw [if_neg (by omega), if_neg (by omega), if_neg (by omega), if_pos (by omega),
        if_pos (by omega), if_pos (by omega), e1]
      simp only [Option.some_bind]
      rw [if_neg (by omega)]
      simp only [Option.some_bind, UNICODE_VALID]
      rw [if_pos]
      simp; omega
    · rw [if_neg h3]
      have e1 : (((0xf0 + n / 262144) % 8 * 64 + (0x80 + n / 4096 % 64) % 64) * 64 +
          (0x80 + n / 64 % 64) % 64) * 64 + (0x80 + n % 64) % 64 = n := by omega
      simp only [List.cons_append, List.nil_append, g_utf8_get_char_validated,
        g_utf8_get_char_extended, utf8_continuation]
      rw [if_neg (by omega), if_neg (by omega), if_neg (by omega), if_neg (by omega),
        if_pos (by omega), if_pos (by omega), if_pos (by omega), if_pos (by omega), e1]
      simp only [Option.some_bind]
      rw [if_neg (by omega)]
      simp only [Option.some_bind, UNICODE_VALID]
      rw [if_pos]
      simp; omega

/-- The first byte of the UTF-8 bytes of a scalar value from 0x80 on is not
ASCII, and `g_utf8_skip` of it is the number of those bytes. -/
theorem utf8_encode_head (n : Nat) (h80 : 0x80 ≤ n) (hmax : n < 0x110000) :
    ∃ c tail, utf8_encode n = c :: tail ∧ 0x80 ≤ c ∧ g_utf8_skip c - 1 = tail.length ∧
      ∀ b ∈ c :: tail, 0x80 ≤ b := by
  unfold utf8_encode
  rw [if_neg (by omega)]
  by_cases h2 : n < 0x800
  · rw [if_pos h2]
    refine ⟨_, _, rfl, by omega, ?_, ?_⟩
    · unfold g_utf8_skip
      rw [if_neg (by omega), if_pos (by omega)]; rfl
    · intro b hb
      simp only [List.mem_cons, List.mem_singleton, List.not_mem_nil, or_false] at hb
      omega
  · rw [if_neg h2]
    by_cases h3 : n < 0x10000
    · rw [if_pos h3]
      refine ⟨_, _, rfl, by omega, ?_, ?_⟩
      · unfold g_utf8_skip
        rw [if_neg (by omega), if_neg (by omega), if_pos (by omega)]; rfl
      · intro b hb
        simp only [List.mem_cons, List.mem_singleton, List.not_mem_nil, or_false] at hb
        omega
    · rw [if_neg h3]
      refine ⟨_, _, rfl, by omega, ?_, ?_⟩
      · unfold g_utf8_skip
        rw [if_neg (by omega), if_neg (by omega), if_neg (by omega), if_pos (by omega)]; rfl
      · intro b hb
        simp only [List.mem_cons, List.mem_singleton, List.not_mem_nil, or_false] at hb
        omega

/-- Bytes pending from a multi-byte sequence are copied as they are. -/
theorem uri_escape_loop_pending (allowed : CStr) (u : Bool) (xs rest : CStr) :
    uri_escape_loop allowed u xs.length (xs ++ rest) = xs ++ uri_escape_loop allowed u 0 rest := by
  induction xs with
  | nil => rfl
  | cons x xs ih => simp [uri_escape_loop, ih]

/-- The byte-wise test of `g_uri_escape_string` with the reserved characters
that `handle_register_mount` passes is the described one. -/
theorem is_valid_eq_spec (c : Nat) :
    (if is_valid c (cstr "+@#$., ") then [c] else [37, hex (c / 16), hex (c % 16)]) =
      spec_escape_byte c := by
  have hmem : decide (c ∈ cstr "+@#$., ") =
      (c == 43 || c == 64 || c == 35 || c == 36 || c == 46 || c == 44 || c == 32) := by
    have : cstr "+@#$., " = [43, 64, 35, 36, 46, 44, 32] := by decide
    rw [this]
    simp only [List.mem_cons, List.mem_singleton, List.not_mem_nil, or_false, Bool.decide_or,
      Bool.or_assoc]
    rfl
  simp only [is_valid, spec_escape_byte, unreserved, g_ascii_isalnum, percent_encode, hmem,
    Bool.or_assoc]

theorem char_toNat_valid (c : Char) :
    c.toNat < 0xd800 ∨ (0xdfff < c.toNat ∧ c.toNat < 0x110000) := c.valid

/-- On a valid UTF-8 string, `g_uri_escape_string` with the reserved characters
of `handle_register_mount` and `allow_utf8` set escapes character by character:
ASCII as described, everything else kept. -/
theorem g_uri_escape_string_utf8 (cs : List Char) :
    g_uri_escape_string (utf8_string cs) (cstr "+@#$., ") true = cs.flatMap escape_char := by
  unfold g_uri_escape_string
  induction cs with
  | nil => rfl
  | cons c cs ih =>
    have hcons : utf8_string (c :: cs) = utf8_encode c.toNat ++ utf8_string cs := by
      simp [utf8_string]
    rw [hcons, List.flatMap_cons, ← ih]
    unfold escape_char
    by_cases hc : c.toNat < 0x80
    · rw [if_pos hc]
      have he : utf8_encode c.toNat = [c.toNat] := by simp [utf8_encode, hc]
      rw [he, ← is_valid_eq_spec]
      simp only [List.singleton_append, uri_escape_loop]
      have hlt : ¬ (c.toNat ≥ 0x80) := by omega
      simp only [hlt, decide_False, Bool.false_and, Bool.false_eq_true, if_false]
      split <;> rfl
    · rw [if_neg hc]
      have hv := char_toNat_valid c
      obtain ⟨c0, tail, he, h0, hskip, -⟩ := utf8_encode_head c.toNat (by omega) (by omega)
      have hval := utf8_validated_encode c.toNat (by omega) hv (utf8_string cs)
      rw [he] at hval ⊢
      simp only [List.cons_append] at hval ⊢
      rw [uri_escape_loop, hval, hskip, uri_escape_loop_pending]
      simp [h0]

/-- One turn of `g_build_path_va` on a non-empty element without separator. -/
theorem g_build_path_step_plain (st : BuildPath) (e : CStr) (hne : e ≠ []) (hsep : 47 ∉ e) :
    g_build_path_step st e =
      { result := st.result ++ (if st.is_first then [] else [47]) ++ e
        is_first := false
        have_leading := true
        single_element := if st.have_leading then none else st.single_element
        last_trailing := some [] } := by
  obtain ⟨x, xs, rfl⟩ := List.exists_cons_of_ne_nil hne
  have hx : x ≠ 47 := fun h => hsep (by simp [h])
  obtain ⟨y, ys, hrev⟩ : ∃ y ys, (x :: xs).reverse = y :: ys := by
    cases h : (x :: xs).reverse with
    | nil => simp at h
    | cons y ys => exact ⟨y, ys, rfl⟩
  have hy : y ≠ 47 := by
    intro h
    apply hsep
    have : y ∈ (x :: xs).reverse := by rw [hrev]; simp
    rw [← h]; exact List.mem_reverse.1 this
  have hbody : ((x :: xs).reverse.dropWhile (· == 47)).reverse = x :: xs := by
    rw [hrev, List.dropWhile_cons_of_neg (by simpa using hy), ← hrev, List.reverse_reverse]
  have hlead : (x :: xs).takeWhile (· == 47) = [] :=
    List.takeWhile_cons_of_neg (by simpa using hx)
  have hstart : (x :: xs).dropWhile (· == 47) = x :: xs :=
    List.dropWhile_cons_of_neg (by simpa using hx)
  unfold g_build_path_step
  simp only [hlead, hstart, hbody, List.drop_length, List.append_nil, reduceCtorEq, if_false]
  cases st.have_leading <;> simp

/-- After the first argument of `g_build_filename`, either nothing was seen yet
or no later element can be the single element. -/
theorem g_build_path_step_first (d : CStr) :
    (if (g_build_path_step ⟨[], true, false, none, none⟩ d).have_leading then none
      else (g_build_path_step ⟨[], true, false, none, none⟩ d).single_element) = none := by
  unfold g_build_path_step
  by_cases hd : d = []
  · simp [hd]
  · simp only [hd, if_false]
    split <;> simp

/-- A plain last argument of `g_build_filename` is appended after one
separator, and an empty one is ignored. -/
theorem g_build_filename_last (d sub fs : CStr) (hsub : sub ≠ []) (hsubsep : 47 ∉ sub)
    (hfs : 47 ∉ fs) :
    g_build_filename [d, sub, fs] =
      g_build_filename [d, sub] ++ (if fs = [] then [] else 47 :: fs) := by
  unfold g_build_filename
  simp only [List.foldl_cons, List.foldl_nil]
  rw [g_build_path_step_plain _ sub hsub hsubsep, g_build_path_step_first]
  by_cases hfs0 : fs = []
  · subst hfs0
    simp [g_build_path_step]
  · rw [g_build_path_step_plain _ fs hfs0 hfs]
    simp [hfs0]

/-- Skipping leading separators keeps the last byte when it is no separator. -/
theorem dropWhile_sep_append (l : CStr) (x : Nat) (hx : x ≠ 47) :
    ∃ l', (l ++ [x]).dropWhile (· == 47) = l' ++ [x] ∧
      (l ++ [x]).takeWhile (· == 47) ++ (l' ++ [x]) = l ++ [x] := by
  induction l with
  | nil =>
    refine ⟨[], ?_, ?_⟩
    · rw [List.nil_append, List.dropWhile_cons_of_neg (by simpa using hx)]
    · rw [List.nil_append, List.takeWhile_cons_of_neg (by simpa using hx)]
      rfl
  | cons a l ih =>
    by_cases ha : a = 47
    · obtain ⟨l', h1, h2⟩ := ih
      refine ⟨l', ?_, ?_⟩
      · rw [List.cons_append, List.dropWhile_cons_of_pos (by simpa using ha), h1]
      · rw [List.cons_append, List.takeWhile_cons_of_pos (by simpa using ha), List.cons_append, h2]
    · refine ⟨a :: l, ?_, ?_⟩
      · rw [List.cons_append, List.dropWhile_cons_of_neg (by simpa using ha)]
      · rw [List.cons_append, List.takeWhile_cons_of_neg (by simpa using ha)]
        rfl

/-- For a directory that does not end in a separator, `g_build_filename` of the
directory and a plain segment is the directory, `/`, and the segment. -/
theorem g_build_filename_dir (l : CStr) (x : Nat) (hx : x ≠ 47) (sub : CStr) (hsub : sub ≠ [])
    (hsubsep : 47 ∉ sub) :
    g_build_filename [l ++ [x], sub] = (l ++ [x]) ++ 47 :: sub := by
  obtain ⟨l', h1, h2⟩ := dropWhile_sep_append l x hx
  have hbody : ((l' ++ [x]).reverse.dropWhile (· == 47)).reverse = l' ++ [x] := by
    rw [List.reverse_append, List.reverse_singleton, List.singleton_append,
      List.dropWhile_cons_of_neg (by simpa using hx)]
    simp
  unfold g_build_filename
  simp only [List.foldl_cons, List.foldl_nil]
  rw [g_build_path_step_plain _ sub hsub hsubsep]
  have hne : l ++ [x] ≠ [] := by simp
  unfold g_build_path_step
  simp only [hne, if_false, h1, hbody]
  simp [h2]

/-- Once an element was seen that is not the single element, a turn of
`g_build_path_va` only appends to the result. -/
theorem g_build_path_step_leading (st : BuildPath) (e : CStr) (h : st.have_leading = true)
    (hs : st.single_element = none) :
    (g_build_path_step st e).single_element = none ∧
      ∃ r, (g_build_path_step st e).result = st.result ++ r := by
  unfold g_build_path_step
  by_cases he : e = []
  · simp [he, hs]
  · simp only [he, if_false, h, if_true]
    split
    · exact ⟨rfl, [], by simp⟩
    · exact ⟨rfl, _, by simp only [List.append_assoc]; rfl⟩

/-- Whatever the last argument, `g_build_filename` of a directory, a plain
segment and a third argument is not empty. -/
theorem g_build_filename_ne_nil (d sub fs : CStr) (hsub : sub ≠ []) (hsubsep : 47 ∉ sub) :
    g_build_filename [d, sub, fs] ≠ [] := by
  unfold g_build_filename
  simp only [List.foldl_cons, List.foldl_nil]
  rw [g_build_path_step_plain _ sub hsub hsubsep, g_build_path_step_first]
  obtain ⟨h1, r, h2⟩ := g_build_path_step_leading
    { result := (g_build_path_step ⟨[], true, false, none, none⟩ d).result ++
        (if (g_build_path_step ⟨[], true, false, none, none⟩ d).is_first then [] else [47]) ++ sub
      is_first := false
      have_leading := true
      single_element := none
      last_trailing := some [] } fs rfl rfl
  rw [h1, h2]
  simp [hsub]

/-! ## Facts about the registry -/

section RegistryLemmas

variable {Spec Wire : Type}

theorem dbus_client_disconnected_fst (ops : GMountSpecOps Spec Wire) (fa : Bool)
    (mounts : List (VfsMount Spec)) (dbus_id : CStr) :
    (dbus_client_disconnected ops fa mounts dbus_id).1 =
      mounts.filter fun m => !decide (m.dbus_id = dbus_id) := by
  induction mounts with
  | nil => rfl
  | cons m l ih =>
    by_cases h : m.dbus_id = dbus_id
    · simp [dbus_client_disconnected, h, ih]
    · simp [dbus_client_disconnected, h, ih]

theorem dbus_client_disconnected_snd (ops : GMountSpecOps Spec Wire) (fa : Bool)
    (mounts : List (VfsMount Spec)) (dbus_id : CStr) :
    (dbus_client_disconnected ops fa mounts dbus_id).2 =
      (mounts.filter fun m => decide (m.dbus_id = dbus_id)).map
        fun m => signal_mounted_unmounted ops fa m false := by
  induction mounts with
  | nil => rfl
  | cons m l ih =>
    by_cases h : m.dbus_id = dbus_id
    · simp [dbus_client_disconnected, h, ih]
    · simp [dbus_client_disconnected, h, ih]

theorem find_vfs_mount_eq_none (mounts : List (VfsMount Spec)) (dbus_id obj_path : CStr) :
    find_vfs_mount mounts dbus_id obj_path = none ↔
      (dbus_id, obj_path) ∉ mounts.map VfsMount.key := by
  simp [find_vfs_mount, VfsMount.key, List.find?_eq_none]

theorem match_vfs_mount_eq_none (ops : GMountSpecOps Spec Wire) (mounts : List (VfsMount Spec))
    (spec : Spec) :
    match_vfs_mount ops mounts spec = none ↔
      ∀ m ∈ mounts, ops.g_mount_spec_match m.mount_spec spec = false := by
  simp [match_vfs_mount, List.find?_eq_none]

theorem handle_register_mount_dup_key (ops : GMountSpecOps Spec Wire) (env : Env)
    (t : Tracker Spec) (id : CStr) (a : RegisterMountArgs Wire) (watcher_id : Nat)
    (hf : (find_vfs_mount t.mounts id a.arg_obj_path).isSome = true) :
    handle_register_mount ops env t id a watcher_id =
      ⟨t, .error .ALREADY_MOUNTED "Mountpoint Already registered", []⟩ := by
  simp [handle_register_mount, hf]

theorem handle_register_mount_unparsed (ops : GMountSpecOps Spec Wire) (env : Env)
    (t : Tracker Spec) (id : CStr) (a : RegisterMountArgs Wire) (watcher_id : Nat)
    (hf : find_vfs_mount t.mounts id a.arg_obj_path = none)
    (hp : ops.g_mount_spec_from_dbus a.arg_mount_spec = none) :
    handle_register_mount ops env t id a watcher_id =
      ⟨t, .error .INVALID_ARGUMENT "Error in mount spec", []⟩ := by
  simp [handle_register_mount, hf, hp]

theorem handle_register_mount_dup_spec (ops : GMountSpecOps Spec Wire) (env : Env)
    (t : Tracker Spec) (id : CStr) (a : RegisterMountArgs Wire) (watcher_id : Nat) (spec : Spec)
    (hp : ops.g_mount_spec_from_dbus a.arg_mount_spec = some spec)
    (hm : (match_vfs_mount ops t.mounts spec).isSome = true) :
    handle_register_mount ops env t id a watcher_id =
      ⟨t, .error .ALREADY_MOUNTED "Mountpoint Already registered", []⟩ := by
  cases hf : find_vfs_mount t.mounts id a.arg_obj_path with
  | some m0 => simp [handle_register_mount, hf]
  | none => simp [handle_register_mount, hf, hp, hm]

theorem handle_register_mount_fresh (ops : GMountSpecOps Spec Wire) (env : Env)
    (t : Tracker Spec) (id : CStr) (a : RegisterMountArgs Wire) (watcher_id : Nat) (spec : Spec)
    (hf : find_vfs_mount t.mounts id a.arg_obj_path = none)
    (hp : ops.g_mount_spec_from_dbus a.arg_mount_spec = some spec)
    (hm : match_vfs_mount ops t.mounts spec = none) :
    handle_register_mount ops env t id a watcher_id =
      ⟨{ t with mounts := register_mount_new env id a spec watcher_id :: t.mounts }, .complete,
        [signal_mounted_unmounted ops t.fuse_available
          (register_mount_new env id a spec watcher_id) true]⟩ := by
  simp [handle_register_mount, hf, hp, hm]

theorem register_mount_new_fuse_isSome (env : Env) (id : CStr) (a : RegisterMountArgs Wire)
    (spec : Spec) (watcher_id : Nat) :
    (register_mount_new env id a spec watcher_id).fuse_mountpoint.isSome =
      (register_mount_new env id a spec watcher_id).user_visible := by
  simp only [register_mount_new]
  cases a.arg_user_visible
  · simp
  · by_cases h : env.user_runtime_dir.addr = env.user_cache_dir.addr <;> simp [h]

theorem register_mount_new_fuse_ne_nil (env : Env) (id : CStr) (a : RegisterMountArgs Wire)
    (spec : Spec) (watcher_id : Nat) (p : CStr)
    (h : (register_mount_new env id a spec watcher_id).fuse_mountpoint = some p) : p ≠ [] := by
  simp only [register_mount_new] at h
  cases hv : a.arg_user_visible
  · simp [hv] at h
  · by_cases ha : env.user_runtime_dir.addr = env.user_cache_dir.addr
    · simp only [hv, ha, if_true, Option.some.injEq] at h
      rw [← h]
      exact g_build_filename_ne_nil _ _ _ (by decide) (by decide)
    · simp only [hv, ha, if_true, if_false, Option.some.injEq] at h
      rw [← h]
      exact g_build_filename_ne_nil _ _ _ (by decide) (by decide)

/-- The mounts after `handle_register_mount`: the old list, or the old list
with one mount in front whose key is new and whose spec no old mount matches. -/
theorem handle_register_mount_mounts (ops : GMountSpecOps Spec Wire) (env : Env)
    (t : Tracker Spec) (id : CStr) (a : RegisterMountArgs Wire) (watcher_id : Nat) :
    (handle_register_mount ops env t id a watcher_id).tracker.mounts = t.mounts ∨
      ∃ m, (handle_register_mount ops env t id a watcher_id).tracker.mounts = m :: t.mounts ∧
        m.key ∉ t.mounts.map VfsMount.key ∧
        (∀ x ∈ t.mounts, ops.g_mount_spec_match x.mount_spec m.mount_spec = false) ∧
        (m.fuse_mountpoint.isSome = m.user_visible) ∧
        (∀ p, m.fuse_mountpoint = some p → p ≠ []) := by
  cases hf : find_vfs_mount t.mounts id a.arg_obj_path with
  | some m0 => left; rw [handle_register_mount_dup_key ops env t id a watcher_id (by simp [hf])]
  | none =>
    cases hp : ops.g_mount_spec_from_dbus a.arg_mount_spec with
    | none => left; rw [handle_register_mount_unparsed ops env t id a watcher_id hf hp]
    | some spec =>
      cases hm : match_vfs_mount ops t.mounts spec with
      | some m1 =>
        left; rw [handle_register_mount_dup_spec ops env t id a watcher_id spec hp (by simp [hm])]
      | none =>
        right
        rw [handle_register_mount_fresh ops env t id a watcher_id spec hf hp hm]
        refine ⟨_, rfl, ?_, ?_, register_mount_new_fuse_isSome env id a spec watcher_id,
          register_mount_new_fuse_ne_nil env id a spec watcher_id⟩
        · exact (find_vfs_mount_eq_none _ _ _).1 hf
        · exact (match_vfs_mount_eq_none ops _ _).1 hm

theorem step_mounts (ops : GMountSpecOps Spec Wire) (env : Env) (t : Tracker Spec)
    (ev : Event Wire) :
    (∃ p : VfsMount Spec → Bool, (step ops env t ev).mounts = t.mounts.filter p) ∨
      ∃ m, (step ops env t ev).mounts = m :: t.mounts ∧
        m.key ∉ t.mounts.map VfsMount.key ∧
        (∀ x ∈ t.mounts, ops.g_mount_spec_match x.mount_spec m.mount_spec = false) ∧
        (m.fuse_mountpoint.isSome = m.user_visible) ∧
        (∀ p, m.fuse_mountpoint = some p → p ≠ []) := by
  cases ev with
  | register_mount id a w =>
    rcases handle_register_mount_mounts ops env t id a w with h | h
    · left; exact ⟨fun _ => true, by simp [step, h]⟩
    · right; exact h
  | register_fuse => left; exact ⟨fun _ => true, by simp [step, handle_register_fuse]⟩
  | name_vanished name =>
    left
    exact ⟨_, by simp only [step, name_vanished_cb]; exact dbus_client_disconnected_fst ops _ _ _⟩

/-- A property of the mount list that holds of the empty list, survives the
removal of mounts and survives each registration that passed the checks holds
after every run. -/
theorem run_mounts_induction (ops : GMountSpecOps Spec Wire) (env : Env)
    (P : List (VfsMount Spec) → Prop)
    (hfilter : ∀ l (p : VfsMount Spec → Bool), P l → P (l.filter p))
    (hcons : ∀ l m, P l → m.key ∉ l.map VfsMount.key →
      (∀ x ∈ l, ops.g_mount_spec_match x.mount_spec m.mount_spec = false) →
      m.fuse_mountpoint.isSome = m.user_visible →
      (∀ p, m.fuse_mountpoint = some p → p ≠ []) → P (m :: l))
    (evs : List (Event Wire)) (t : Tracker Spec) (h : P t.mounts) :
    P (run ops env t evs).mounts := by
  induction evs generalizing t with
  | nil => exact h
  | cons ev evs ih =>
    simp only [run, List.foldl_cons]
    apply ih
    rcases step_mounts ops env t ev with ⟨p, hp⟩ | ⟨m, hm, h1, h2, h3, h4⟩
    · rw [hp]; exact hfilter _ _ h
    · rw [hm]; exact hcons _ _ h h1 h2 h3 h4

end RegistryLemmas

/-- C1. Registry uniqueness by key: after every sequence of `RegisterMount`
calls, `RegisterFuse` calls and peer-vanished events from the empty registry,
the pairs `(dbus_id, object_path)` of the registered mounts are pairwise
different. -/
theorem registry_key_unique {Spec Wire : Type} (ops : GMountSpecOps Spec Wire) (env : Env)
    (mountables : List VfsMountable) (evs : List (Event Wire)) :
    ((run ops env (mount_init mountables) evs).mounts.map VfsMount.key).Nodup := by
  apply run_mounts_induction ops env (fun l => (l.map VfsMount.key).Nodup)
  · intro l p h
    exact h.sublist (List.Sublist.map _ (List.filter_sublist l))
  · intro l m h hk _ _ _
    simpa using ⟨by simpa using hk, h⟩
  · simp [mount_init]

/-- C2, as stated, fails. With the sample match relation, a mount with prefix
`/a` is registered, then one of the same type with prefix `/`: the older does
not match the newer, so both are registered, but the newer matches the older. -/
theorem registry_spec_overlap_counterexample :
    ¬ SpecsDisjoint sampleOps
      (run sampleOps sampleEnv (mount_init [])
        [.register_mount (cstr ":1.1") (sampleArgs "/m/1" "a" "/a" true) 1,
         .register_mount (cstr ":1.2") (sampleArgs "/m/2" "b" "/" true) 2]).mounts := by
  unfold SpecsDisjoint
  decide

/-- C2, amended. After every sequence of `RegisterMount` calls, `RegisterFuse`
calls and peer-vanished events from the empty registry, no registered mount has
a spec that a mount registered before it matches; and when the match relation
is symmetric, no two registered mounts have specs that match in either order. -/
theorem registry_spec_unmatched_by_earlier {Spec Wire : Type} (ops : GMountSpecOps Spec Wire)
    (env : Env) (mountables : List VfsMountable) (evs : List (Event Wire)) :
    SpecsUnmatchedByEarlier ops (run ops env (mount_init mountables) evs).mounts ∧
      ((∀ x y, ops.g_mount_spec_match x y = ops.g_mount_spec_match y x) →
        SpecsDisjoint ops (run ops env (mount_init mountables) evs).mounts) := by
  have h : SpecsUnmatchedByEarlier ops (run ops env (mount_init mountables) evs).mounts := by
    apply run_mounts_induction ops env (SpecsUnmatchedByEarlier ops)
    · intro l p h
      exact List.Pairwise.sublist (List.filter_sublist l) h
    · intro l m h _ hm _ _
      exact List.pairwise_cons.2 ⟨hm, h⟩
    · simp [mount_init, SpecsUnmatchedByEarlier]
  refine ⟨h, fun hsymm => ?_⟩
  refine List.Pairwise.imp ?_ h
  intro a b hab
  exact ⟨by rw [hsymm]; exact hab, hab⟩

/-- C3, as stated, fails. Peer `:1.1` has registered `/m/1`; when it calls
again for `/m/1` with a spec that does not parse, the reply is
`ALREADY_MOUNTED`, not `INVALID_ARGUMENT`. -/
theorem register_unparsable_counterexample :
    sampleOps.g_mount_spec_from_dbus none = none ∧
      (handle_register_mount sampleOps sampleEnv
        (run sampleOps sampleEnv (mount_init [])
          [.register_mount (cstr ":1.1") (sampleArgs "/m/1" "a" "/a" true) 1])
        (cstr ":1.1") { sampleArgs "/m/1" "a" "/a" true with arg_mount_spec := none } 2).reply =
        .error .ALREADY_MOUNTED "Mountpoint Already registered" := by
  decide

/-- C3, amended. In every registry state, a `RegisterMount` call whose sender
and object path are not yet registered and whose spec does not parse is
answered with `INVALID_ARGUMENT`; the registry is unchanged and nothing is
broadcast. -/
theorem register_unparsable_invalid_argument {Spec Wire : Type} (ops : GMountSpecOps Spec Wire)
    (env : Env) (t : Tracker Spec) (id : CStr) (a : RegisterMountArgs Wire) (watcher_id : Nat)
    (hkey : ∀ m ∈ t.mounts, ¬ (m.dbus_id = id ∧ m.object_path = a.arg_obj_path))
    (hparse : ops.g_mount_spec_from_dbus a.arg_mount_spec = none) :
    (handle_register_mount ops env t id a watcher_id).reply =
        .error .INVALID_ARGUMENT "Error in mount spec" ∧
      (handle_register_mount ops env t id a watcher_id).tracker = t ∧
      (handle_register_mount ops env t id a watcher_id).signals = [] := by
  have hf : find_vfs_mount t.mounts id a.arg_obj_path = none := by
    simpa [find_vfs_mount, List.find?_eq_none] using hkey
  rw [handle_register_mount_unparsed ops env t id a watcher_id hf hparse]
  exact ⟨rfl, rfl, rfl⟩

theorem register_unparsable_invalid_argument_witness :
    (handle_register_mount sampleOps sampleEnv (mount_init []) (cstr ":1.1")
        { sampleArgs "/m/1" "a" "/a" true with arg_mount_spec := none } 1).reply =
        .error .INVALID_ARGUMENT "Error in mount spec" ∧
      (handle_register_mount sampleOps sampleEnv (mount_init []) (cstr ":1.1")
        { sampleArgs "/m/1" "a" "/a" true with arg_mount_spec := none } 1).tracker =
        mount_init [] ∧
      (handle_register_mount sampleOps sampleEnv (mount_init []) (cstr ":1.1")
        { sampleArgs "/m/1" "a" "/a" true with arg_mount_spec := none } 1).signals = [] :=
  register_unparsable_invalid_argument sampleOps sampleEnv (mount_init []) (cstr ":1.1")
    { sampleArgs "/m/1" "a" "/a" true with arg_mount_spec := none } 1
    (by intro m hm; cases hm) rfl

/-- C4. Duplicate registration is rejected atomically: in every registry state,
a `RegisterMount` call (any sender, any object path) whose spec parses and is
matched by the spec of a registered mount is answered with `ALREADY_MOUNTED`,
leaves the tracker as it was and asks for no broadcast. -/
theorem register_duplicate_rejected {Spec Wire : Type} (ops : GMountSpecOps Spec Wire)
    (env : Env) (t : Tracker Spec) (id : CStr) (a : RegisterMountArgs Wire) (watcher_id : Nat)
    (spec : Spec) (hparse : ops.g_mount_spec_from_dbus a.arg_mount_spec = some spec)
    (hmatch : ∃ m ∈ t.mounts, ops.g_mount_spec_match m.mount_spec spec = true) :
    (handle_register_mount ops env t id a watcher_id).reply =
        .error .ALREADY_MOUNTED "Mountpoint Already registered" ∧
      (handle_register_mount ops env t id a watcher_id).tracker = t ∧
      (handle_register_mount ops env t id a watcher_id).signals = [] := by
  have hm : (match_vfs_mount ops t.mounts spec).isSome = true := by
    simpa [match_vfs_mount, List.find?_isSome] using hmatch
  rw [handle_register_mount_dup_spec ops env t id a watcher_id spec hparse hm]
  exact ⟨rfl, rfl, rfl⟩

/-- Scenario S2 as an instance of C4: peer `:1.1` has registered a mount for a
spec; peer `:1.2` registers the same spec under another object path. -/
theorem register_duplicate_rejected_witness :
    (handle_register_mount sampleOps sampleEnv
        (run sampleOps sampleEnv (mount_init [])
          [.register_mount (cstr ":1.1") (sampleArgs "/m/1" "disk-1" "/" true) 1])
        (cstr ":1.2") (sampleArgs "/m/x" "disk-1" "/" true) 2).reply =
        .error .ALREADY_MOUNTED "Mountpoint Already registered" ∧
      (handle_register_mount sampleOps sampleEnv
        (run sampleOps sampleEnv (mount_init [])
          [.register_mount (cstr ":1.1") (sampleArgs "/m/1" "disk-1" "/" true) 1])
        (cstr ":1.2") (sampleArgs "/m/x" "disk-1" "/" true) 2).tracker =
        run sampleOps sampleEnv (mount_init [])
          [.register_mount (cstr ":1.1") (sampleArgs "/m/1" "disk-1" "/" true) 1] ∧
      (handle_register_mount sampleOps sampleEnv
        (run sampleOps sampleEnv (mount_init [])
          [.register_mount (cstr ":1.1") (sampleArgs "/m/1" "disk-1" "/" true) 1])
        (cstr ":1.2") (sampleArgs "/m/x" "disk-1" "/" true) 2).signals = [] :=
  register_duplicate_rejected sampleOps sampleEnv
    (run sampleOps sampleEnv (mount_init [])
      [.register_mount (cstr ":1.1") (sampleArgs "/m/1" "disk-1" "/" true) 1])
    (cstr ":1.2") (sampleArgs "/m/x" "disk-1" "/" true) 2 ⟨cstr "smb", cstr "/"⟩ rfl
    (by decide)

/-- C5. Successful registration: in every registry state, a `RegisterMount`
call whose spec parses, whose sender and object path are not yet registered and
whose spec no registered mount matches is answered with success; the mount list
afterwards is the old list with one mount in front, nothing else of the tracker
changes; that mount has the sender as `dbus_id`, the arguments as
`object_path`, `display_name`, `stable_name`, `x_content_types`, `icon`,
`prefered_filename_encoding`, `user_visible` and `default_location` (a
`NULL` location, which the bus never delivers, is stored as the empty string)
and the parsed spec as `mount_spec`; and exactly one broadcast is asked for, a
`Mounted` one carrying the wire form of that mount. -/
theorem register_mount_success {Spec Wire : Type} (ops : GMountSpecOps Spec Wire)
    (env : Env) (t : Tracker Spec) (id : CStr) (a : RegisterMountArgs Wire) (watcher_id : Nat)
    (spec : Spec) (hparse : ops.g_mount_spec_from_dbus a.arg_mount_spec = some spec)
    (hkey : ∀ m ∈ t.mounts, ¬ (m.dbus_id = id ∧ m.object_path = a.arg_obj_path))
    (hspec : ∀ m ∈ t.mounts, ops.g_mount_spec_match m.mount_spec spec = false) :
    (handle_register_mount ops env t id a watcher_id).reply = .complete ∧
      ∃ mount : VfsMount Spec,
        (handle_register_mount ops env t id a watcher_id).tracker.mounts = mount :: t.mounts ∧
        (handle_register_mount ops env t id a watcher_id).tracker.mountables = t.mountables ∧
        (handle_register_mount ops env t id a watcher_id).tracker.fuse_available =
          t.fuse_available ∧
        mount.dbus_id = id ∧
        mount.object_path = a.arg_obj_path ∧
        mount.display_name = a.arg_display_name ∧
        mount.stable_name = a.arg_stable_name ∧
        mount.x_content_types = a.arg_x_content_types ∧
        mount.icon = a.arg_icon ∧
        mount.prefered_filename_encoding = a.arg_prefered_filename_encoding ∧
        mount.user_visible = a.arg_user_visible ∧
        mount.default_location = a.arg_default_location.getD [] ∧
        mount.mount_spec = spec ∧
        (handle_register_mount ops env t id a watcher_id).signals =
          [{ mount := vfs_mount_to_dbus ops t.fuse_available mount, mounted := true }] := by
  have hf : find_vfs_mount t.mounts id a.arg_obj_path = none := by
    simpa [find_vfs_mount, List.find?_eq_none] using hkey
  have hm : match_vfs_mount ops t.mounts spec = none :=
    (match_vfs_mount_eq_none ops _ _).2 hspec
  rw [handle_register_mount_fresh ops env t id a watcher_id spec hf hparse hm]
  refine ⟨rfl, register_mount_new env id a spec watcher_id, rfl, rfl, rfl, rfl, rfl, rfl, rfl,
    rfl, rfl, rfl, rfl, ?_, rfl, rfl⟩
  simp only [register_mount_new]
  cases a.arg_default_location <;> rfl

/-- Scenario S1 as an instance of C5: the first registration in the empty
registry succeeds. -/
theorem register_mount_success_witness :
    (handle_register_mount sampleOps sampleEnv (mount_init []) (cstr "P1")
        (sampleArgs "/m/1" "disk-1" "/" true) 1).reply = .complete :=
  (register_mount_success sampleOps sampleEnv (mount_init []) (cstr "P1")
    (sampleArgs "/m/1" "disk-1" "/" true) 1 ⟨cstr "smb", cstr "/"⟩ rfl
    (by intro m hm; cases hm) (by intro m hm; cases hm)).1

/-- The test of `find_vfs_mount_by_fuse_path` on one mount says what the
description of the lookup says. -/
theorem fuse_path_matches_iff {Spec : Type} (path : CStr) (m : VfsMount Spec) :
    fuse_path_matches path m = true ↔ FusePathSpec path m := by
  unfold fuse_path_matches FusePathSpec
  cases hmp : m.fuse_mountpoint with
  | none => simp
  | some mp =>
    simp only [Option.some.injEq, exists_eq_left', Bool.and_eq_true, g_str_has_prefix,
      beq_iff_eq]
    constructor
    · rintro ⟨htake, hdrop⟩
      have hsplit := List.take_append_drop mp.length path
      rw [htake] at hsplit
      cases hd : path.drop mp.length with
      | nil => left; rw [hd] at hsplit; simpa using hsplit.symm
      | cons c rest =>
        rw [hd] at hdrop hsplit
        have hc : c = 47 := by simpa using hdrop
        right; exact ⟨rest, by rw [← hsplit, hc]⟩
    · rintro (h | ⟨rest, h⟩)
      · subst h; simp
      · subst h; simp

/-- C6. Fuse-path lookup. With `fuse_available` false the lookup gives no mount,
whatever the registry and the path. With `fuse_available` true it gives a mount
exactly when some registered mount has a mountpoint set such that the path is
the mountpoint or begins with the mountpoint followed by `/`, and the mount it
gives is the first such mount of the registry. A path that continues the
mountpoint with a byte other than `/` is not matched by that mount. -/
theorem find_by_fuse_path_spec {Spec : Type} (mountables : List VfsMountable)
    (mounts : List (VfsMount Spec)) (path : CStr) :
    find_vfs_mount_by_fuse_path ⟨mountables, mounts, false⟩ path = none ∧
      ((find_vfs_mount_by_fuse_path ⟨mountables, mounts, true⟩ path).isSome = true ↔
        ∃ m ∈ mounts, FusePathSpec path m) ∧
      (∀ m, find_vfs_mount_by_fuse_path ⟨mountables, mounts, true⟩ path = some m ↔
        ∃ before after, mounts = before ++ m :: after ∧ FusePathSpec path m ∧
          ∀ x ∈ before, ¬ FusePathSpec path x) ∧
      (∀ (m : VfsMount Spec) (mp : CStr) (c : Nat) (rest : CStr),
        m.fuse_mountpoint = some mp → c ≠ 47 →
          fuse_path_matches (mp ++ c :: rest) m = false ∧ ¬ FusePathSpec (mp ++ c :: rest) m) := by
  refine ⟨by simp [find_vfs_mount_by_fuse_path], ?_, ?_, ?_⟩
  · simp [find_vfs_mount_by_fuse_path, List.find?_isSome, fuse_path_matches_iff]
  · intro m
    simp only [find_vfs_mount_by_fuse_path, Bool.not_true, Bool.false_eq_true, if_false,
      List.find?_eq_some, fuse_path_matches_iff]
    constructor
    · rintro ⟨hm, before, after, hl, hb⟩
      refine ⟨before, after, hl, hm, fun x hx hspec => ?_⟩
      have := hb x hx
      rw [(fuse_path_matches_iff path x).2 hspec] at this
      cases this
    · rintro ⟨before, after, hl, hm, hb⟩
      refine ⟨hm, before, after, hl, fun x hx => ?_⟩
      cases hx' : fuse_path_matches path x with
      | false => rfl
      | true => exact absurd ((fuse_path_matches_iff _ _).1 hx') (hb x hx)
  · intro m mp c rest hmp hc
    have h : ¬ FusePathSpec (mp ++ c :: rest) m := by
      rintro ⟨mp', hmp', h | ⟨rest', h⟩⟩
      · rw [hmp] at hmp'
        cases hmp'
        simpa using congrArg List.length h
      · rw [hmp] at hmp'
        cases hmp'
        have := List.append_cancel_left h
        simp at this
        exact hc this.1
    refine ⟨?_, h⟩
    cases hb : fuse_path_matches (mp ++ c :: rest) m with
    | false => rfl
    | true => exact absurd ((fuse_path_matches_iff _ _).1 hb) h

/-- The escaped form of a UTF-8 string holds no separator, and is empty only
for the empty string. -/
theorem escape_char_facts (cs : List Char) :
    47 ∉ cs.flatMap escape_char ∧ (cs.flatMap escape_char = [] ↔ cs = []) := by
  have hone : ∀ c : Char, 47 ∉ escape_char c ∧ escape_char c ≠ [] := by
    intro c
    unfold escape_char
    by_cases hc : c.toNat < 0x80
    · rw [if_pos hc]
      unfold spec_escape_byte
      split
      · rename_i h
        refine ⟨?_, by simp⟩
        intro hmem
        have h47 : c.toNat = 47 := by simpa using (List.mem_singleton.1 hmem).symm
        rw [h47] at h
        simp [unreserved] at h
      · refine ⟨?_, by simp [percent_encode]⟩
        simp only [percent_encode, hex, List.mem_cons, List.mem_singleton, List.not_mem_nil,
          or_false, not_or]
        refine ⟨by decide, ?_, ?_⟩ <;> split <;> omega
    · rw [if_neg hc]
      have hv := char_toNat_valid c
      obtain ⟨c0, tail, he, -, -, hall⟩ := utf8_encode_head c.toNat (by omega) (by omega)
      rw [he]
      refine ⟨fun hmem => ?_, by simp⟩
      have := hall 47 hmem
      omega
  constructor
  · intro hmem
    obtain ⟨c, -, hc⟩ := List.mem_flatMap.1 hmem
    exact (hone c).1 hc
  · cases cs with
    | nil => simp
    | cons c cs =>
      simp only [List.flatMap_cons, List.append_eq_nil, reduceCtorEq, iff_false, not_and]
      intro h
      exact absurd h (hone c).2

/-- C7, as stated, fails. A stable name `é` (bytes C3 A9) is stored unescaped,
where the description asks for `%C3%A9`; and for the empty stable name the
mountpoint is the base directory itself, with no last segment after a `/`. -/
theorem fuse_mountpoint_counterexample :
    ((handle_register_mount sampleOps sampleEnv (mount_init []) (cstr ":1.1")
        { sampleArgs "/m/1" "" "/" true with arg_stable_name := [0xc3, 0xa9] } 1).tracker.mounts.map
          (fun m => m.fuse_mountpoint) = [some (cstr "/run/user/1000/gvfs/" ++ [0xc3, 0xa9])] ∧
      spec_fuse_mountpoint sampleEnv [0xc3, 0xa9] = cstr "/run/user/1000/gvfs/%C3%A9") ∧
    ((handle_register_mount sampleOps sampleEnv (mount_init []) (cstr ":1.1")
        (sampleArgs "/m/1" "" "/" true) 1).tracker.mounts.map
          (fun m => m.fuse_mountpoint) = [some (cstr "/run/user/1000/gvfs")] ∧
      spec_fuse_mountpoint sampleEnv [] = cstr "/run/user/1000/gvfs/") := by
  decide

/-- C7, amended. For every successful `RegisterMount` with `user_visible` true
and every stable name that is a UTF-8 string (the empty one included), the
stored fuse mountpoint is the base directory when the stable name is empty, and
otherwise the base directory, `/`, and the escaped stable name, where escaping
keeps unreserved characters, the characters `+`, `@`, `#`, `$`, `.`, `,`, space
and every non-ASCII character and percent-encodes every other byte. The base
directory is `g_build_filename` of the runtime dir and `gvfs` when the runtime
dir is another pointer than the cache dir, and of the home dir and `.gvfs`
otherwise; for a directory that does not end in `/` that is the directory,
`/`, and the segment. -/
theorem fuse_mountpoint_construction {Spec Wire : Type} (ops : GMountSpecOps Spec Wire)
    (env : Env) (t : Tracker Spec) (id : CStr) (a : RegisterMountArgs Wire) (watcher_id : Nat)
    (spec : Spec) (name : List Char)
    (hparse : ops.g_mount_spec_from_dbus a.arg_mount_spec = some spec)
    (hkey : ∀ m ∈ t.mounts, ¬ (m.dbus_id = id ∧ m.object_path = a.arg_obj_path))
    (hspec : ∀ m ∈ t.mounts, ops.g_mount_spec_match m.mount_spec spec = false)
    (hvis : a.arg_user_visible = true) (hname : a.arg_stable_name = utf8_string name) :
    (∃ mount : VfsMount Spec,
        (handle_register_mount ops env t id a watcher_id).tracker.mounts = mount :: t.mounts ∧
        mount.fuse_mountpoint =
          some (g_build_filename [(fuse_base env).1, (fuse_base env).2] ++
            (if name = [] then [] else 47 :: name.flatMap escape_char))) ∧
      (fuse_base env =
        if env.user_runtime_dir.addr = env.user_cache_dir.addr then (env.home_dir, cstr ".gvfs")
        else (env.user_runtime_dir.str, cstr "gvfs")) ∧
      (∀ l x, (fuse_base env).1 = l ++ [x] → x ≠ 47 →
        g_build_filename [(fuse_base env).1, (fuse_base env).2] =
          (fuse_base env).1 ++ 47 :: (fuse_base env).2) := by
  have hf : find_vfs_mount t.mounts id a.arg_obj_path = none := by
    simpa [find_vfs_mount, List.find?_eq_none] using hkey
  have hm : match_vfs_mount ops t.mounts spec = none :=
    (match_vfs_mount_eq_none ops _ _).2 hspec
  have hsub : (fuse_base env).2 ≠ [] ∧ 47 ∉ (fuse_base env).2 := by
    unfold fuse_base
    split
    · exact ⟨(by decide : cstr ".gvfs" ≠ []), (by decide : 47 ∉ cstr ".gvfs")⟩
    · exact ⟨(by decide : cstr "gvfs" ≠ []), (by decide : 47 ∉ cstr "gvfs")⟩
  obtain ⟨hsep, hnil⟩ := escape_char_facts name
  refine ⟨⟨register_mount_new env id a spec watcher_id, ?_, ?_⟩, rfl, ?_⟩
  · rw [handle_register_mount_fresh ops env t id a watcher_id spec hf hparse hm]
  · have hlast := g_build_filename_last (fuse_base env).1 (fuse_base env).2
      (name.flatMap escape_char) hsub.1 hsub.2 hsep
    simp only [hnil] at hlast
    rw [← hlast, ← g_uri_escape_string_utf8, ← hname]
    simp only [register_mount_new, hvis, if_true, fuse_base]
    split <;> rfl
  · intro l x hl hx
    rw [hl]
    exact g_build_filename_dir l x hx _ hsub.1 hsub.2

/-- An instance of C7 as amended: the stable name `weird name@srv/é` in the
sample environment; the one `/` is escaped, space, `@` and `é` are kept. -/
theorem fuse_mountpoint_construction_witness :
    (∃ mount : VfsMount SampleSpec,
      (handle_register_mount sampleOps sampleEnv (mount_init []) (cstr ":1.1")
        { sampleArgs "/m/1" "" "/" true with
          arg_stable_name := utf8_string "weird name@srv/é".toList } 1).tracker.mounts =
        mount :: [] ∧
      mount.fuse_mountpoint =
        some (g_build_filename [(fuse_base sampleEnv).1, (fuse_base sampleEnv).2] ++
          (if "weird name@srv/é".toList = [] then []
           else 47 :: "weird name@srv/é".toList.flatMap escape_char))) ∧
      utf8_string "weird name@srv/é".toList = cstr "weird name@srv/" ++ [0xc3, 0xa9] ∧
      "weird name@srv/é".toList.flatMap escape_char = cstr "weird name@srv%2F" ++ [0xc3, 0xa9] ∧
      g_build_filename [(fuse_base sampleEnv).1, (fuse_base sampleEnv).2] =
        cstr "/run/user/1000/gvfs" :=
  ⟨(fuse_mountpoint_construction sampleOps sampleEnv (mount_init []) (cstr ":1.1")
    { sampleArgs "/m/1" "" "/" true with
      arg_stable_name := utf8_string "weird name@srv/é".toList } 1 ⟨cstr "smb", cstr "/"⟩
    "weird name@srv/é".toList rfl (by intro m hm; cases hm) (by intro m hm; cases hm) rfl rfl).1,
    by decide, by decide, by decide⟩

/-- C8 (scenario S5), as stated, fails. Fuse is registered, the runtime dir is
`/run/user/1000`, a user-visible mount with stable name `weird name@srv` is
registered: the lookup of `/run/user/1000/gvfs/weird%20name%40srv/sub/file`
is answered with `NOT_MOUNTED`, because space and `@` are not escaped and the
mountpoint is `/run/user/1000/gvfs/weird name@srv`. -/
theorem fuse_lookup_scenario_counterexample :
    (run sampleOps sampleEnv (mount_init [])
        [.register_fuse,
         .register_mount (cstr ":1.1") (sampleArgs "/m/1" "weird name@srv" "/" true) 1]).mounts.map
        (fun m => m.fuse_mountpoint) = [some (cstr "/run/user/1000/gvfs/weird name@srv")] ∧
      (handle_lookup_mount_by_fuse_path sampleOps
        (run sampleOps sampleEnv (mount_init [])
          [.register_fuse,
           .register_mount (cstr ":1.1") (sampleArgs "/m/1" "weird name@srv" "/" true) 1])
        (cstr "/run/user/1000/gvfs/weird%20name%40srv/sub/file")).reply =
        .error .NOT_MOUNTED "The specified location is not mounted" := by
  decide

/-- C8, amended. With `RegisterFuse` called, a runtime dir `/run/user/1000`
that is another pointer than the cache dir, and a user-visible mount registered
with stable name `weird name@srv`, the lookup of
`/run/user/1000/gvfs/weird name@srv/sub/file` returns the tuple of that mount,
and the lookup of `/run/user/1000/gvfs/weird name@srvX` is answered with
`NOT_MOUNTED`. -/
theorem fuse_lookup_scenario {Spec Wire : Type} (ops : GMountSpecOps Spec Wire) (env : Env)
    (mountables : List VfsMountable) (id : CStr) (a : RegisterMountArgs Wire) (watcher_id : Nat)
    (spec : Spec) (hparse : ops.g_mount_spec_from_dbus a.arg_mount_spec = some spec)
    (hdir : env.user_runtime_dir.str = cstr "/run/user/1000")
    (hptr : env.user_runtime_dir.addr ≠ env.user_cache_dir.addr)
    (hvis : a.arg_user_visible = true) (hname : a.arg_stable_name = cstr "weird name@srv") :
    (handle_lookup_mount_by_fuse_path ops
        (run ops env (mount_init mountables) [.register_fuse, .register_mount id a watcher_id])
        (cstr "/run/user/1000/gvfs/weird name@srv/sub/file")).reply =
        .value (vfs_mount_to_dbus ops true (register_mount_new env id a spec watcher_id)) ∧
      (handle_lookup_mount_by_fuse_path ops
        (run ops env (mount_init mountables) [.register_fuse, .register_mount id a watcher_id])
        (cstr "/run/user/1000/gvfs/weird name@srvX")).reply =
        .error .NOT_MOUNTED "The specified location is not mounted" := by
  have hrun : run ops env (mount_init mountables) [.register_fuse, .register_mount id a watcher_id] =
      ⟨mountables, [register_mount_new env id a spec watcher_id], true⟩ := by
    simp only [run, List.foldl_cons, List.foldl_nil, step, handle_register_fuse, mount_init]
    rw [handle_register_mount_fresh ops env ⟨mountables, [], true⟩ id a watcher_id spec rfl hparse
      rfl]
  have hmp : (register_mount_new env id a spec watcher_id : VfsMount Spec).fuse_mountpoint =
      some (cstr "/run/user/1000/gvfs/weird name@srv") := by
    simp only [register_mount_new, hvis, hname, hdir, hptr, if_true, if_false]
    decide
  have h1 : fuse_path_matches (cstr "/run/user/1000/gvfs/weird name@srv/sub/file")
      (register_mount_new env id a spec watcher_id : VfsMount Spec) = true := by
    simp only [fuse_path_matches, hmp]
    decide
  have h2 : fuse_path_matches (cstr "/run/user/1000/gvfs/weird name@srvX")
      (register_mount_new env id a spec watcher_id : VfsMount Spec) = false := by
    simp only [fuse_path_matches, hmp]
    decide
  rw [hrun]
  constructor
  · simp [handle_lookup_mount_by_fuse_path, find_vfs_mount_by_fuse_path, h1]
  · simp [handle_lookup_mount_by_fuse_path, find_vfs_mount_by_fuse_path, h2]

/-- The amended scenario S5 in the sample environment. -/
theorem fuse_lookup_scenario_witness :
    (handle_lookup_mount_by_fuse_path sampleOps
        (run sampleOps sampleEnv (mount_init [])
          [.register_fuse,
           .register_mount (cstr ":1.1") (sampleArgs "/m/1" "weird name@srv" "/" true) 1])
        (cstr "/run/user/1000/gvfs/weird name@srv/sub/file")).reply =
        .value (vfs_mount_to_dbus sampleOps true
          (register_mount_new sampleEnv (cstr ":1.1")
            (sampleArgs "/m/1" "weird name@srv" "/" true) ⟨cstr "smb", cstr "/"⟩ 1)) ∧
      (handle_lookup_mount_by_fuse_path sampleOps
        (run sampleOps sampleEnv (mount_init [])
          [.register_fuse,
           .register_mount (cstr ":1.1") (sampleArgs "/m/1" "weird name@srv" "/" true) 1])
        (cstr "/run/user/1000/gvfs/weird name@srvX")).reply =
        .error .NOT_MOUNTED "The specified location is not mounted" :=
  fuse_lookup_scenario sampleOps sampleEnv [] (cstr ":1.1")
    (sampleArgs "/m/1" "weird name@srv" "/" true) 1 ⟨cstr "smb", cstr "/"⟩ rfl rfl (by decide)
    rfl rfl

/-- C9, as stated, fails. Scenario S1: fuse was never registered, and the
user-visible mount that is registered has its fuse mountpoint set. -/
theorem fuse_mountpoint_set_counterexample :
    (mount_init [] : Tracker SampleSpec).fuse_available = false ∧
      (handle_register_mount sampleOps sampleEnv (mount_init []) (cstr "P1")
        (sampleArgs "/m/1" "disk-1" "/" true) 1).tracker.mounts.map
        (fun m => (m.user_visible, m.fuse_mountpoint)) =
        [(true, some (cstr "/run/user/1000/gvfs/disk-1"))] := by
  decide

/-- C9, amended. For every mount in every reachable registry state, the stored
fuse mountpoint is set exactly when the mount is user-visible, whether or not
fuse was registered, and a mountpoint that is set is not empty. -/
theorem fuse_mountpoint_set_iff_user_visible {Spec Wire : Type} (ops : GMountSpecOps Spec Wire)
    (env : Env) (mountables : List VfsMountable) (evs : List (Event Wire)) :
    ∀ m ∈ (run ops env (mount_init mountables) evs).mounts,
      (m.fuse_mountpoint.isSome = true ↔ m.user_visible = true) ∧
        ∀ p, m.fuse_mountpoint = some p → p ≠ [] := by
  apply run_mounts_induction ops env (fun l => ∀ m ∈ l,
    (m.fuse_mountpoint.isSome = true ↔ m.user_visible = true) ∧
      ∀ p, m.fuse_mountpoint = some p → p ≠ [])
  · intro l p h m hm
    exact h m (List.mem_filter.1 hm).1
  · intro l m h _ _ h1 h2 x hx
    rcases List.mem_cons.1 hx with rfl | hx
    · exact ⟨by rw [h1], h2⟩
    · exact h x hx
  · intro m hm
    cases hm

/-- An instance of C9 as amended: the mount of scenario S1, registered while
fuse is not registered. -/
theorem fuse_mountpoint_set_iff_user_visible_witness :
    ((register_mount_new sampleEnv (cstr "P1") (sampleArgs "/m/1" "disk-1" "/" true)
        (⟨cstr "smb", cstr "/"⟩ : SampleSpec) 1).fuse_mountpoint.isSome = true ↔
      (register_mount_new sampleEnv (cstr "P1") (sampleArgs "/m/1" "disk-1" "/" true)
        (⟨cstr "smb", cstr "/"⟩ : SampleSpec) 1).user_visible = true) ∧
      ∀ p, (register_mount_new sampleEnv (cstr "P1") (sampleArgs "/m/1" "disk-1" "/" true)
        (⟨cstr "smb", cstr "/"⟩ : SampleSpec) 1).fuse_mountpoint = some p → p ≠ [] :=
  fuse_mountpoint_set_iff_user_visible sampleOps sampleEnv []
    [.register_mount (cstr "P1") (sampleArgs "/m/1" "disk-1" "/" true) 1]
    (register_mount_new sampleEnv (cstr "P1") (sampleArgs "/m/1" "disk-1" "/" true)
      ⟨cstr "smb", cstr "/"⟩ 1) (by decide)

/-- C10. Mount wire form: for every mount and every value of `fuse_available`
the encoder gives the eleven fields `dbus_id`, `object_path`, `display_name`,
`stable_name`, `x_content_types`, `icon`, `prefered_filename_encoding`,
`user_visible`, fuse mountpoint, mount spec, `default_location` in this order,
each with the stored value, the fuse mountpoint being the stored path when
`fuse_available` is true and a path is stored and the empty byte string
otherwise; so the `Mounted` broadcast of a registration made while fuse is not
registered carries an empty fuse mountpoint. -/
theorem vfs_mount_to_dbus_wire_form {Spec Wire : Type} (ops : GMountSpecOps Spec Wire)
    (fuse_available : Bool) (m : VfsMount Spec) (env : Env) (mountables : List VfsMountable)
    (mounts : List (VfsMount Spec)) (id : CStr) (a : RegisterMountArgs Wire) (watcher_id : Nat) :
    vfs_mount_to_dbus ops fuse_available m =
        [.s m.dbus_id, .o m.object_path, .s m.display_name, .s m.stable_name,
         .s m.x_content_types, .s m.icon, .s m.prefered_filename_encoding, .b m.user_visible,
         .ay (if fuse_available = true then m.fuse_mountpoint.getD [] else []),
         .spec (ops.g_mount_spec_to_dbus m.mount_spec), .ay m.default_location] ∧
      (vfs_mount_to_dbus ops fuse_available m).length = 11 ∧
      (vfs_mount_to_dbus ops false m).get? 8 = some (.ay []) ∧
      (vfs_mount_to_dbus ops true m).get? 8 = some (.ay (m.fuse_mountpoint.getD [])) ∧
      ∀ s ∈ (handle_register_mount ops env ⟨mountables, mounts, false⟩ id a watcher_id).signals,
        s.mounted = true ∧ s.mount.get? 8 = some (.ay []) := by
  refine ⟨?_, rfl, rfl, ?_, ?_⟩
  · cases fuse_available <;> cases h : m.fuse_mountpoint <;> simp [vfs_mount_to_dbus, h]
  · cases h : m.fuse_mountpoint <;> simp [vfs_mount_to_dbus, h]
  · intro s hs
    unfold handle_register_mount at hs
    split at hs
    · cases hs
    · split at hs
      · cases hs
      · split at hs
        · cases hs
        · rw [List.mem_singleton] at hs
          subst hs
          exact ⟨rfl, rfl⟩

/-- C11. Peer disappearance: in every registry state, one peer-vanished event
for the peer `P` leaves exactly the mounts of the other peers, unchanged and in
their order, asks for exactly one `Unmounted` broadcast for each mount of `P`,
carrying the wire form of that mount, and changes nothing else of the tracker;
when every registered mount belongs to `P` (so when `P` owned the only mount),
`ListMounts` afterwards returns the empty array. -/
theorem peer_vanished_removes_its_mounts {Spec Wire : Type} (ops : GMountSpecOps Spec Wire)
    (t : Tracker Spec) (P : CStr) :
    (name_vanished_cb ops t P).1.mounts = t.mounts.filter (fun m => !decide (m.dbus_id = P)) ∧
      (name_vanished_cb ops t P).2 =
        (t.mounts.filter fun m => decide (m.dbus_id = P)).map
          (fun m => { mount := vfs_mount_to_dbus ops t.fuse_available m, mounted := false }) ∧
      (name_vanished_cb ops t P).1.mountables = t.mountables ∧
      (name_vanished_cb ops t P).1.fuse_available = t.fuse_available ∧
      ((∀ m ∈ t.mounts, m.dbus_id = P) →
        handle_list_mounts ops (name_vanished_cb ops t P).1 = []) := by
  have h1 : (name_vanished_cb ops t P).1.mounts =
      t.mounts.filter (fun m => !decide (m.dbus_id = P)) := by
    simp only [name_vanished_cb]
    exact dbus_client_disconnected_fst ops _ _ _
  refine ⟨h1, ?_, rfl, rfl, ?_⟩
  · simp only [name_vanished_cb]
    rw [dbus_client_disconnected_snd]
    rfl
  · intro hall
    simp only [handle_list_mounts, h1, List.map_eq_nil_iff, List.filter_eq_nil_iff]
    intro m hm
    simp [hall m hm]

/-! ## Facts about the coordinator -/

section CoordinatorLemmas

variable {Spec Wire Source SourceWire : Type}

theorem mount_finish_error (relookup : Relookup Spec Wire Source SourceWire) (b : Broker Spec)
    (env : SpawnEnv) (data : MountData Spec Source) (e : GError) :
    mount_finish relookup b env data (some e) = some ⟨b, [], callback_error_effects data.callback e⟩ := by
  unfold mount_finish callback_error_effects
  cases data.callback <;> rfl

theorem spawn_mount_no_exec (relookup : Relookup Spec Wire Source SourceWire) (b : Broker Spec)
    (env : SpawnEnv) (data : MountData Spec Source) (h : data.mountable.exec = none) :
    spawn_mount relookup b env data =
      some ({ data with spawned := true },
        ⟨b, [], callback_error_effects data.callback
          ⟨.io .FAILED, "No exec key defined for mountpoint"⟩⟩) := by
  simp [spawn_mount, h, g_set_error_literal, mount_finish_error]

theorem spawn_mount_bus_error (relookup : Relookup Spec Wire Source SourceWire) (b : Broker Spec)
    (env : SpawnEnv) (data : MountData Spec Source) (exec : CStr) (err : GError)
    (h : data.mountable.exec = some exec) (hbus : env.g_bus_get_sync = .error err) :
    spawn_mount relookup b env data =
      some ({ data with
          spawned := true
          obj_path := some (cstr "/org/gtk/gvfs/exec_spaw/" ++ printf_d b.mount_id) },
        ⟨{ b with mount_id := int_wrap (b.mount_id + 1) }, [],
          callback_error_effects data.callback err⟩) := by
  simp [spawn_mount, h, hbus, mount_finish_error]

theorem spawn_mount_export_error (relookup : Relookup Spec Wire Source SourceWire)
    (b : Broker Spec) (env : SpawnEnv) (data : MountData Spec Source) (exec : CStr)
    (connection : GDBusConnection) (err : GError)
    (h : data.mountable.exec = some exec) (hbus : env.g_bus_get_sync = .ok connection)
    (hexport : env.g_dbus_interface_skeleton_export = some err) :
    spawn_mount relookup b env data =
      some ({ data with
          spawned := true
          obj_path := some (cstr "/org/gtk/gvfs/exec_spaw/" ++ printf_d b.mount_id)
          spawner := true },
        ⟨{ b with mount_id := int_wrap (b.mount_id + 1) }, [],
          .skeleton_export (cstr "/org/gtk/gvfs/exec_spaw/" ++ printf_d b.mount_id)
            { data with
              spawned := true
              obj_path := some (cstr "/org/gtk/gvfs/exec_spaw/" ++ printf_d b.mount_id)
              spawner := true } ::
          callback_error_effects data.callback err⟩) := by
  simp [spawn_mount, h, hbus, hexport, mount_finish_error]

theorem spawn_mount_launch (relookup : Relookup Spec Wire Source SourceWire)
    (b : Broker Spec) (env : SpawnEnv) (data : MountData Spec Source) (exec : CStr)
    (connection : GDBusConnection)
    (h : data.mountable.exec = some exec) (hbus : env.g_bus_get_sync = .ok connection)
    (hexport : env.g_dbus_interface_skeleton_export = none) :
    spawn_mount relookup b env data =
      some ({ data with
          spawned := true
          obj_path := some (cstr "/org/gtk/gvfs/exec_spaw/" ++ printf_d b.mount_id)
          spawner := true },
        ⟨{ b with mount_id := int_wrap (b.mount_id + 1) }, [],
          .skeleton_export (cstr "/org/gtk/gvfs/exec_spaw/" ++ printf_d b.mount_id)
            { data with
              spawned := true
              obj_path := some (cstr "/org/gtk/gvfs/exec_spaw/" ++ printf_d b.mount_id)
              spawner := true } ::
          .spawn_command_line_async (g_strconcat
            [some exec, some (cstr " --spawner "), connection.unique_name, some (cstr " "),
             some (cstr "/org/gtk/gvfs/exec_spaw/" ++ printf_d b.mount_id)]) ::
          (match env.g_spawn_command_line_async with
           | some err =>
             .skeleton_unexport (some (cstr "/org/gtk/gvfs/exec_spaw/" ++ printf_d b.mount_id)) ::
               callback_error_effects data.callback err
           | none => [])⟩) := by
  cases hs : env.g_spawn_command_line_async <;>
    simp [spawn_mount, h, hbus, hexport, hs, mount_finish_error]

/-- Whatever the system calls return, `spawn_mount` comes back at once, with no
further record allocated and the tracker untouched; it moves the counter and
sets `obj_path` exactly when the descriptor has an `Exec`; and the only replies
it can send are the `NOT_MOUNTED` ones of `automount_done`. -/
theorem spawn_mount_summary (relookup : Relookup Spec Wire Source SourceWire) (b : Broker Spec)
    (env : SpawnEnv) (data : MountData Spec Source) :
    ∃ data' step, spawn_mount relookup b env data = some (data', step) ∧
      step.started = [] ∧ step.broker.tracker = b.tracker ∧
      data'.mountable = data.mountable ∧ data'.automount = data.automount ∧
      data'.source = data.source ∧ data'.mount_spec = data.mount_spec ∧
      data'.callback = data.callback ∧ data'.spawned = true ∧
      step.broker.mount_id =
        (if data.mountable.exec.isSome then int_wrap (b.mount_id + 1) else b.mount_id) ∧
      data'.obj_path =
        (if data.mountable.exec.isSome
         then some (cstr "/org/gtk/gvfs/exec_spaw/" ++ printf_d b.mount_id) else data.obj_path) ∧
      ∀ invocation r, Effect.reply invocation r ∈ step.effects →
        ∃ message, r = .error .NOT_MOUNTED message := by
  have hcb : ∀ (e : GError) invocation r,
      Effect.reply invocation r ∈
        (callback_error_effects data.callback e : List (Effect Spec Wire Source SourceWire)) →
        ∃ message, r = .error .NOT_MOUNTED message := by
    intro e invocation r hmem
    unfold callback_error_effects at hmem
    cases hc : data.callback with
    | automount_done d =>
      rw [hc] at hmem
      simp only [List.mem_singleton, Effect.reply.injEq] at hmem
      exact ⟨_, hmem.2⟩
    | mount_location_done inv =>
      rw [hc] at hmem
      simp at hmem
  cases hexec : data.mountable.exec with
  | none =>
    rw [spawn_mount_no_exec relookup b env data hexec]
    exact ⟨_, _, rfl, rfl, rfl, rfl, rfl, rfl, rfl, rfl, rfl, by simp, by simp, hcb _⟩
  | some exec =>
    cases hbus : env.g_bus_get_sync with
    | error err =>
      rw [spawn_mount_bus_error relookup b env data exec err hexec hbus]
      exact ⟨_, _, rfl, rfl, rfl, rfl, rfl, rfl, rfl, rfl, rfl, by simp, by simp, hcb _⟩
    | ok connection =>
      cases hexport : env.g_dbus_interface_skeleton_export with
      | some err =>
        rw [spawn_mount_export_error relookup b env data exec connection err hexec hbus hexport]
        refine ⟨_, _, rfl, rfl, rfl, rfl, rfl, rfl, rfl, rfl, rfl, by simp, by simp, ?_⟩
        intro invocation r hmem
        simp only [List.mem_cons, reduceCtorEq, false_or] at hmem
        exact hcb _ _ _ hmem
      | none =>
        rw [spawn_mount_launch relookup b env data exec connection hexec hbus hexport]
        refine ⟨_, _, rfl, rfl, rfl, rfl, rfl, rfl, rfl, rfl, rfl, by simp, by simp, ?_⟩
        intro invocation r hmem
        simp only [List.mem_cons, reduceCtorEq, false_or] at hmem
        cases hs : env.g_spawn_command_line_async with
        | none => rw [hs] at hmem; simp at hmem
        | some err =>
          rw [hs] at hmem
          simp only [List.mem_cons, reduceCtorEq, false_or] at hmem
          exact hcb _ _ _ hmem

/-- Whatever the system calls return, `mountable_mount` comes back at once with
exactly one record allocated, filled in from its arguments, and the tracker
untouched; the counter moves and `obj_path` is set exactly when the descriptor
has no `DBusName` and has an `Exec`. -/
theorem mountable_mount_summary (relookup : Relookup Spec Wire Source SourceWire)
    (b : Broker Spec) (env : SpawnEnv) (mountable : VfsMountable) (mount_spec : Spec)
    (source : Source) (automount : Bool) (callback : MountCallback Spec) :
    ∃ data step,
      mountable_mount relookup b env mountable mount_spec source automount callback = some step ∧
      step.started = [data] ∧ step.broker.tracker = b.tracker ∧
      data.mountable = mountable ∧ data.automount = automount ∧ data.source = source ∧
      data.mount_spec = mount_spec ∧ data.callback = callback ∧
      step.broker.mount_id =
        (if allocates_path mountable then int_wrap (b.mount_id + 1) else b.mount_id) ∧
      data.obj_path =
        (if allocates_path mountable
         then some (cstr "/org/gtk/gvfs/exec_spaw/" ++ printf_d b.mount_id) else none) ∧
      ∀ invocation r, Effect.reply invocation r ∈ step.effects →
        ∃ message, r = .error .NOT_MOUNTED message := by
  unfold mountable_mount
  cases hname : mountable.dbus_name with
  | some dbus_name =>
    refine ⟨_, _, rfl, rfl, rfl, rfl, rfl, rfl, rfl, rfl, ?_, ?_, ?_⟩
    · simp [allocates_path, hname]
    · simp [allocates_path, hname]
    · intro invocation r hmem
      simp [mountable_mount_with_name] at hmem
  | none =>
    obtain ⟨data', step, hs, h1, h2, h3, h4, h5, h6, h7, -, h9, h10, h11⟩ :=
      spawn_mount_summary relookup b env
        { mountable := mountable, automount := automount, source := source,
          mount_spec := mount_spec, callback := callback, obj_path := none, spawned := false,
          spawner := false }
    simp only [hs, Option.map_some']
    refine ⟨data', _, rfl, by simp [h1], h2, h3, h4, h5, h6, h7, ?_, ?_, h11⟩
    · simpa [allocates_path, hname] using h9
    · simpa [allocates_path, hname] using h10

end CoordinatorLemmas

section CoordinatorLemmas2

variable {Spec Wire Source SourceWire : Type}

theorem lookup_mountable_eq_none (ops : GMountSpecOps Spec Wire) (mountables : List VfsMountable)
    (spec : Spec) :
    lookup_mountable ops mountables spec = none ↔
      ∀ d ∈ mountables, ops.g_mount_spec_get_type spec ≠ some d.type := by
  unfold lookup_mountable find_mountable
  cases h : ops.g_mount_spec_get_type spec with
  | none => simp
  | some type =>
    simp only [List.find?_eq_none, decide_eq_true_eq, ne_eq, Option.some.injEq]
    constructor
    · intro hall d hd heq
      exact hall d hd heq.symm
    · intro hall d hd heq
      exact hall d hd heq.symm

theorem maybe_automount_none (ops : GMountSpecOps Spec Wire)
    (srcops : GMountSourceOps Source SourceWire)
    (relookup : Relookup Spec Wire Source SourceWire) (b : Broker Spec) (env : SpawnEnv)
    (spec : Spec) (invocation : Nat) (do_automount : Bool)
    (h : lookup_mountable ops b.tracker.mountables spec = none) :
    maybe_automount ops srcops relookup b env spec invocation do_automount =
      some ⟨b, [], [.reply invocation
        (.error .NOT_SUPPORTED "The specified location is not supported")]⟩ := by
  simp [maybe_automount, h]

theorem maybe_automount_denied (ops : GMountSpecOps Spec Wire)
    (srcops : GMountSourceOps Source SourceWire)
    (relookup : Relookup Spec Wire Source SourceWire) (b : Broker Spec) (env : SpawnEnv)
    (spec : Spec) (invocation : Nat) (do_automount : Bool) (m : VfsMountable)
    (h : lookup_mountable ops b.tracker.mountables spec = some m)
    (hno : do_automount = false ∨ m.automount = false) :
    maybe_automount ops srcops relookup b env spec invocation do_automount =
      some ⟨b, [], [.reply invocation
        (.error .NOT_MOUNTED "The specified location is not mounted")]⟩ := by
  rcases hno with hno | hno <;> simp [maybe_automount, h, hno]

theorem maybe_automount_spawn (ops : GMountSpecOps Spec Wire)
    (srcops : GMountSourceOps Source SourceWire)
    (relookup : Relookup Spec Wire Source SourceWire) (b : Broker Spec) (env : SpawnEnv)
    (spec : Spec) (invocation : Nat) (m : VfsMountable)
    (h : lookup_mountable ops b.tracker.mountables spec = some m)
    (hauto : m.automount = true) :
    maybe_automount ops srcops relookup b env spec invocation true =
      mountable_mount relookup b env m spec srcops.g_mount_source_new_dummy true
        (.automount_done ⟨invocation, spec⟩) := by
  simp [maybe_automount, h, hauto]

/-- With `do_automount` false, `lookup_mount` with some fuel answers at once
with one reply, allocates no record and leaves the variables as they are. -/
theorem lookup_mount_no_automount (ops : GMountSpecOps Spec Wire)
    (srcops : GMountSourceOps Source SourceWire) (fuel : Nat) (b : Broker Spec) (env : SpawnEnv)
    (invocation : Nat) (spec : Spec) :
    lookup_mount ops srcops (fuel + 1) b env invocation spec false =
      some ⟨b, [], [.reply invocation
        (match match_vfs_mount ops b.tracker.mounts spec with
         | some mount => .value (vfs_mount_to_dbus ops b.tracker.fuse_available mount)
         | none =>
           match lookup_mountable ops b.tracker.mountables spec with
           | some _ => .error .NOT_MOUNTED "The specified location is not mounted"
           | none => .error .NOT_SUPPORTED "The specified location is not supported")]⟩ := by
  simp only [lookup_mount, lookup_mount_body]
  cases hm : match_vfs_mount ops b.tracker.mounts spec with
  | some mount => rfl
  | none =>
    cases hl : lookup_mountable ops b.tracker.mountables spec with
    | none => simp [maybe_automount, hl]
    | some m => simp [maybe_automount, hl]

end CoordinatorLemmas2

/-- C12. Automount policy: for every catalog, spec and flag `do_automount`,
`maybe_automount` replies `NOT_SUPPORTED` exactly when no descriptor has the
type of the spec; it replies `NOT_MOUNTED` without allocating an operation
exactly when the lookup finds a descriptor but `do_automount` is false or the
`automount` flag of the descriptor is false; and otherwise it calls
`mountable_mount` once, with `automount` true and the dummy source. -/
theorem maybe_automount_policy {Spec Wire Source SourceWire : Type}
    (ops : GMountSpecOps Spec Wire) (srcops : GMountSourceOps Source SourceWire)
    (relookup : Relookup Spec Wire Source SourceWire) (b : Broker Spec) (env : SpawnEnv)
    (spec : Spec) (invocation : Nat) (do_automount : Bool) :
    ((∃ step message,
        maybe_automount ops srcops relookup b env spec invocation do_automount = some step ∧
        Effect.reply invocation (.error .NOT_SUPPORTED message) ∈ step.effects) ↔
      ∀ d ∈ b.tracker.mountables, ops.g_mount_spec_get_type spec ≠ some d.type) ∧
    ((∀ d ∈ b.tracker.mountables, ops.g_mount_spec_get_type spec ≠ some d.type) →
      maybe_automount ops srcops relookup b env spec invocation do_automount =
        some ⟨b, [], [.reply invocation
          (.error .NOT_SUPPORTED "The specified location is not supported")]⟩) ∧
    ((∃ step message,
        maybe_automount ops srcops relookup b env spec invocation do_automount = some step ∧
        step.started = [] ∧
        Effect.reply invocation (.error .NOT_MOUNTED message) ∈ step.effects) ↔
      ∃ m, lookup_mountable ops b.tracker.mountables spec = some m ∧
        (do_automount = false ∨ m.automount = false)) ∧
    (∀ m, lookup_mountable ops b.tracker.mountables spec = some m →
      (do_automount = false ∨ m.automount = false) →
      maybe_automount ops srcops relookup b env spec invocation do_automount =
        some ⟨b, [], [.reply invocation
          (.error .NOT_MOUNTED "The specified location is not mounted")]⟩) ∧
    (∀ m, lookup_mountable ops b.tracker.mountables spec = some m →
      do_automount = true → m.automount = true →
      ∃ data step,
        maybe_automount ops srcops relookup b env spec invocation do_automount = some step ∧
        step.started = [data] ∧ data.mountable = m ∧ data.mount_spec = spec ∧
        data.automount = true ∧ data.source = srcops.g_mount_source_new_dummy ∧
        data.callback = .automount_done ⟨invocation, spec⟩) := by
  have hspawn : ∀ m, lookup_mountable ops b.tracker.mountables spec = some m →
      do_automount = true → m.automount = true →
      ∃ data step,
        maybe_automount ops srcops relookup b env spec invocation do_automount = some step ∧
        step.started = [data] ∧ data.mountable = m ∧ data.mount_spec = spec ∧
        data.automount = true ∧ data.source = srcops.g_mount_source_new_dummy ∧
        data.callback = .automount_done ⟨invocation, spec⟩ ∧
        ∀ inv r, Effect.reply inv r ∈ step.effects → ∃ message, r = .error .NOT_MOUNTED message := by
    intro m hm hdo hauto
    subst hdo
    rw [maybe_automount_spawn ops srcops relookup b env spec invocation m hm hauto]
    obtain ⟨data, step, hs, h1, -, h3, h4, h5, h6, h7, -, -, h10⟩ :=
      mountable_mount_summary relookup b env m spec srcops.g_mount_source_new_dummy true
        (.automount_done ⟨invocation, spec⟩)
    exact ⟨data, step, hs, h1, h3, h6, h4, h5, h7, h10⟩
  have hcases : lookup_mountable ops b.tracker.mountables spec = none ∨
      (∃ m, lookup_mountable ops b.tracker.mountables spec = some m ∧
        (do_automount = false ∨ m.automount = false)) ∨
      (∃ m, lookup_mountable ops b.tracker.mountables spec = some m ∧
        do_automount = true ∧ m.automount = true) := by
    cases hl : lookup_mountable ops b.tracker.mountables spec with
    | none => exact Or.inl rfl
    | some m =>
      right
      cases hd : do_automount
      · exact Or.inl ⟨m, rfl, Or.inl rfl⟩
      · cases ha : m.automount
        · exact Or.inl ⟨m, rfl, Or.inr ha⟩
        · exact Or.inr ⟨m, rfl, rfl, ha⟩
  refine ⟨?_, ?_, ?_, ?_, ?_⟩
  · rw [← lookup_mountable_eq_none]
    constructor
    · rintro ⟨step, message, hs, hmem⟩
      rcases hcases with h | ⟨m, hm, hno⟩ | ⟨m, hm, hdo, hauto⟩
      · exact h
      · rw [maybe_automount_denied ops srcops relookup b env spec invocation do_automount m hm
          hno] at hs
        cases hs
        simp at hmem
      · obtain ⟨data, step', hs', -, -, -, -, -, -, hrep⟩ := hspawn m hm hdo hauto
        rw [hs'] at hs
        cases hs
        obtain ⟨msg, hmsg⟩ := hrep _ _ hmem
        cases hmsg
    · intro h
      exact ⟨_, "The specified location is not supported",
        maybe_automount_none ops srcops relookup b env spec invocation do_automount h,
        List.mem_singleton.2 rfl⟩
  · intro h
    exact maybe_automount_none ops srcops relookup b env spec invocation do_automount
      ((lookup_mountable_eq_none ops _ _).2 h)
  · constructor
    · rintro ⟨step, message, hs, hstarted, hmem⟩
      rcases hcases with h | hno | ⟨m, hm, hdo, hauto⟩
      · rw [maybe_automount_none ops srcops relookup b env spec invocation do_automount h] at hs
        cases hs
        simp at hmem
      · exact hno
      · obtain ⟨data, step', hs', hst, -⟩ := hspawn m hm hdo hauto
        rw [hs'] at hs
        cases hs
        rw [hst] at hstarted
        cases hstarted
    · rintro ⟨m, hm, hno⟩
      exact ⟨_, "The specified location is not mounted",
        maybe_automount_denied ops srcops relookup b env spec invocation do_automount m hm hno,
        rfl, List.mem_singleton.2 rfl⟩
  · intro m hm hno
    exact maybe_automount_denied ops srcops relookup b env spec invocation do_automount m hm hno
  · intro m hm hdo hauto
    obtain ⟨data, step, hs, h1, h2, h3, h4, h5, h6, -⟩ := hspawn m hm hdo hauto
    exact ⟨data, step, hs, h1, h2, h3, h4, h5, h6⟩

/-- Automount non-recursion. A `lookup_mount` call allocates at most one
operation. When the operation fails with an error, `automount_done` replies
`NOT_MOUNTED` with the message of that error after `Automount failed: ` and
allocates nothing; this is what happens when the `Mount` call on the helper
comes back with an error. When the operation succeeds, `automount_done` runs
`lookup_mount` again with `do_automount` false, which sends one reply, an error
when the mount is still missing, and allocates nothing. No callback of the
operation allocates a record or moves the counter of Spawner paths. When the
helper calls `Spawned (false, message)`, the reply is `NOT_MOUNTED` with
`message` after `Automount failed: ` when the variable `error` of
`spawn_mount_handle_spawned` happens to hold `NULL`, and with the message of
whatever `error` holds otherwise. -/
theorem automount_non_recursion {Spec Wire Source SourceWire : Type}
    (ops : GMountSpecOps Spec Wire) (srcops : GMountSourceOps Source SourceWire) (fuel : Nat)
    (b : Broker Spec) (env : SpawnEnv) (invocation : Nat) (spec : Spec) :
    (∃ step, lookup_mount ops srcops (fuel + 1) b env invocation spec true = some step ∧
      step.started.length ≤ 1) ∧
    (∀ (b' : Broker Spec) (env' : SpawnEnv) (d : AutoMountData Spec) (e : GError),
      automount_done (relookup ops srcops (fuel + 1)) b' env' d (some e) =
        some ⟨b', [], [.reply d.invocation
          (.error .NOT_MOUNTED ("Automount failed: " ++ e.message))]⟩) ∧
    (∀ (b' : Broker Spec) (env' : SpawnEnv) (data : MountData Spec Source)
      (d : AutoMountData Spec) (e : GError), data.callback = .automount_done d →
      dbus_mount_reply (relookup ops srcops (fuel + 1)) b' env' data (some e) =
        some ⟨b', [], [.reply d.invocation
          (.error .NOT_MOUNTED ("Automount failed: " ++ e.message))]⟩) ∧
    (∀ (b' : Broker Spec) (env' : SpawnEnv) (d : AutoMountData Spec),
      automount_done (relookup ops srcops (fuel + 1)) b' env' d none =
        lookup_mount ops srcops (fuel + 1) b' env' d.invocation d.spec false ∧
      ∃ r, automount_done (relookup ops srcops (fuel + 1)) b' env' d none =
          some ⟨b', [], [.reply d.invocation r]⟩ ∧
        (match_vfs_mount ops b'.tracker.mounts d.spec = none →
          ∃ code message, r = .error code message)) ∧
    (∀ (b' : Broker Spec) (env' : SpawnEnv) (data : MountData Spec Source),
      (∀ res, ∃ step,
        dbus_mount_reply (relookup ops srcops (fuel + 1)) b' env' data res = some step ∧
        step.started = [] ∧ step.broker = b') ∧
      (∀ proxy, ∃ step,
        mountable_mount_proxy_cb ops srcops (relookup ops srcops (fuel + 1)) b' env' data proxy =
          some step ∧
        step.started = [] ∧ step.broker = b') ∧
      (∀ inv sender succeeded message error, ∃ step,
        spawn_mount_handle_spawned (relookup ops srcops (fuel + 1)) b' env' data inv sender
          succeeded message error = some step ∧
        step.started = [] ∧ step.broker = b')) ∧
    (∀ (b' : Broker Spec) (env' : SpawnEnv) (data : MountData Spec Source)
      (d : AutoMountData Spec) (inv : Nat) (sender : CStr) (message : String)
      (error : Option GError), data.callback = .automount_done d →
      spawn_mount_handle_spawned (relookup ops srcops (fuel + 1)) b' env' data inv sender false
          message error =
        some ⟨b', [],
          [.skeleton_unexport data.obj_path,
            .reply d.invocation
              (.error .NOT_MOUNTED
                ("Automount failed: " ++
                  (match error with
                   | none => message
                   | some stale => stale.message))),
            .complete_spawned inv]⟩) := by
  have hfinish : ∀ (b' : Broker Spec) (env' : SpawnEnv) (data : MountData Spec Source)
      (error : Option GError), ∃ step,
      mount_finish (relookup ops srcops (fuel + 1)) b' env' data error = some step ∧
      step.started = [] ∧ step.broker = b' := by
    intro b' env' data error
    cases error with
    | some e => exact ⟨_, mount_finish_error _ _ _ _ _, rfl, rfl⟩
    | none =>
      unfold mount_finish
      cases data.callback with
      | mount_location_done inv => exact ⟨_, rfl, rfl, rfl⟩
      | automount_done d =>
        simp only [automount_done, relookup]
        exact ⟨_, lookup_mount_no_automount ops srcops fuel b' env' d.invocation d.spec, rfl, rfl⟩
  refine ⟨?_, ?_, ?_, ?_, ?_, ?_⟩
  · simp only [lookup_mount, lookup_mount_body]
    cases hm : match_vfs_mount ops b.tracker.mounts spec with
    | some mount => exact ⟨_, rfl, by simp⟩
    | none =>
      simp only
      cases hl : lookup_mountable ops b.tracker.mountables spec with
      | none => exact ⟨_, maybe_automount_none ops srcops _ b env spec invocation true hl, by simp⟩
      | some m =>
        cases ha : m.automount with
        | false =>
          exact ⟨_, maybe_automount_denied ops srcops _ b env spec invocation true m hl (Or.inr ha),
            by simp⟩
        | true =>
          rw [maybe_automount_spawn ops srcops _ b env spec invocation m hl ha]
          obtain ⟨data, step, hs, h1, -⟩ :=
            mountable_mount_summary
              (fun b' env' invocation' spec' =>
                lookup_mount ops srcops fuel b' env' invocation' spec' false)
              b env m spec srcops.g_mount_source_new_dummy true
              (.automount_done ⟨invocation, spec⟩)
          exact ⟨step, hs, by simp [h1]⟩
  · intro b' env' d e
    rfl
  · intro b' env' data d e hcb
    simp only [dbus_mount_reply, mount_finish_error, callback_error_effects, hcb]
  · intro b' env' d
    refine ⟨rfl, ?_⟩
    simp only [automount_done, relookup]
    rw [lookup_mount_no_automount]
    refine ⟨_, rfl, ?_⟩
    intro hnone
    rw [hnone]
    cases lookup_mountable ops b'.tracker.mountables d.spec with
    | none => exact ⟨_, _, rfl⟩
    | some m => exact ⟨_, _, rfl⟩
  · intro b' env' data
    refine ⟨?_, ?_, ?_⟩
    · intro res
      unfold dbus_mount_reply
      cases res with
      | none => exact hfinish b' env' data none
      | some e => exact hfinish b' env' data (some e)
    · intro proxy
      unfold mountable_mount_proxy_cb
      cases proxy with
      | error e => exact hfinish b' env' data (some e)
      | ok name => exact ⟨_, rfl, rfl, rfl⟩
    · intro inv sender succeeded message error
      unfold spawn_mount_handle_spawned
      cases succeeded with
      | true => exact ⟨_, rfl, rfl, rfl⟩
      | false =>
        obtain ⟨step, hs, h1, h2⟩ := hfinish b' env' data
          (g_set_error_literal error (.io .FAILED) message)
        simp only [Bool.not_false, if_true, hs, Option.map_some']
        exact ⟨_, rfl, h1, h2⟩
  · intro b' env' data d inv sender message error hcb
    cases error <;>
      simp [spawn_mount_handle_spawned, g_set_error_literal, mount_finish_error,
        callback_error_effects, hcb]

/-- C13, the failing input. The operation that `LookupMount` started for `smb`
is pending; the helper calls `Spawned (false, "boom")` while the local variable
`error` of `spawn_mount_handle_spawned`, which is declared without a value,
holds a stale error with message `stale`: `g_set_error_literal` leaves it as
it is, and the caller of `LookupMount` gets `NOT_MOUNTED` with the message
`Automount failed: stale`, in which the message of the helper does not occur.
When the variable holds `NULL` the message is `Automount failed: boom`. In both
cases no second operation is started. -/
theorem automount_spawned_failure_stale_error :
    handle_lookup_mount sampleOps sampleSrcOps 2 sampleBroker sampleSpawnEnv 1
        (some ⟨cstr "smb", cstr "/"⟩) =
      some ⟨⟨sampleBroker.tracker, 1⟩, [sampleAutoData],
        [.skeleton_export (cstr "/org/gtk/gvfs/exec_spaw/0") sampleAutoData,
          .spawn_command_line_async
            (cstr "/usr/lib/gvfs-smb --spawner :1.7 /org/gtk/gvfs/exec_spaw/0")]⟩ ∧
      spawn_mount_handle_spawned (relookup sampleOps sampleSrcOps 1) ⟨sampleBroker.tracker, 1⟩
          sampleSpawnEnv sampleAutoData 2 (cstr ":1.42") false "boom"
          (some ⟨.io .FAILED, "stale"⟩) =
        some ⟨⟨sampleBroker.tracker, 1⟩, [],
          [.skeleton_unexport (some (cstr "/org/gtk/gvfs/exec_spaw/0")),
            .reply 1 (.error .NOT_MOUNTED "Automount failed: stale"),
            .complete_spawned 2]⟩ ∧
      spawn_mount_handle_spawned (relookup sampleOps sampleSrcOps 1) ⟨sampleBroker.tracker, 1⟩
          sampleSpawnEnv sampleAutoData 2 (cstr ":1.42") false "boom" none =
        some ⟨⟨sampleBroker.tracker, 1⟩, [],
          [.skeleton_unexport (some (cstr "/org/gtk/gvfs/exec_spaw/0")),
            .reply 1 (.error .NOT_MOUNTED "Automount failed: boom"),
            .complete_spawned 2]⟩ :=
  ⟨by decide, by decide, by decide⟩

theorem mountable_mount_eq {Spec Wire Source SourceWire : Type}
    (relookup : Relookup Spec Wire Source SourceWire) (b : Broker Spec) (env : SpawnEnv)
    (mountable : VfsMountable) (mount_spec : Spec) (source : Source) (automount : Bool)
    (callback : MountCallback Spec) :
    mountable_mount relookup b env mountable mount_spec source automount callback =
      match mountable.dbus_name with
      | none =>
        (spawn_mount relookup b env
          (mount_data_new mountable mount_spec source automount callback)).map fun r =>
          { r.2 with started := r.1 :: r.2.started }
      | some dbus_name =>
        some ⟨b, [mount_data_new mountable mount_spec source automount callback],
          mountable_mount_with_name
            (mount_data_new mountable mount_spec source automount callback) dbus_name⟩ :=
  rfl

/-- When the catalog holds a descriptor of the type of the spec,
`lookup_mountable` returns the first such descriptor. -/
theorem lookup_mountable_of_type {Spec Wire : Type} (ops : GMountSpecOps Spec Wire)
    (mountables : List VfsMountable) (spec : Spec)
    (h : ∃ d ∈ mountables, ops.g_mount_spec_get_type spec = some d.type) :
    ∃ before found after, mountables = before ++ found :: after ∧
      ops.g_mount_spec_get_type spec = some found.type ∧
      (∀ d ∈ before, ops.g_mount_spec_get_type spec ≠ some d.type) ∧
      lookup_mountable ops mountables spec = some found := by
  cases hl : lookup_mountable ops mountables spec with
  | none =>
    obtain ⟨d, hd, htype⟩ := h
    exact absurd htype ((lookup_mountable_eq_none ops mountables spec).1 hl d hd)
  | some found =>
    unfold lookup_mountable at hl
    cases ht : ops.g_mount_spec_get_type spec with
    | none => simp [ht] at hl
    | some type =>
      simp only [ht, find_mountable] at hl
      obtain ⟨hp, before, after, heq, hbefore⟩ := List.find?_eq_some.1 hl
      have hp2 : found.type = type := by simpa using hp
      refine ⟨before, found, after, heq, by rw [hp2], ?_, rfl⟩
      intro d hd hcontra
      have := hbefore d hd
      simp only [Option.some.injEq] at hcontra
      simp [hcontra] at this

/-- C14. Decision of `MountLocation`: for every registry, catalog and wire
spec, the reply is `INVALID_ARGUMENT` if the spec does not parse; else
`ALREADY_MOUNTED` if the spec of some registered mount matches it; else
`NOT_MOUNTED` if no descriptor of the catalog has the type of the spec; in
these three cases no operation is allocated and registry, catalog and counter
are as before. Only otherwise, that is when no registered mount matches and
the catalog holds a descriptor of the type of the spec, `mountable_mount` is
called, once, with `automount` false and the source given by the caller, for
the first descriptor of that type in the catalog, and what it does is all that
happens; the registry and the catalog are as before then too. -/
theorem mount_location_decision {Spec Wire Source SourceWire : Type}
    (ops : GMountSpecOps Spec Wire) (srcops : GMountSourceOps Source SourceWire)
    (relookup : Relookup Spec Wire Source SourceWire) (b : Broker Spec) (env : SpawnEnv)
    (invocation : Nat) (arg_mount_spec : Wire) (arg_mount_source : SourceWire) :
    (ops.g_mount_spec_from_dbus arg_mount_spec = none →
      handle_mount_location ops srcops relookup b env invocation arg_mount_spec
          arg_mount_source =
        some ⟨b, [], [.reply invocation (.error .INVALID_ARGUMENT "Invalid arguments")]⟩) ∧
    (∀ spec, ops.g_mount_spec_from_dbus arg_mount_spec = some spec →
      ((∃ m ∈ b.tracker.mounts, ops.g_mount_spec_match m.mount_spec spec = true) →
        handle_mount_location ops srcops relookup b env invocation arg_mount_spec
            arg_mount_source =
          some ⟨b, [], [.reply invocation
            (.error .ALREADY_MOUNTED "Location is already mounted")]⟩) ∧
      ((∀ m ∈ b.tracker.mounts, ops.g_mount_spec_match m.mount_spec spec = false) →
        (∀ d ∈ b.tracker.mountables, ops.g_mount_spec_get_type spec ≠ some d.type) →
        handle_mount_location ops srcops relookup b env invocation arg_mount_spec
            arg_mount_source =
          some ⟨b, [], [.reply invocation
            (.error .NOT_MOUNTED "Location is not mountable")]⟩) ∧
      ((∀ m ∈ b.tracker.mounts, ops.g_mount_spec_match m.mount_spec spec = false) →
        ∀ mountable, lookup_mountable ops b.tracker.mountables spec = some mountable →
        ∃ data step,
          handle_mount_location ops srcops relookup b env invocation arg_mount_spec
              arg_mount_source = some step ∧
          step.started = [data] ∧ step.broker.tracker = b.tracker ∧
          data.mountable = mountable ∧ data.mount_spec = spec ∧ data.automount = false ∧
          data.source = srcops.g_mount_source_from_dbus arg_mount_source ∧
          data.callback = .mount_location_done invocation) ∧
      ((∀ m ∈ b.tracker.mounts, ops.g_mount_spec_match m.mount_spec spec = false) →
        (∃ d ∈ b.tracker.mountables, ops.g_mount_spec_get_type spec = some d.type) →
        ∃ data step before after,
          handle_mount_location ops srcops relookup b env invocation arg_mount_spec
              arg_mount_source = some step ∧
          mountable_mount relookup b env data.mountable spec
              (srcops.g_mount_source_from_dbus arg_mount_source) false
              (.mount_location_done invocation) = some step ∧
          step.started = [data] ∧ step.broker.tracker = b.tracker ∧
          b.tracker.mountables = before ++ data.mountable :: after ∧
          ops.g_mount_spec_get_type spec = some data.mountable.type ∧
          (∀ d ∈ before, ops.g_mount_spec_get_type spec ≠ some d.type) ∧
          data.mount_spec = spec ∧ data.automount = false ∧
          data.source = srcops.g_mount_source_from_dbus arg_mount_source ∧
          data.callback = .mount_location_done invocation)) := by
  refine ⟨?_, ?_⟩
  · intro hparse
    simp [handle_mount_location, hparse]
  · intro spec hparse
    refine ⟨?_, ?_, ?_, ?_⟩
    · intro hmatch
      have hm : (match_vfs_mount ops b.tracker.mounts spec).isSome = true := by
        simpa [match_vfs_mount, List.find?_isSome] using hmatch
      obtain ⟨m, hm'⟩ := Option.isSome_iff_exists.1 hm
      simp [handle_mount_location, hparse, hm']
    · intro hnomatch hnotype
      have hm := (match_vfs_mount_eq_none ops _ _).2 hnomatch
      have hl := (lookup_mountable_eq_none ops _ _).2 hnotype
      simp [handle_mount_location, hparse, hm, hl]
    · intro hnomatch mountable hl
      have hm := (match_vfs_mount_eq_none ops _ _).2 hnomatch
      obtain ⟨data, step, hs, h1, h2, h3, h4, h5, h6, h7, -⟩ :=
        mountable_mount_summary relookup b env mountable spec
          (srcops.g_mount_source_from_dbus arg_mount_source) false
          (.mount_location_done invocation)
      refine ⟨data, step, ?_, h1, h2, h3, h6, h4, h5, h7⟩
      simp only [handle_mount_location, hparse, hm, hl]
      exact hs
    · intro hnomatch htype
      have hm := (match_vfs_mount_eq_none ops _ _).2 hnomatch
      obtain ⟨before, found, after, hsplit, hfound, hbefore, hl⟩ :=
        lookup_mountable_of_type ops b.tracker.mountables spec htype
      obtain ⟨data, step, hs, h1, h2, h3, h4, h5, h6, h7, -⟩ :=
        mountable_mount_summary relookup b env found spec
          (srcops.g_mount_source_from_dbus arg_mount_source) false
          (.mount_location_done invocation)
      refine ⟨data, step, before, after, ?_, ?_, h1, h2, ?_, ?_, hbefore, h6, h4, h5, h7⟩
      · simp only [handle_mount_location, hparse, hm, hl]
        exact hs
      · rw [h3]
        exact hs
      · rw [h3]
        exact hsplit
      · rw [h3]
        exact hfound

/-- C15. Routing of the coordinator, for every descriptor. With a `DBusName`
the operation asks for a proxy on that name and does nothing else, whether or
not `Exec` is set, and the callback of the proxy calls `Mount` on that name
with the spec, the automount flag and the source of the operation. With no
`DBusName` and an `Exec` the operation is marked spawned and gets a Spawner
object path, and when the bus connection and the export succeed the Spawner is
exported at that path and the helper is launched. With neither, the operation
is over at once: the error `FAILED`, `No exec key defined for mountpoint`, is
handed to its callback, and nothing is exported or launched. -/
theorem mountable_mount_routing {Spec Wire Source SourceWire : Type}
    (ops : GMountSpecOps Spec Wire) (srcops : GMountSourceOps Source SourceWire)
    (relookup : Relookup Spec Wire Source SourceWire) (b : Broker Spec) (env : SpawnEnv)
    (mountable : VfsMountable) (mount_spec : Spec) (source : Source) (automount : Bool)
    (callback : MountCallback Spec) :
    (∀ dbus_name, mountable.dbus_name = some dbus_name →
      mountable_mount relookup b env mountable mount_spec source automount callback =
        some ⟨b, [mount_data_new mountable mount_spec source automount callback],
          [.proxy_new_for_bus dbus_name
            (mount_data_new mountable mount_spec source automount callback)]⟩ ∧
      mountable_mount_proxy_cb ops srcops relookup b env
          (mount_data_new mountable mount_spec source automount callback) (.ok dbus_name) =
        some ⟨b, [], [.call_mount dbus_name (ops.g_mount_spec_to_dbus mount_spec) automount
          (srcops.g_mount_source_to_dbus source)
          (mount_data_new mountable mount_spec source automount callback)]⟩) ∧
    (∀ exec, mountable.dbus_name = none → mountable.exec = some exec →
      ∃ data step,
        mountable_mount relookup b env mountable mount_spec source automount callback =
          some step ∧
        step.started = [data] ∧ data.spawned = true ∧
        data.obj_path = some (cstr "/org/gtk/gvfs/exec_spaw/" ++ printf_d b.mount_id) ∧
        (∀ connection, env.g_bus_get_sync = .ok connection →
          env.g_dbus_interface_skeleton_export = none →
          ∃ rest, step.effects =
            .skeleton_export (cstr "/org/gtk/gvfs/exec_spaw/" ++ printf_d b.mount_id) data ::
            .spawn_command_line_async (g_strconcat
              [some exec, some (cstr " --spawner "), connection.unique_name, some (cstr " "),
               some (cstr "/org/gtk/gvfs/exec_spaw/" ++ printf_d b.mount_id)]) :: rest ∧
            (env.g_spawn_command_line_async = none → rest = []))) ∧
    (mountable.dbus_name = none → mountable.exec = none →
      mountable_mount relookup b env mountable mount_spec source automount callback =
        some ⟨b,
          [{ mount_data_new mountable mount_spec source automount callback with spawned := true }],
          callback_error_effects callback
            ⟨.io .FAILED, "No exec key defined for mountpoint"⟩⟩ ∧
      (∀ invocation,
        callback = .mount_location_done invocation →
        (callback_error_effects callback ⟨.io .FAILED, "No exec key defined for mountpoint"⟩ :
            List (Effect Spec Wire Source SourceWire)) =
          [.return_gerror invocation ⟨.io .FAILED, "No exec key defined for mountpoint"⟩])) := by
  refine ⟨?_, ?_, ?_⟩
  · intro dbus_name hname
    constructor
    · simp [mountable_mount, hname, mountable_mount_with_name, mount_data_new]
    · simp [mountable_mount_proxy_cb, mount_data_new]
  · intro exec hname hexec
    have hex : (mount_data_new mountable mount_spec source automount callback).mountable.exec =
        some exec := hexec
    cases hbus : env.g_bus_get_sync with
    | error err =>
      have hres := mountable_mount_eq relookup b env mountable mount_spec source automount callback
      rw [hname] at hres
      simp only [spawn_mount_bus_error relookup b env _ exec err hex hbus, Option.map_some'] at hres
      refine ⟨_, _, hres, rfl, rfl, rfl, ?_⟩
      intro connection hc
      cases hc
    | ok connection =>
      cases hexport : env.g_dbus_interface_skeleton_export with
      | some err =>
        have hres :=
          mountable_mount_eq relookup b env mountable mount_spec source automount callback
        rw [hname] at hres
        simp only [spawn_mount_export_error relookup b env _ exec connection err hex hbus hexport,
          Option.map_some'] at hres
        refine ⟨_, _, hres, rfl, rfl, rfl, ?_⟩
        intro connection' _ hc
        cases hc
      | none =>
        have hres :=
          mountable_mount_eq relookup b env mountable mount_spec source automount callback
        rw [hname] at hres
        simp only [spawn_mount_launch relookup b env _ exec connection hex hbus hexport,
          Option.map_some'] at hres
        refine ⟨_, _, hres, rfl, rfl, rfl, ?_⟩
        intro connection' hc _
        cases hc
        refine ⟨_, rfl, ?_⟩
        intro hspawn
        rw [hspawn]
  · intro hname hexec
    constructor
    · have hex : (mount_data_new mountable mount_spec source automount callback).mountable.exec =
          none := hexec
      have hres :=
        mountable_mount_eq relookup b env mountable mount_spec source automount callback
      rw [hname] at hres
      simp only [spawn_mount_no_exec relookup b env _ hex, Option.map_some'] at hres
      exact hres
    · intro invocation hcb
      rw [hcb]
      rfl

/-! ## Facts about the counter of Spawner paths -/

theorem decimal_loop_value (fuel n : Nat) (acc : CStr) (h : n < fuel) :
    (decimal_loop fuel n acc).foldl (fun a d => 10 * a + (d - 48)) 0 =
      acc.foldl (fun a d => 10 * a + (d - 48)) n := by
  induction fuel generalizing n acc with
  | zero => omega
  | succ fuel ih =>
    unfold decimal_loop
    by_cases h0 : n / 10 = 0
    · rw [if_pos h0]
      simp only [List.foldl_cons]
      congr 1
      omega
    · rw [if_neg h0, ih (n / 10) _ (by omega)]
      simp only [List.foldl_cons]
      congr 1
      omega

/-- The decimal digits of a number give the number back. -/
theorem decimal_value (n : Nat) :
    (decimal n).foldl (fun a d => 10 * a + (d - 48)) 0 = n := by
  unfold decimal
  rw [decimal_loop_value (n + 1) n [] (by omega)]
  rfl

theorem decimal_injective (j k : Nat) (h : decimal j = decimal k) : j = k := by
  rw [← decimal_value j, ← decimal_value k, h]

theorem int_wrap_succ (i : Int) : int_wrap (int_wrap i + 1) = int_wrap (i + 1) := by
  unfold int_wrap
  omega

theorem int_wrap_small (k : Nat) (h : k < 2 ^ 31) : int_wrap (k : Int) = (k : Int) := by
  unfold int_wrap
  omega

/-- From 0, the counter after `j` increments is `j` wrapped into the range of
`int`. -/
theorem mount_id_iterate (j : Nat) : (fun i : Int => int_wrap (i + 1))^[j] 0 = int_wrap j := by
  induction j with
  | zero => decide
  | succ j ih =>
    rw [Function.iterate_succ_apply', ih]
    simp only [Nat.cast_add, Nat.cast_one]
    exact int_wrap_succ _

/-- The paths that a sequence of operations allocates are those of the
successive values of the counter, one for each operation that reaches the
allocation. -/
theorem spawner_paths_eq {Spec Wire Source SourceWire : Type}
    (relookup : Relookup Spec Wire Source SourceWire) (ops : List (SpawnOp Spec Source))
    (mount_id : Int) :
    spawner_paths relookup mount_id ops =
      (List.range (ops.filter fun op => allocates_path op.mountable).length).map fun j =>
        cstr "/org/gtk/gvfs/exec_spaw/" ++
          printf_d ((fun i : Int => int_wrap (i + 1))^[j] mount_id) := by
  induction ops generalizing mount_id with
  | nil => rfl
  | cons op rest ih =>
    obtain ⟨data, step, hs, h1, -, -, -, -, -, -, h8, h9, -⟩ :=
      mountable_mount_summary relookup ⟨op.tracker, mount_id⟩ op.env op.mountable op.mount_spec
        op.source op.automount op.callback
    simp only [spawner_paths, hs, h1, List.filterMap_cons, List.filterMap_nil, h9, h8, ih]
    cases ha : allocates_path op.mountable
    · simp [List.filter_cons, ha]
    · simp only [if_true, List.filter_cons, ha, List.length_cons, List.range_succ_eq_map,
        List.map_cons, Function.iterate_zero, id_eq, List.map_map, List.singleton_append,
        List.cons.injEq, true_and]
      apply List.map_congr_left
      intro j _
      simp [Function.iterate_succ_apply]

/-- C16, as stated, fails. `mount_id` is an `int`: of 2^31 + 1 operations that
allocate a path, the last one (number 2^31, counted from 0) gets the path of
the wrapped counter, whose last segment is `-2147483648`, and not the one
described, `/org/gtk/gvfs/exec_spaw/2147483648`. -/
theorem spawner_path_counterexample :
    (spawner_paths sampleRelookup 0 (List.replicate (2 ^ 31 + 1) sampleSpawnOp)).get? (2 ^ 31) =
        some (cstr "/org/gtk/gvfs/exec_spaw/-2147483648") ∧
      spec_spawner_path (2 ^ 31) = cstr "/org/gtk/gvfs/exec_spaw/2147483648" := by
  constructor
  · rw [spawner_paths_eq]
    have hfilter : (List.replicate (2 ^ 31 + 1) sampleSpawnOp).filter
        (fun op => allocates_path op.mountable) = List.replicate (2 ^ 31 + 1) sampleSpawnOp := by
      rw [List.filter_eq_self]
      intro op hop
      rw [List.eq_of_mem_replicate hop]
      decide
    rw [hfilter, List.length_replicate, List.get?_eq_getElem?, List.getElem?_map,
      List.getElem?_range (by omega), Option.map_some', mount_id_iterate]
    decide
  · decide

/-- C16, amended. For every sequence of operations of the coordinator in one
process, the operation number `k` among those that allocate a Spawner path,
counted from 0, gets the path `/org/gtk/gvfs/exec_spaw/<k>` in decimal as long
as `k` is below 2^31, the range of the `int` counter; the first path is
`/org/gtk/gvfs/exec_spaw/0`; and no operation before it got the same path. -/
theorem spawner_path_allocation {Spec Wire Source SourceWire : Type}
    (relookup : Relookup Spec Wire Source SourceWire) (ops : List (SpawnOp Spec Source))
    (k : Nat) (p : CStr) (hk : k < 2 ^ 31)
    (hp : (spawner_paths relookup 0 ops).get? k = some p) :
    p = cstr "/org/gtk/gvfs/exec_spaw/" ++ decimal k ∧
      (k = 0 → p = cstr "/org/gtk/gvfs/exec_spaw/0") ∧
      ∀ j q, j < k → (spawner_paths relookup 0 ops).get? j = some q → q ≠ p := by
  have hget : ∀ j q, j < 2 ^ 31 → (spawner_paths relookup 0 ops).get? j = some q →
      q = cstr "/org/gtk/gvfs/exec_spaw/" ++ decimal j := by
    intro j q hj hq
    rw [spawner_paths_eq, List.get?_eq_getElem?, List.getElem?_map] at hq
    cases hr : (List.range (ops.filter fun op => allocates_path op.mountable).length)[j]? with
    | none => rw [hr] at hq; cases hq
    | some i =>
      rw [hr] at hq
      have hi : i = j := by
        have hlt : j < (List.range (ops.filter fun op => allocates_path op.mountable).length).length :=
          (List.getElem?_eq_some_iff.1 hr).1
        rw [List.getElem?_range (by simpa using hlt)] at hr
        exact (Option.some.inj hr).symm
      subst hi
      simp only [Option.map_some', Option.some.injEq] at hq
      rw [← hq, mount_id_iterate, int_wrap_small i hj]
      simp [printf_d]
  have hpk := hget k p hk hp
  refine ⟨hpk, ?_, ?_⟩
  · intro h0
    rw [hpk, h0]
    decide
  · intro j q hj hq heq
    have hqj := hget j q (by omega) hq
    rw [hqj, hpk] at heq
    have := decimal_injective j k (List.append_cancel_left heq)
    omega

/-- The first three operations of a process, the second for a descriptor with
a `DBusName`: the paths allocated are those numbered 0 and 1. -/
theorem spawner_path_allocation_witness :
    spawner_paths sampleRelookup 0
        [sampleSpawnOp,
         { sampleSpawnOp with mountable := sampleMountable none (some "org.gtk.vfs.Daemon") false },
         sampleSpawnOp] =
        [cstr "/org/gtk/gvfs/exec_spaw/0", cstr "/org/gtk/gvfs/exec_spaw/1"] ∧
      cstr "/org/gtk/gvfs/exec_spaw/1" = cstr "/org/gtk/gvfs/exec_spaw/" ++ decimal 1 :=
  ⟨by decide,
    (spawner_path_allocation sampleRelookup
      [sampleSpawnOp,
       { sampleSpawnOp with mountable := sampleMountable none (some "org.gtk.vfs.Daemon") false },
       sampleSpawnOp] 1 (cstr "/org/gtk/gvfs/exec_spaw/1") (by decide) (by decide)).1⟩

/-- C17. Helper command line: for every `Exec` string `e` of the descriptor,
unique bus name `n` of the broker and operation of the coordinator that got a
connection and exported its Spawner, the Spawner was exported at the object
path `p` of this operation and the one command line launched is `e`,
` --spawner `, `n`, a space and `p`, joined. -/
theorem helper_command_line {Spec Wire Source SourceWire : Type}
    (relookup : Relookup Spec Wire Source SourceWire) (b : Broker Spec) (env : SpawnEnv)
    (data : MountData Spec Source) (e n : CStr) (connection : GDBusConnection)
    (hexec : data.mountable.exec = some e) (hbus : env.g_bus_get_sync = .ok connection)
    (hname : connection.unique_name = some n)
    (hexport : env.g_dbus_interface_skeleton_export = none) :
    ∃ data' step p, spawn_mount relookup b env data = some (data', step) ∧
      data'.obj_path = some p ∧
      p = cstr "/org/gtk/gvfs/exec_spaw/" ++ printf_d b.mount_id ∧
      Effect.skeleton_export p data' ∈ step.effects ∧
      ∀ c, Effect.spawn_command_line_async c ∈ step.effects ↔
        c = e ++ cstr " --spawner " ++ n ++ cstr " " ++ p := by
  refine ⟨_, _, _, spawn_mount_launch relookup b env data e connection hexec hbus hexport, rfl,
    rfl, by simp, ?_⟩
  intro c
  have hcb : ∀ err : GError, Effect.spawn_command_line_async c ∉
      (callback_error_effects data.callback err : List (Effect Spec Wire Source SourceWire)) := by
    intro err
    unfold callback_error_effects
    cases data.callback <;> simp
  have hcmd : g_strconcat [some e, some (cstr " --spawner "), connection.unique_name,
      some (cstr " "), some (cstr "/org/gtk/gvfs/exec_spaw/" ++ printf_d b.mount_id)] =
      e ++ cstr " --spawner " ++ n ++ cstr " " ++
        (cstr "/org/gtk/gvfs/exec_spaw/" ++ printf_d b.mount_id) := by
    simp [g_strconcat, hname]
  rw [hcmd]
  cases hs : env.g_spawn_command_line_async with
  | none => simp
  | some err =>
    simp only [List.mem_cons, reduceCtorEq, false_or, Effect.spawn_command_line_async.injEq]
    constructor
    · rintro (h | h)
      · exact h
      · exact absurd h (hcb err)
    · intro h
      exact Or.inl h

/-- Scenario S3 as an instance of C17: the first spawn of a helper with `Exec`
`/usr/lib/gvfs-smb` by a broker named `:1.7`. -/
theorem helper_command_line_witness :
    ∃ data' step p,
      spawn_mount sampleRelookup ⟨mount_init [], 0⟩ sampleSpawnEnv
        (mount_data_new sampleSpawnOp.mountable sampleSpawnOp.mount_spec sampleSpawnOp.source
          false (.mount_location_done 1)) = some (data', step) ∧
      data'.obj_path = some p ∧
      p = cstr "/org/gtk/gvfs/exec_spaw/" ++ printf_d 0 ∧
      Effect.skeleton_export p data' ∈ step.effects ∧
      ∀ c, Effect.spawn_command_line_async c ∈ step.effects ↔
        c = cstr "/usr/lib/gvfs-smb" ++ cstr " --spawner " ++ cstr ":1.7" ++ cstr " " ++ p :=
  helper_command_line sampleRelookup ⟨mount_init [], 0⟩ sampleSpawnEnv
    (mount_data_new sampleSpawnOp.mountable sampleSpawnOp.mount_spec sampleSpawnOp.source
      false (.mount_location_done 1))
    (cstr "/usr/lib/gvfs-smb") (cstr ":1.7") ⟨some (cstr ":1.7")⟩ rfl rfl rfl rfl

/-- What `spawn_mount_handle_spawned` does, for every pending operation. On
`Spawned (true, _)` the Spawner is unexported and a proxy on the sender is
asked for, whose callback calls `Mount` on the sender with the spec, the
automount flag and the source of the operation. On `Spawned (false, msg)` the
Spawner is unexported and no proxy is asked for; the callback of the operation
gets the error `FAILED` with message `msg` when the variable `error` happens to
hold `NULL`, and whatever `error` holds otherwise. -/
theorem spawn_mount_handle_spawned_eq {Spec Wire Source SourceWire : Type}
    (ops : GMountSpecOps Spec Wire) (srcops : GMountSourceOps Source SourceWire)
    (relookup : Relookup Spec Wire Source SourceWire) (b : Broker Spec) (env : SpawnEnv)
    (data : MountData Spec Source) (invocation : Nat) (sender : CStr) (message : String)
    (error : Option GError) :
    spawn_mount_handle_spawned relookup b env data invocation sender true message error =
        some ⟨b, [], [.skeleton_unexport data.obj_path, .proxy_new_for_bus sender data,
          .complete_spawned invocation]⟩ ∧
      mountable_mount_proxy_cb ops srcops relookup b env data (.ok sender) =
        some ⟨b, [], [.call_mount sender (ops.g_mount_spec_to_dbus data.mount_spec)
          data.automount (srcops.g_mount_source_to_dbus data.source) data]⟩ ∧
      spawn_mount_handle_spawned relookup b env data invocation sender false message error =
        some ⟨b, [], .skeleton_unexport data.obj_path ::
          callback_error_effects data.callback
            (match error with
             | none => ⟨.io .FAILED, message⟩
             | some stale => stale) ++ [.complete_spawned invocation]⟩ := by
  refine ⟨rfl, rfl, ?_⟩
  cases error <;>
    simp [spawn_mount_handle_spawned, g_set_error_literal, mount_finish_error]

/-- C18, the failing input. A spawn started by `MountLocation` (invocation 1)
is pending; the helper calls `Spawned (false, "boom")` while the local variable
`error` of `spawn_mount_handle_spawned`, which is declared without a value,
holds a stale error: `g_set_error_literal` leaves it as it is, and the caller of
`MountLocation` is answered with the stale error instead of `FAILED`, `boom`. -/
theorem spawned_failure_stale_error :
    spawn_mount_handle_spawned sampleRelookup ⟨mount_init [], 1⟩ sampleSpawnEnv
        { mount_data_new sampleSpawnOp.mountable sampleSpawnOp.mount_spec sampleSpawnOp.source
            false (.mount_location_done 1) with
          spawned := true
          obj_path := some (cstr "/org/gtk/gvfs/exec_spaw/0")
          spawner := true }
        2 (cstr ":1.42") false "boom" (some ⟨.io .NOT_MOUNTED, "stale"⟩) =
      some ⟨⟨mount_init [], 1⟩, [],
        [.skeleton_unexport (some (cstr "/org/gtk/gvfs/exec_spaw/0")),
         .return_gerror 1 ⟨.io .NOT_MOUNTED, "stale"⟩,
         .complete_spawned 2]⟩ := by
  decide

/-! ## Facts about the prompt relay -/

theorem run_reply_handler_eq (op : GMountOperation) (result : GMountOperationResult)
    (h : ReplyHandler) :
    run_reply_handler op result h =
      (mount_op_send_reply op h.data, [.complete h.data (h.callback.answer op.values result)]) := by
  unfold run_reply_handler
  cases h.callback <;> rfl

theorem reply_handler_turn (values : MountOpValues) (result : GMountOperationResult)
    (h : ReplyHandler) (t : List ReplyHandler) (out : List RelayEffect)
    (hnew : h.data ∉ t.map fun x => x.data) :
    (if h ∈ (⟨values, h :: t⟩ : GMountOperation).reply_handlers then
        ((run_reply_handler ⟨values, h :: t⟩ result h).1,
          out ++ (run_reply_handler ⟨values, h :: t⟩ result h).2)
      else (⟨values, h :: t⟩, out)) =
      (⟨values, t⟩, out ++ [.complete h.data (h.callback.answer values result)]) := by
  have hfilter : (h :: t).filter (fun x => !decide (x.data = h.data)) = t := by
    rw [List.filter_cons_of_neg (by simp), List.filter_eq_self]
    intro x hx
    have : x.data ≠ h.data := fun heq => hnew (List.mem_map.2 ⟨x, hx, heq⟩)
    simpa using this
  simp only [List.mem_cons, true_or, if_true, run_reply_handler_eq, mount_op_send_reply, hfilter]

theorem g_mount_operation_reply_loop (values : MountOpValues) (result : GMountOperationResult)
    (todo : List ReplyHandler) (out : List RelayEffect)
    (hnodup : (todo.map fun h => h.data).Nodup) :
    todo.foldl
        (fun (acc : GMountOperation × List RelayEffect) h =>
          if h ∈ acc.1.reply_handlers then
            ((run_reply_handler acc.1 result h).1, acc.2 ++ (run_reply_handler acc.1 result h).2)
          else acc)
        (⟨values, todo⟩, out) =
      (⟨values, []⟩,
        out ++ todo.map fun h => .complete h.data (h.callback.answer values result)) := by
  induction todo generalizing out with
  | nil => simp
  | cons h t ih =>
    have hnd := List.nodup_cons.1 hnodup
    rw [List.foldl_cons]
    have hturn := reply_handler_turn values result h t out hnd.1
    simp only [] at hturn ⊢
    rw [hturn, ih _ hnd.2]
    simp

/-- A reply event answers every prompt that is outstanding, each once and all
from the same values, and leaves no handler connected, when the outstanding
invocations are pairwise different. -/
theorem g_mount_operation_reply_all (op : GMountOperation) (result : GMountOperationResult)
    (hnodup : (op.reply_handlers.map fun h => h.data).Nodup) :
    g_mount_operation_reply op result =
      (⟨op.values, []⟩,
        op.reply_handlers.map fun h => .complete h.data (h.callback.answer op.values result)) := by
  unfold g_mount_operation_reply
  have := g_mount_operation_reply_loop op.values result op.reply_handlers [] hnodup
  simpa using this

theorem handle_prompt_eq (op : GMountOperation) (p : Prompt) :
    ∃ cb, handle_prompt op p = (⟨op.values, op.reply_handlers ++ [⟨cb, p.invocation⟩]⟩,
        [p.emission]) ∧
      ∀ v result, cb.answer v result = p.answer v result := by
  cases p with
  | ask_password invocation message default_user default_domain flags =>
    exact ⟨.ask_password_reply, rfl, fun _ _ => rfl⟩
  | ask_question invocation message choices => exact ⟨.ask_question_reply, rfl, fun _ _ => rfl⟩
  | show_processes invocation message choices processes =>
    exact ⟨.show_processes_reply, rfl, fun _ _ => rfl⟩

/-- C19. Prompt reply derivation: for every result code and every state of the
operation, the answer to `AskPassword` is `(result ≠ unhandled, result =
aborted, password, username, domain, anonymous, password_save)` read from the
operation, with a missing password, username or domain sent as the empty
string, and the answers to `AskQuestion` and `ShowProcesses` are `(result ≠
unhandled, result = aborted, choice)`, the choice as `guint32`, which is the
choice itself for every choice from 0 on. With the values of scenario S6 and
the result handled, the answer is `(true, false, "s3cret", "alice",
"WORKGROUP", false, 0)`. -/
theorem prompt_reply_derivation (op : GMountOperation) (result : GMountOperationResult)
    (invocation : Nat) :
    (ask_password_reply op result invocation).2 =
        [.complete invocation
          (.ask_password (decide (result ≠ .UNHANDLED)) (decide (result = .ABORTED))
            (op.values.password.getD []) (op.values.username.getD [])
            (op.values.domain.getD []) op.values.anonymous op.values.password_save.toNat)] ∧
      (ask_question_reply op result invocation).2 =
        [.complete invocation
          (.ask_question (decide (result ≠ .UNHANDLED)) (decide (result = .ABORTED))
            (to_guint32 op.values.choice))] ∧
      (show_processes_reply op result invocation).2 =
        [.complete invocation
          (.show_processes (decide (result ≠ .UNHANDLED)) (decide (result = .ABORTED))
            (to_guint32 op.values.choice))] ∧
      (0 ≤ op.values.choice → op.values.choice < 2 ^ 31 →
        (to_guint32 op.values.choice : Int) = op.values.choice) ∧
      (ask_password_reply ⟨sampleValues, [⟨.ask_password_reply, invocation⟩]⟩ .HANDLED
          invocation).2 =
        [.complete invocation
          (.ask_password true false (cstr "s3cret") (cstr "alice") (cstr "WORKGROUP") false 0)] := by
  refine ⟨?_, ?_, ?_, ?_, rfl⟩
  · simp only [ask_password_reply, ask_password_answer]
    cases op.values.password <;> cases op.values.username <;> cases op.values.domain <;>
      cases result <;> rfl
  · cases result <;> rfl
  · cases result <;> rfl
  · intro h0 h1
    unfold to_guint32
    omega

/-- C20, as stated, fails. `AskPassword` (invocation 1) and `AskQuestion`
(invocation 2) come in, then the operation emits two reply events, the first
with choice 0 and the second with choice 1. The first reply event answers both
invocations, the question with choice 0; the second reply event answers
nothing, where the description has it answer the question with choice 1. -/
theorem prompt_pairing_counterexample :
    (relay_run ⟨sampleValues, []⟩
        [.prompt (.ask_password 1 (cstr "need pw") (cstr "alice") (cstr "WORKGROUP") 0),
         .prompt (.ask_question 2 (cstr "sure?") [cstr "yes", cstr "no"]),
         .reply sampleValues .HANDLED,
         .reply { sampleValues with choice := 1 } .HANDLED]).2 =
      [[.emit_ask_password (cstr "need pw") (cstr "alice") (cstr "WORKGROUP") 0],
       [.emit_ask_question (cstr "sure?") [cstr "yes", cstr "no"]],
       [.complete 1
          (.ask_password true false (cstr "s3cret") (cstr "alice") (cstr "WORKGROUP") false 0),
        .complete 2 (.ask_question true false 0)],
       []] ∧
      Prompt.answer { sampleValues with choice := 1 } .HANDLED
          (.ask_question 2 (cstr "sure?") [cstr "yes", cstr "no"]) =
        .ask_question true false 1 := by
  decide

/-- C20, amended. In any sequence of prompts on one operation in which each
prompt gets its reply event before the next prompt comes in, the reply event
number `i` answers the prompt number `i` and only that one, with the answer
built from the values of the operation at that reply event, and no handler
stays connected. When prompts overlap, a reply event answers every prompt that
is outstanding at that moment, all from the same values. -/
theorem prompt_reply_pairing (values : MountOpValues)
    (l : List (Prompt × MountOpValues × GMountOperationResult)) :
    ((relay_run ⟨values, []⟩ (one_at_a_time l)).2 =
        l.flatMap (fun x =>
          [[x.1.emission], [.complete x.1.invocation (x.1.answer x.2.1 x.2.2)]]) ∧
      (relay_run ⟨values, []⟩ (one_at_a_time l)).1.reply_handlers = []) ∧
    ∀ (op : GMountOperation) (v : MountOpValues) (result : GMountOperationResult),
      (op.reply_handlers.map fun h => h.data).Nodup →
      relay_step op (.reply v result) =
        (⟨v, []⟩, op.reply_handlers.map fun h => .complete h.data (h.callback.answer v result)) := by
  constructor
  · induction l generalizing values with
    | nil => exact ⟨rfl, rfl⟩
    | cons x l ih =>
      obtain ⟨cb, hp, hans⟩ := handle_prompt_eq ⟨values, []⟩ x.1
      have hreply : g_mount_operation_reply ⟨x.2.1, [⟨cb, x.1.invocation⟩]⟩ x.2.2 =
          (⟨x.2.1, []⟩, [.complete x.1.invocation (x.1.answer x.2.1 x.2.2)]) := by
        rw [g_mount_operation_reply_all _ _ (by simp)]
        simp [hans]
      have hrun : relay_run ⟨values, []⟩ (one_at_a_time (x :: l)) =
          ((relay_run ⟨x.2.1, []⟩ (one_at_a_time l)).1,
            [x.1.emission] :: [.complete x.1.invocation (x.1.answer x.2.1 x.2.2)] ::
              (relay_run ⟨x.2.1, []⟩ (one_at_a_time l)).2) := by
        have hcons : one_at_a_time (x :: l) =
            .prompt x.1 :: .reply x.2.1 x.2.2 :: one_at_a_time l := by
          simp [one_at_a_time, List.flatMap_cons]
        rw [hcons]
        simp only [relay_run, relay_step, hp, hreply, List.nil_append]
      rw [hrun]
      obtain ⟨h1, h2⟩ := ih x.2.1
      exact ⟨by simp [h1], h2⟩
  · intro op v result hnodup
    simp only [relay_step]
    exact g_mount_operation_reply_all ⟨v, op.reply_handlers⟩ result hnodup

/-! ## Claim C21 -/

/-- C21. When the invocations of the outstanding prompts are distinct objects,
`handle_aborted` answers every one of them, in the order of connection, with
the reply that its callback builds for `UNHANDLED`, whose `handled` and
`aborted` are both false; no handler stays connected to `reply`; then
`aborted` is emitted on the operation and the `Aborted` invocation itself is
completed with the empty answer. -/
theorem aborted_resolves_pending (op : GMountOperation) (invocation : Nat)
    (hdistinct : (op.reply_handlers.map fun h => h.data).Nodup) :
    handle_aborted op invocation =
        (⟨op.values, []⟩,
          (op.reply_handlers.map fun h =>
            RelayEffect.complete h.data (h.callback.answer op.values .UNHANDLED)) ++
            [.emit_aborted, .complete invocation .aborted]) ∧
      (∀ h ∈ op.reply_handlers,
        (h.callback.answer op.values .UNHANDLED).handled_aborted = some (false, false)) ∧
      (handle_aborted op invocation).1.reply_handlers = [] := by
  have hall := g_mount_operation_reply_all op .UNHANDLED hdistinct
  have heq : handle_aborted op invocation =
      (⟨op.values, []⟩,
        (op.reply_handlers.map fun h =>
          RelayEffect.complete h.data (h.callback.answer op.values .UNHANDLED)) ++
          [.emit_aborted, .complete invocation .aborted]) := by
    simp only [handle_aborted, hall]
  refine ⟨heq, ?_, ?_⟩
  · intro h _
    cases h.callback <;> simp [ReplyCallback.answer, ask_password_answer, ask_question_answer,
      show_processes_answer, MountOpReply.handled_aborted]
  · rw [heq]

/-- C21 at three outstanding prompts, one of each kind. -/
theorem aborted_resolves_pending_witness :
    (samplePendingOp.reply_handlers.map fun h => h.data).Nodup ∧
      handle_aborted samplePendingOp 9 =
        (⟨sampleValues, []⟩,
          [.complete 1 (.ask_password false false (cstr "s3cret") (cstr "alice")
              (cstr "WORKGROUP") false 0),
            .complete 2 (.ask_question false false 0),
            .complete 3 (.show_processes false false 0),
            .emit_aborted,
            .complete 9 .aborted]) :=
  ⟨by decide, (aborted_resolves_pending samplePendingOp 9 (by decide)).1⟩

/-! ## Facts about the catalog loader -/

/-- One entry of a `Type` list: a descriptor in front for a non-empty entry,
nothing for an empty one. -/
theorem read_mountable_type_eq (keyfile : GKeyFile) (mountables : List VfsMountable)
    (type : CStr) :
    read_mountable_type keyfile mountables type =
      (if type ≠ [] then [spec_descriptor keyfile type] else []) ++ mountables := by
  unfold read_mountable_type spec_descriptor
  by_cases h : type = []
  · simp [h]
  · cases hs : keyfile.scheme <;> simp [h, hs]

/-- The loop over a `Type` list puts the descriptors of its non-empty entries
in front, last entry first. -/
theorem read_mountable_types_eq (keyfile : GKeyFile) (types : List CStr) :
    ∀ mountables : List VfsMountable,
      types.foldl (read_mountable_type keyfile) mountables =
        ((types.filter fun type => decide (type ≠ [])).map (spec_descriptor keyfile)).reverse ++
          mountables := by
  induction types with
  | nil => intro mountables; rfl
  | cons t rest ih =>
    intro mountables
    rw [List.foldl_cons, ih, read_mountable_type_eq]
    by_cases h : t = []
    · simp [h]
    · simp [h]

/-- One directory entry puts its described descriptors in front, reversed. -/
theorem read_mountable_file_eq (mountables : List VfsMountable) (file : Option GKeyFile) :
    read_mountable_file mountables file = (spec_file_descriptors file).reverse ++ mountables := by
  cases file with
  | none => rfl
  | some keyfile =>
    cases ht : keyfile.types with
    | none => simp [read_mountable_file, spec_file_descriptors, ht]
    | some types =>
      simp only [read_mountable_file, spec_file_descriptors, ht]
      exact read_mountable_types_eq keyfile types mountables

/-- The loader puts the described descriptors of the directory in front of the
list, reversed. -/
theorem read_mountable_config_eq (files : List (Option GKeyFile)) :
    ∀ mountables : List VfsMountable,
      read_mountable_config (some files) mountables =
        (spec_descriptors files).reverse ++ mountables := by
  unfold read_mountable_config spec_descriptors
  induction files with
  | nil => intro mountables; rfl
  | cons f rest ih =>
    intro mountables
    simp only [List.foldl_cons] at ih ⊢
    rw [ih, read_mountable_file_eq]
    simp [List.flatMap_cons]

/-- A described descriptor of a directory has a non-empty type. -/
theorem spec_descriptors_type (files : List (Option GKeyFile)) :
    ∀ mountable ∈ spec_descriptors files, mountable.type ≠ [] := by
  intro mountable hm
  unfold spec_descriptors at hm
  rw [List.mem_flatMap] at hm
  obtain ⟨file, _, hin⟩ := hm
  cases file with
  | none => simp [spec_file_descriptors] at hin
  | some keyfile =>
    unfold spec_file_descriptors at hin
    cases ht : keyfile.types with
    | none => simp [ht] at hin
    | some types =>
      simp only [ht, List.mem_map, List.mem_filter] at hin
      obtain ⟨t, ⟨_, hne⟩, rfl⟩ := hin
      simpa [spec_descriptor] using hne

/-! ## Claim C22 -/

/-- C22. For every list of directory entries, `read_mountable_config` puts in
front of `mountables`, last read first, exactly the described descriptors: for
each readable file with a `Type` key one descriptor for each non-empty entry
of the list, with the `Exec`, `DBusName`, `AutoMount`, `SchemeAliases`,
`DefaultPort` and `HostnameIsInetAddress` of the file and with the `Scheme` of
the file or else the type as scheme; an unreadable file and a file without
`Type` give none. So the catalog loaded from nothing is a permutation of the
described descriptors, and each of its descriptors has a non-empty type. -/
theorem catalog_loader (files : List (Option GKeyFile)) (mountables : List VfsMountable) :
    read_mountable_config (some files) mountables =
        (files.flatMap fun file =>
          match file with
          | none => []
          | some keyfile =>
            match keyfile.types with
            | none => []
            | some types =>
              (types.filter fun type => decide (type ≠ [])).map fun type =>
                { type := type
                  exec := keyfile.exec
                  dbus_name := keyfile.dbus_name
                  automount := keyfile.automount
                  scheme := some (keyfile.scheme.getD type)
                  scheme_aliases := keyfile.scheme_aliases
                  default_port := keyfile.default_port
                  hostname_is_inet := keyfile.hostname_is_inet }).reverse ++ mountables ∧
      (read_mountable_config (some files) []).Perm (spec_descriptors files) ∧
      ∀ mountable ∈ read_mountable_config (some files) [], mountable.type ≠ [] := by
  have hspec : (files.flatMap fun file =>
      match file with
      | none => []
      | some keyfile =>
        match keyfile.types with
        | none => []
        | some types =>
          (types.filter fun type => decide (type ≠ [])).map fun type =>
            ({ type := type
               exec := keyfile.exec
               dbus_name := keyfile.dbus_name
               automount := keyfile.automount
               scheme := some (keyfile.scheme.getD type)
               scheme_aliases := keyfile.scheme_aliases
               default_port := keyfile.default_port
               hostname_is_inet := keyfile.hostname_is_inet } : VfsMountable)) =
      spec_descriptors files := by
    unfold spec_descriptors
    congr 1
  rw [hspec]
  refine ⟨read_mountable_config_eq files mountables, ?_, ?_⟩
  · rw [read_mountable_config_eq, List.append_nil]
    exact List.reverse_perm _
  · intro mountable hm
    rw [read_mountable_config_eq, List.append_nil, List.mem_reverse] at hm
    exact spec_descriptors_type files mountable hm

/-! ## Claim C23 -/

/-- C23. For every prior catalog and every content of the configuration
directory, `re_read_mountable_config` yields the catalog that
`read_mountable_config` loads from that directory into the empty list, which
for a directory that opens is the list of its described descriptors, last read
first, whatever the prior catalog was; so a second reload of the same
directory yields the catalog of the first, on the list and on the file-scope
variables. -/
theorem catalog_reload_idempotent {Spec : Type} (dir : MountableDir)
    (prior : List VfsMountable) (b : Broker Spec) :
    re_read_mountable_config dir prior = read_mountable_config dir [] ∧
      (∀ files, dir = some files →
        re_read_mountable_config dir prior = (spec_descriptors files).reverse) ∧
      re_read_mountable_config dir (re_read_mountable_config dir prior) =
        re_read_mountable_config dir prior ∧
      (reload_pipes_cb dir b).tracker.mountables = read_mountable_config dir [] ∧
      reload_pipes_cb dir (reload_pipes_cb dir b) = reload_pipes_cb dir b := by
  refine ⟨rfl, ?_, rfl, rfl, rfl⟩
  intro files hdir
  subst hdir
  unfold re_read_mountable_config
  simp only []
  rw [read_mountable_config_eq, List.append_nil]

/-! ## Facts about the types of the catalog -/

/-- The types of the described descriptors of a directory entry are the
non-empty entries of its `Type` list. -/
theorem spec_file_descriptors_types (file : Option GKeyFile) :
    (spec_file_descriptors file).map (fun mountable => mountable.type) =
      file_type_entries file := by
  cases file with
  | none => rfl
  | some keyfile =>
    cases ht : keyfile.types with
    | none => simp [spec_file_descriptors, file_type_entries, ht]
    | some types =>
      simp only [spec_file_descriptors, file_type_entries, ht, List.map_map]
      exact List.map_id _

/-- The types of the described descriptors of a directory are its type
entries. -/
theorem spec_descriptors_types (files : List (Option GKeyFile)) :
    (spec_descriptors files).map (fun mountable => mountable.type) =
      type_entries (some files) := by
  unfold spec_descriptors type_entries
  induction files with
  | nil => rfl
  | cons f rest ih =>
    simp only [List.flatMap_cons, List.map_append, ih, spec_file_descriptors_types]

/-- The types of the catalog loaded from nothing are the type entries of the
directory, last read first. -/
theorem read_mountable_config_types (dir : MountableDir) :
    (read_mountable_config dir []).map (fun mountable => mountable.type) =
      (type_entries dir).reverse := by
  cases dir with
  | none => rfl
  | some files =>
    rw [read_mountable_config_eq, List.append_nil, List.map_reverse, spec_descriptors_types]

/-- What `find_mountable` returns: nothing when no descriptor has the type,
otherwise the first descriptor of the list that has it. -/
theorem find_mountable_first (mountables : List VfsMountable) (type : CStr) :
    match find_mountable mountables type with
    | none => ∀ mountable ∈ mountables, mountable.type ≠ type
    | some found =>
      ∃ before after, mountables = before ++ found :: after ∧ found.type = type ∧
        ∀ mountable ∈ before, mountable.type ≠ type := by
  unfold find_mountable
  cases hf : mountables.find? fun mountable => decide (mountable.type = type) with
  | none =>
    intro mountable hm
    have := List.find?_eq_none.1 hf mountable hm
    simpa using this
  | some found =>
    obtain ⟨hp, before, after, heq, hbefore⟩ := List.find?_eq_some.1 hf
    refine ⟨before, after, heq, by simpa using hp, ?_⟩
    intro mountable hm
    have := hbefore mountable hm
    simpa using this

/-! ## Claim C24 -/

/-- C24, the case that fails: two files that both list type `smb` give a
catalog of two different descriptors of type `smb`, by load and by reload, and
`find_mountable` returns the one read last. -/
theorem catalog_duplicate_type_counterexample :
    read_mountable_config sampleDupDir [] =
        [spec_descriptor (sampleKeyFile ["smb"] "/usr/lib/gvfs-smb2") (cstr "smb"),
          spec_descriptor (sampleKeyFile ["smb"] "/usr/lib/gvfs-smb") (cstr "smb")] ∧
      re_read_mountable_config sampleDupDir [] = read_mountable_config sampleDupDir [] ∧
      ¬ ((read_mountable_config sampleDupDir []).map fun mountable => mountable.type).Nodup ∧
      spec_descriptor (sampleKeyFile ["smb"] "/usr/lib/gvfs-smb2") (cstr "smb") ≠
        spec_descriptor (sampleKeyFile ["smb"] "/usr/lib/gvfs-smb") (cstr "smb") ∧
      find_mountable (read_mountable_config sampleDupDir []) (cstr "smb") =
        some (spec_descriptor (sampleKeyFile ["smb"] "/usr/lib/gvfs-smb2") (cstr "smb")) := by
  decide

/-- C24, amended. For every content of the configuration directory, load and
reload give the same catalog, and the types of its descriptors are the
non-empty `Type` entries of the readable files, last read first, each as often
as it is listed: no two descriptors have the same type exactly when no type is
listed twice. `find_mountable` returns nothing when no descriptor has the type
and otherwise the first descriptor of the catalog with that type, the one read
last; when no type is listed twice, no other descriptor has that type. -/
theorem catalog_types_and_find (dir : MountableDir) (prior : List VfsMountable) (type : CStr) :
    re_read_mountable_config dir prior = read_mountable_config dir [] ∧
      (read_mountable_config dir []).map (fun mountable => mountable.type) =
        (type_entries dir).reverse ∧
      (((read_mountable_config dir []).map fun mountable => mountable.type).Nodup ↔
        (type_entries dir).Nodup) ∧
      match find_mountable (read_mountable_config dir []) type with
      | none => ∀ mountable ∈ read_mountable_config dir [], mountable.type ≠ type
      | some found =>
        ∃ before after, read_mountable_config dir [] = before ++ found :: after ∧
          found.type = type ∧ (∀ mountable ∈ before, mountable.type ≠ type) ∧
          ((type_entries dir).Nodup → ∀ mountable ∈ after, mountable.type ≠ type) := by
  have htypes := read_mountable_config_types dir
  have hnodup : ((read_mountable_config dir []).map fun mountable => mountable.type).Nodup ↔
      (type_entries dir).Nodup := by
    rw [htypes, List.nodup_reverse]
  refine ⟨rfl, htypes, hnodup, ?_⟩
  have hfirst := find_mountable_first (read_mountable_config dir []) type
  cases hf : find_mountable (read_mountable_config dir []) type with
  | none =>
    rw [hf] at hfirst
    exact hfirst
  | some found =>
    rw [hf] at hfirst
    obtain ⟨before, after, heq, htype, hbefore⟩ := hfirst
    refine ⟨before, after, heq, htype, hbefore, ?_⟩
    intro hnd mountable hm hmt
    have hnd2 := hnodup.2 hnd
    rw [heq, List.map_append, List.map_cons] at hnd2
    have hnd3 := (List.nodup_append.1 hnd2).2.1
    rw [List.nodup_cons] at hnd3
    apply hnd3.1
    rw [htype, ← hmt]
    exact List.mem_map.2 ⟨mountable, hm, rfl⟩

/-! ## Facts about operations in flight -/

section InFlightLemmas

variable {Spec Wire Source SourceWire : Type}

/-- The callback `mount_finish` does not read the pointer `mountable`. -/
theorem mount_finish_with_mountable (relookup : Relookup Spec Wire Source SourceWire)
    (b : Broker Spec) (env : SpawnEnv) (data : MountData Spec Source) (mountable : VfsMountable)
    (error : Option GError) :
    mount_finish relookup b env (data.with_mountable mountable) error =
      mount_finish relookup b env data error := rfl

/-- The calls that report a failure carry no record. -/
theorem callback_error_effects_with_mountable (callback : MountCallback Spec) (e : GError)
    (mountable : VfsMountable) :
    (callback_error_effects callback e : List (Effect Spec Wire Source SourceWire)).map
        (Effect.with_mountable mountable) =
      callback_error_effects callback e := by
  cases callback <;> rfl

/-- The reload leaves the mounts and the flag of the tracker as they are. -/
theorem reload_pipes_cb_mounts (dir : MountableDir) (b : Broker Spec) :
    (reload_pipes_cb dir b).tracker.mounts = b.tracker.mounts ∧
      (reload_pipes_cb dir b).tracker.fuse_available = b.tracker.fuse_available ∧
      (reload_pipes_cb dir b).tracker.mountables = read_mountable_config dir [] ∧
      (reload_pipes_cb dir b).mount_id = b.mount_id :=
  ⟨rfl, rfl, rfl, rfl⟩

/-- The effects of `mount_finish` for a result that does not make
`automount_done` look the spec up with no mount matching. -/
theorem mount_finish_effects (ops : GMountSpecOps Spec Wire)
    (srcops : GMountSourceOps Source SourceWire) (fuel : Nat) (b : Broker Spec) (env : SpawnEnv)
    (data : MountData Spec Source) (error : Option GError)
    (h : error = none → looks_up_again ops b data (.mount_reply none) = false) :
    ∃ effects : List (Effect Spec Wire Source SourceWire),
      effects.map (Effect.with_mountable data.mountable) = effects ∧
      (∀ mountable, effects.map (Effect.with_mountable mountable) = effects) ∧
      (∀ e ∈ effects, ∀ command_line, e ≠ .spawn_command_line_async command_line) ∧
      ∀ dir, mount_finish (relookup ops srcops (fuel + 1)) (reload_pipes_cb dir b) env data error =
        some ⟨reload_pipes_cb dir b, [], effects⟩ ∧
        mount_finish (relookup ops srcops (fuel + 1)) b env data error = some ⟨b, [], effects⟩ := by
  cases error with
  | some e =>
    refine ⟨callback_error_effects data.callback e,
      callback_error_effects_with_mountable _ _ _,
      fun m => callback_error_effects_with_mountable _ _ m, ?_, fun dir => ?_⟩
    · intro eff heff command_line
      unfold callback_error_effects at heff
      cases hc : data.callback <;> simp [hc] at heff <;> simp [heff]
    · exact ⟨mount_finish_error _ _ _ _ _, mount_finish_error _ _ _ _ _⟩
  | none =>
    have h2 := h rfl
    unfold looks_up_again at h2
    unfold mount_finish
    cases hc : data.callback with
    | mount_location_done invocation =>
      refine ⟨[.reply invocation (.value [])], rfl, fun _ => rfl, ?_, fun _ => ⟨rfl, rfl⟩⟩
      intro eff heff command_line
      simp at heff
      simp [heff]
    | automount_done d =>
      simp only [hc] at h2
      cases hm : match_vfs_mount ops b.tracker.mounts d.spec with
      | none => simp [hm] at h2
      | some mount =>
        refine ⟨[.reply d.invocation (.value (vfs_mount_to_dbus ops b.tracker.fuse_available mount))],
          rfl, fun _ => rfl, ?_, fun dir => ?_⟩
        · intro eff heff command_line
          simp at heff
          simp [heff]
        simp only [automount_done, relookup, lookup_mount_no_automount]
        simp only [(reload_pipes_cb_mounts dir b).1, (reload_pipes_cb_mounts dir b).2.1, hm]
        exact ⟨trivial, trivial⟩

end InFlightLemmas

/-! ## Claim C25 -/

/-- C25, the case that fails: `LookupMount` for `smb` starts an automount
operation on the sample broker, the helper is launched, and `Mount` succeeds
while no registered mount matches the spec. Without a reload the caller gets
`NOT_MOUNTED`; when a reload to an empty directory came in between, the caller
gets `NOT_SUPPORTED`. -/
theorem reload_in_flight_counterexample :
    handle_lookup_mount sampleOps sampleSrcOps 2 sampleBroker sampleSpawnEnv 1
        (some ⟨cstr "smb", cstr "/"⟩) =
      some ⟨⟨sampleBroker.tracker, 1⟩, [sampleAutoData],
        [.skeleton_export (cstr "/org/gtk/gvfs/exec_spaw/0") sampleAutoData,
          .spawn_command_line_async
            (cstr "/usr/lib/gvfs-smb --spawner :1.7 /org/gtk/gvfs/exec_spaw/0")]⟩ ∧
      (run_completion sampleOps sampleSrcOps (relookup sampleOps sampleSrcOps 1)
          ⟨sampleBroker.tracker, 1⟩ sampleSpawnEnv sampleAutoData (.mount_reply none)).map
          (fun step => step.effects) =
        some [.reply 1 (.error .NOT_MOUNTED "The specified location is not mounted")] ∧
      (run_completion sampleOps sampleSrcOps (relookup sampleOps sampleSrcOps 1)
          (reload_pipes_cb (some []) ⟨sampleBroker.tracker, 1⟩) sampleSpawnEnv sampleAutoData
          (.mount_reply none)).map (fun step => step.effects) =
        some [.reply 1 (.error .NOT_SUPPORTED "The specified location is not supported")] :=
  ⟨by decide, by decide, by decide⟩

/-- C25, amended. Take an operation in flight with record `data`, a completion
that comes back to it, a reload of any directory before the completion, and
any value behind the pointer `mountable` of the record afterwards. Unless the
completion is the success of `Mount` for an operation of `maybe_automount`
with no registered mount matching the spec, the callback makes the calls that
it makes without the reload and with the descriptor it was started with, the
records they carry apart; it launches no command and starts no operation. The
call of `Mount` has the spec, the automount flag and the source of the record.
In the excepted case the caller gets `NOT_MOUNTED` when the reloaded catalog
has a descriptor for the type of the spec and `NOT_SUPPORTED` when it has
none. -/
theorem reload_in_flight {Spec Wire Source SourceWire : Type} (ops : GMountSpecOps Spec Wire)
    (srcops : GMountSourceOps Source SourceWire) (fuel : Nat) (b : Broker Spec) (env : SpawnEnv)
    (data : MountData Spec Source) (completion : Completion) (dir : MountableDir)
    (mountable : VfsMountable) :
    (looks_up_again ops b data completion = false →
      ∃ effects : List (Effect Spec Wire Source SourceWire),
        run_completion ops srcops (relookup ops srcops (fuel + 1)) b env data completion =
          some ⟨b, [], effects⟩ ∧
        run_completion ops srcops (relookup ops srcops (fuel + 1)) (reload_pipes_cb dir b) env
            (data.with_mountable mountable) completion =
          some ⟨reload_pipes_cb dir b, [], effects.map (Effect.with_mountable mountable)⟩ ∧
        ∀ e ∈ effects, ∀ command_line, e ≠ .spawn_command_line_async command_line) ∧
      (∀ dbus_name,
        run_completion ops srcops (relookup ops srcops (fuel + 1)) (reload_pipes_cb dir b) env
            (data.with_mountable mountable) (.proxy (.ok dbus_name)) =
          some ⟨reload_pipes_cb dir b, [],
            [.call_mount dbus_name (ops.g_mount_spec_to_dbus data.mount_spec) data.automount
              (srcops.g_mount_source_to_dbus data.source) (data.with_mountable mountable)]⟩) ∧
      (looks_up_again ops b data completion = true →
        ∃ d, data.callback = .automount_done d ∧ completion = .mount_reply none ∧
          run_completion ops srcops (relookup ops srcops (fuel + 1)) (reload_pipes_cb dir b) env
              (data.with_mountable mountable) completion =
            some ⟨reload_pipes_cb dir b, [],
              [.reply d.invocation
                (match lookup_mountable ops (read_mountable_config dir []) d.spec with
                 | some _ => .error .NOT_MOUNTED "The specified location is not mounted"
                 | none => .error .NOT_SUPPORTED "The specified location is not supported")]⟩) := by
  refine ⟨?_, fun _ => rfl, ?_⟩
  · intro hno
    have hfinish : ∀ error : Option GError,
        (error = none → looks_up_again ops b data (.mount_reply none) = false) →
        ∃ effects : List (Effect Spec Wire Source SourceWire),
          (∀ m, effects.map (Effect.with_mountable m) = effects) ∧
          (∀ e ∈ effects, ∀ command_line, e ≠ .spawn_command_line_async command_line) ∧
          mount_finish (relookup ops srcops (fuel + 1)) (reload_pipes_cb dir b) env
              (data.with_mountable mountable) error =
            some ⟨reload_pipes_cb dir b, [], effects⟩ ∧
          mount_finish (relookup ops srcops (fuel + 1)) b env data error =
            some ⟨b, [], effects⟩ := by
      intro error herr
      obtain ⟨effects, _, hmap, hlaunch, hrun⟩ :=
        mount_finish_effects ops srcops fuel b env data error herr
      exact ⟨effects, hmap, hlaunch,
        (mount_finish_with_mountable _ _ _ data mountable error).trans (hrun dir).1, (hrun dir).2⟩
    cases completion with
    | spawned invocation sender arg_succeeded arg_error_message error =>
      cases arg_succeeded with
      | true =>
        refine ⟨[.skeleton_unexport data.obj_path, .proxy_new_for_bus sender data,
          .complete_spawned invocation], rfl, rfl, ?_⟩
        intro e he command_line
        simp at he
        rcases he with he | he | he <;> simp [he]
      | false =>
        obtain ⟨e0, he0⟩ : ∃ e0, g_set_error_literal error (.io .FAILED) arg_error_message =
            some e0 := by
          cases error with
          | none => exact ⟨_, rfl⟩
          | some e => exact ⟨e, rfl⟩
        obtain ⟨effects, hmap, hlaunch, h1, h2⟩ := hfinish (some e0) (fun h => by cases h)
        refine ⟨.skeleton_unexport data.obj_path :: effects ++ [.complete_spawned invocation],
          ?_, ?_, ?_⟩
        · simp [run_completion, spawn_mount_handle_spawned, he0, h2]
        · simp only [run_completion, spawn_mount_handle_spawned, he0, h1]
          simp [hmap, Effect.with_mountable, MountData.with_mountable]
        · intro e he command_line
          simp at he
          rcases he with he | he | he
          · simp [he]
          · exact hlaunch e he command_line
          · simp [he]
    | proxy proxy =>
      cases proxy with
      | error e =>
        obtain ⟨effects, hmap, hlaunch, h1, h2⟩ := hfinish (some e) (fun h => by cases h)
        exact ⟨effects, h2, by rw [hmap]; exact h1, hlaunch⟩
      | ok dbus_name =>
        refine ⟨[.call_mount dbus_name (ops.g_mount_spec_to_dbus data.mount_spec) data.automount
          (srcops.g_mount_source_to_dbus data.source) data], rfl, rfl, ?_⟩
        intro e he command_line
        simp at he
        simp [he]
    | mount_reply res =>
      cases res with
      | some e =>
        obtain ⟨effects, hmap, hlaunch, h1, h2⟩ := hfinish (some e) (fun h => by cases h)
        exact ⟨effects, h2, by rw [hmap]; exact h1, hlaunch⟩
      | none =>
        obtain ⟨effects, hmap, hlaunch, h1, h2⟩ := hfinish none (fun _ => hno)
        exact ⟨effects, h2, by rw [hmap]; exact h1, hlaunch⟩
  · intro hyes
    cases completion with
    | spawned invocation sender arg_succeeded arg_error_message error =>
      simp [looks_up_again] at hyes
    | proxy proxy => simp [looks_up_again] at hyes
    | mount_reply res =>
      cases res with
      | some e => simp [looks_up_again] at hyes
      | none =>
        unfold looks_up_again at hyes
        cases hc : data.callback with
        | mount_location_done invocation => simp [hc] at hyes
        | automount_done d =>
          simp only [hc] at hyes
          have hm : match_vfs_mount ops b.tracker.mounts d.spec = none := by
            cases hm : match_vfs_mount ops b.tracker.mounts d.spec with
            | none => rfl
            | some mount => simp [hm] at hyes
          refine ⟨d, rfl, rfl, ?_⟩
          have hcb : (data.with_mountable mountable).callback = .automount_done d := hc
          simp only [run_completion, dbus_mount_reply, mount_finish, hcb, automount_done, relookup,
            lookup_mount_no_automount, (reload_pipes_cb_mounts dir b).1,
            (reload_pipes_cb_mounts dir b).2.2.1, hm]

/-! ## Facts about the unmount job -/

/-- The test of the force flag is the test of bit 0 of `flags`. -/
theorem force_unmount_bit (flags : Nat) :
    decide (flags % 2 ^ 32 &&& G_MOUNT_UNMOUNT_FORCE ≠ 0) = flags.testBit 0 := by
  unfold G_MOUNT_UNMOUNT_FORCE
  rw [Nat.and_one_is_mod, Nat.testBit_zero]
  have h : flags % 2 ^ 32 % 2 = flags % 2 := by omega
  rw [h]
  rcases Nat.mod_two_eq_zero_or_one flags with h0 | h1
  · simp [h0]
  · simp [h1]

/-! ## Claim C26 -/

/-- C26. For a backend whose class has neither `try_unmount` nor `unmount`
and for every value of `flags`, `try` returns `TRUE` and makes exactly one
call. With a dummy source that call is never the start of the interactive
unmount: it is `g_vfs_job_failed_literal` with `G_IO_ERROR_BUSY` and the
message `Filesystem is busy` when the backend has blocking processes and bit 0
of `flags`, the force flag, is clear, and `g_vfs_job_succeeded` otherwise. With
a source that is not a dummy, blocking processes and the force flag clear, the
call is `g_vfs_backend_unmount_with_operation`, and the job neither fails nor
succeeds. -/
theorem unmount_fast_path {Source : Type} (g_mount_source_is_dummy : Source → Bool)
    (op_job : GVfsJobUnmount Source) (htry : op_job.backend.klass.try_unmount = none)
    (hunmount : op_job.backend.klass.unmount = false) :
    (g_mount_source_is_dummy op_job.mount_source = true →
      job_try g_mount_source_is_dummy op_job =
        (true,
          [if op_job.backend.has_blocking_processes = true ∧ op_job.flags.testBit 0 = false then
            .g_vfs_job_failed_literal (.io .BUSY) "Filesystem is busy"
          else .g_vfs_job_succeeded])) ∧
      (g_mount_source_is_dummy op_job.mount_source = false →
        op_job.backend.has_blocking_processes = true → op_job.flags.testBit 0 = false →
        job_try g_mount_source_is_dummy op_job =
          (true, [.g_vfs_backend_unmount_with_operation op_job.mount_source])) := by
  constructor
  · intro hdummy
    simp only [job_try, job_finish_immediately_if_possible, force_unmount_bit, htry, hunmount,
      hdummy]
    cases op_job.backend.has_blocking_processes <;> cases op_job.flags.testBit 0 <;> simp
  · intro hdummy hbusy hforce
    simp only [job_try, force_unmount_bit, hdummy, hbusy, hforce]
    rfl

/-- C26 on a busy backend and flags 0: with the dummy source the job fails with
`G_IO_ERROR_BUSY`; with a source named `:1.42` the interactive unmount
starts. -/
theorem unmount_fast_path_witness :
    job_try sampleIsDummy (sampleUnmountJob true 0 ([], [])) =
        (true, [.g_vfs_job_failed_literal (.io .BUSY) "Filesystem is busy"]) ∧
      job_try sampleIsDummy (sampleUnmountJob true 0 (cstr ":1.42", cstr "/org/gtk/gvfs/mountop/0")) =
        (true, [.g_vfs_backend_unmount_with_operation
          (cstr ":1.42", cstr "/org/gtk/gvfs/mountop/0")]) :=
  ⟨(unmount_fast_path sampleIsDummy (sampleUnmountJob true 0 ([], [])) rfl rfl).1 (by decide),
    (unmount_fast_path sampleIsDummy
      (sampleUnmountJob true 0 (cstr ":1.42", cstr "/org/gtk/gvfs/mountop/0")) rfl rfl).2
      (by decide) rfl (by decide)⟩

end Gvfs
